import Mathlib

/-!
# Moonlight TV: session lifecycle and gamepad input translation

A shallow embedding of

* `src/src/app/stream/session.c` (`session_interrupt`, `streaming_error`,
  `session_destroy`, `session_config_init`), and
* `src/app/stream/input/sdl/gamepad.c` (`sdlinput_handle_cbutton_event`,
  `sdlinput_handle_caxis_event`, `get_gamepad`, `vmouse_set_vector`,
  `release_buttons`, `calc_mouse_movement`, `vmouse_timer_callback`).

Process-wide C variables become fields of an explicit state record, calls into
collaborators (the streaming transport, SDL, the UI bus) become entries of an
output log, and constants that come from headers outside the sources are
parameters collected in records.
-/

namespace Moonlight

/-! ## Session lifecycle (`session.c`) -/

/-- Members of `streaming_interrupt_reason_t` named by `session.c`.  The enum
is declared in a header that is not part of the sources, so the numeric values
are parameters. -/
structure InterruptReasons where
  STREAMING_INTERRUPT_QUIT : Int
  STREAMING_INTERRUPT_ERROR : Int
  STREAMING_INTERRUPT_WATCHDOG : Int
  STREAMING_INTERRUPT_NETWORK : Int
  STREAMING_INTERRUPT_DECODER : Int
deriving DecidableEq, Repr

/-- The two mutexes of a session. -/
inductive SessionMutex where
  | mutex
  | state_lock
deriving DecidableEq, Repr

/-- Calls into collaborators made by the session functions, in program order. -/
inductive SessionEffect where
  | SDL_LockMutex (m : SessionMutex)
  | SDL_UnlockMutex (m : SessionMutex)
  | session_input_interrupt
  | embed_interrupt
  | SDL_CondSignal
  | session_input_deinit
  | SDL_WaitThread
  | serverdata_free
  | SDL_DestroyCond
  | SDL_DestroyMutex (m : SessionMutex)
  | free_app_name
  | free_session
deriving DecidableEq, Repr

/-- The fields of `session_t` read or written by the interruption path.  Each
mutex is represented by its hold count. -/
structure session_t where
  interrupted : Bool
  quitapp : Bool
  embed : Bool
  embed_process : Bool
  mutex : Int
  state_lock : Int
deriving DecidableEq, Repr

/-- A session pointer (`none` is `NULL`) together with the process-wide error
slot `streaming_errno` / `streaming_errmsg` and the log of collaborator calls. -/
structure SessionWorld where
  session : Option session_t
  streaming_errno : Int
  streaming_errmsg : String
  log : List SessionEffect
deriving DecidableEq, Repr

/-- Apply `f` to the session behind the pointer. -/
def SessionWorld.modify (w : SessionWorld) (f : session_t → session_t) : SessionWorld :=
  { w with session := w.session.map f }

/-- Append one collaborator call to the log. -/
def SessionWorld.emit (w : SessionWorld) (e : SessionEffect) : SessionWorld :=
  { w with log := w.log ++ [e] }

/-- The call `SDL_LockMutex(session->m)`. -/
def SDL_LockMutex (m : SessionMutex) (w : SessionWorld) : SessionWorld :=
  (w.modify fun s =>
    match m with
    | .mutex => { s with mutex := s.mutex + 1 }
    | .state_lock => { s with state_lock := s.state_lock + 1 }).emit (.SDL_LockMutex m)

/-- The call `SDL_UnlockMutex(session->m)`. -/
def SDL_UnlockMutex (m : SessionMutex) (w : SessionWorld) : SessionWorld :=
  (w.modify fun s =>
    match m with
    | .mutex => { s with mutex := s.mutex - 1 }
    | .state_lock => { s with state_lock := s.state_lock - 1 }).emit (.SDL_UnlockMutex m)

/-- The `vsnprintf` into the 1024-byte buffer `streaming_errmsg`: at most 1023
characters are kept. -/
def vsnprintf_errmsg (msg : String) : String :=
  String.mk (msg.toList.take 1023)

/-- The function `streaming_error(session, code, fmt, ...)` with the formatted text `msg`. -/
def streaming_error (code : Int) (msg : String) (w : SessionWorld) : SessionWorld :=
  let w1 := SDL_LockMutex .state_lock w
  let w2 := { w1 with streaming_errno := code, streaming_errmsg := vsnprintf_errmsg msg }
  SDL_UnlockMutex .state_lock w2

/-- The `switch (reason)` of `session_interrupt`, entered when
`reason >= STREAMING_INTERRUPT_ERROR`. -/
def interrupt_error_message (R : InterruptReasons) (reason : Int) : String :=
  if reason = R.STREAMING_INTERRUPT_WATCHDOG then "Stream stalled"
  else if reason = R.STREAMING_INTERRUPT_NETWORK then "Network error happened"
  else if reason = R.STREAMING_INTERRUPT_DECODER then "Decoder reported error"
  else "Error occurred while in streaming"

/-- The function `session_interrupt(session, quitapp, reason)`.  `FEATURE_EMBEDDED_SHELL` is
the build flag guarding the `embed_interrupt` call. -/
def session_interrupt (R : InterruptReasons) (FEATURE_EMBEDDED_SHELL : Bool)
    (quitapp : Bool) (reason : Int) (w : SessionWorld) : SessionWorld :=
  match w.session with
  | none => w
  | some s0 =>
    let w1 := SDL_LockMutex .mutex w
    if s0.interrupted then
      SDL_UnlockMutex .mutex w1
    else
      let w2 := w1.emit .session_input_interrupt
      let w3 := w2.modify fun s => { s with quitapp := quitapp }
      let w4 := w3.modify fun s => { s with interrupted := true }
      let w5 := if FEATURE_EMBEDDED_SHELL && s0.embed && s0.embed_process
                then w4.emit .embed_interrupt else w4
      let w6 := if R.STREAMING_INTERRUPT_ERROR ≤ reason
                then streaming_error reason (interrupt_error_message R reason) w5 else w5
      let w7 := w6.emit .SDL_CondSignal
      let w8 := SDL_UnlockMutex .mutex w7
      SDL_UnlockMutex .state_lock w8

/-- The function `session_destroy(session)`: the interruption request followed by the
teardown calls. -/
def session_destroy (R : InterruptReasons) (FEATURE_EMBEDDED_SHELL : Bool)
    (w : SessionWorld) : SessionWorld :=
  let w1 := session_interrupt R FEATURE_EMBEDDED_SHELL false R.STREAMING_INTERRUPT_QUIT w
  { w1 with
    session := none
    log := w1.log ++ [.session_input_deinit, .SDL_WaitThread, .serverdata_free,
      .SDL_DestroyCond, .SDL_DestroyMutex .mutex, .SDL_DestroyMutex .state_lock,
      .free_app_name, .free_session] }

/-- The reason values of the upstream enum order (user, host, background,
quit, error, watchdog, network, decoder), used for concrete runs. -/
def sampleReasons : InterruptReasons :=
  { STREAMING_INTERRUPT_QUIT := 3
    STREAMING_INTERRUPT_ERROR := 4
    STREAMING_INTERRUPT_WATCHDOG := 5
    STREAMING_INTERRUPT_NETWORK := 6
    STREAMING_INTERRUPT_DECODER := 7 }

/-- A freshly created session: nothing held, not interrupted, empty error slot
(`streaming_errno = GS_OK = 0`). -/
def freshSessionWorld : SessionWorld :=
  { session := some { interrupted := false, quitapp := false, embed := false,
                      embed_process := false, mutex := 0, state_lock := 0 }
    streaming_errno := 0
    streaming_errmsg := ""
    log := [] }

/-! ## Gamepad input translation (`gamepad.c`) -/

/-- Button flag constants of the streaming library header (`A_FLAG`, ...).
The header is not part of the sources, so the values are parameters. -/
structure ButtonFlags where
  A_FLAG : Nat
  B_FLAG : Nat
  X_FLAG : Nat
  Y_FLAG : Nat
  UP_FLAG : Nat
  DOWN_FLAG : Nat
  LEFT_FLAG : Nat
  RIGHT_FLAG : Nat
  PLAY_FLAG : Nat
  BACK_FLAG : Nat
  LS_CLK_FLAG : Nat
  RS_CLK_FLAG : Nat
  LB_FLAG : Nat
  RB_FLAG : Nat
  SPECIAL_FLAG : Nat
deriving DecidableEq, Repr

/-- The values the streaming library header assigns to the button flags, used
for concrete runs. -/
def limelightFlags : ButtonFlags :=
  { A_FLAG := 0x1000, B_FLAG := 0x2000, X_FLAG := 0x4000, Y_FLAG := 0x8000
    UP_FLAG := 0x0001, DOWN_FLAG := 0x0002, LEFT_FLAG := 0x0004, RIGHT_FLAG := 0x0008
    PLAY_FLAG := 0x0010, BACK_FLAG := 0x0020, LS_CLK_FLAG := 0x0040, RS_CLK_FLAG := 0x0080
    LB_FLAG := 0x0100, RB_FLAG := 0x0200, SPECIAL_FLAG := 0x0400 }

/-- Conversion to `short`, kept as a 16-bit pattern. -/
def toShortBits (n : Nat) : Nat := n % 65536

/-- Conversion of an `int` value to `short` (two's complement wrap-around). -/
def toShort (v : Int) : Int := (v + 32768) % 65536 - 32768

/-- The macro `#define QUIT_BUTTONS (PLAY_FLAG | BACK_FLAG | LB_FLAG | RB_FLAG)`. -/
def QUIT_BUTTONS (F : ButtonFlags) : Nat :=
  F.PLAY_FLAG ||| F.BACK_FLAG ||| F.LB_FLAG ||| F.RB_FLAG

/-- The values of `event->button` that `sdlinput_handle_cbutton_event`
distinguishes; `other` stands for every value that reaches `default:`. -/
inductive SDL_GameControllerButton where
  | A | B | X | Y
  | DPAD_UP | DPAD_DOWN | DPAD_RIGHT | DPAD_LEFT
  | BACK | START | GUIDE
  | LEFTSTICK | RIGHTSTICK
  | LEFTSHOULDER | RIGHTSHOULDER
  | other (code : Nat)
deriving DecidableEq, Repr

/-- The values of `event->axis` that `sdlinput_handle_caxis_event`
distinguishes; `other` stands for every value that reaches `default:`. -/
inductive SDL_GameControllerAxis where
  | LEFTX | LEFTY | RIGHTX | RIGHTY | TRIGGERLEFT | TRIGGERRIGHT
  | other (code : Nat)
deriving DecidableEq, Repr

/-- The values of `absinput_virtual_mouse`. -/
inductive ABSINPUT_VMOUSE where
  | OFF | LEFT_STICK | RIGHT_STICK
deriving DecidableEq, Repr

/-- An `SDL_ControllerButtonEvent`: `down` is
`event->type == SDL_CONTROLLERBUTTONDOWN`. -/
structure SDL_ControllerButtonEvent where
  which : Int
  button : SDL_GameControllerButton
  down : Bool
deriving DecidableEq, Repr

/-- An `SDL_ControllerAxisEvent`; `value` is a signed 16-bit quantity. -/
structure SDL_ControllerAxisEvent where
  which : Int
  axis : SDL_GameControllerAxis
  value : Int
deriving DecidableEq, Repr

/-- One entry of `gamepads[]`.  `buttons` is kept as a 16-bit pattern and the
triggers as 8-bit patterns. -/
structure GAMEPAD_STATE where
  leftTrigger : Nat
  rightTrigger : Nat
  leftStickX : Int
  leftStickY : Int
  rightStickX : Int
  rightStickY : Int
  buttons : Nat
  sdl_id : Int
  id : Nat
  initialized : Bool
deriving DecidableEq, Repr

/-- The zero-initialised entry of the static array `gamepads[]`. -/
def GAMEPAD_STATE.zero : GAMEPAD_STATE :=
  { leftTrigger := 0, rightTrigger := 0, leftStickX := 0, leftStickY := 0
    rightStickX := 0, rightStickY := 0, buttons := 0, sdl_id := 0, id := 0
    initialized := false }

/-- Calls that leave the input translator. -/
inductive InputOutput where
  | LiSendMultiControllerEvent (controllerNumber activeGamepadMask buttonFlags : Nat)
      (leftTrigger rightTrigger : Nat)
      (leftStickX leftStickY rightStickX rightStickY : Int)
  | LiSendMouseMoveEvent (deltaX deltaY : Int)
  | bus_pushevent_USER_OPEN_OVERLAY
deriving DecidableEq, Repr

/-- The process-wide variables of the input translator.  `timers` lists the
ids of the SDL timers that are currently scheduled and `next_timer_id` is the
id the next successful `SDL_AddTimer` hands out. -/
structure InputState where
  gamepads : Fin 4 → GAMEPAD_STATE
  activeGamepadMask : Nat
  quit_combo_pressed : Bool
  absinput_no_control : Bool
  absinput_virtual_mouse : ABSINPUT_VMOUSE
  swap_abxy : Bool
  vmouse_vector_x : Int
  vmouse_vector_y : Int
  vmouse_timer_id : Nat
  timers : List Nat
  next_timer_id : Nat

/-- The state at program start: every static is zero. -/
def InputState.init : InputState :=
  { gamepads := fun _ => GAMEPAD_STATE.zero
    activeGamepadMask := 0
    quit_combo_pressed := false
    absinput_no_control := false
    absinput_virtual_mouse := .OFF
    swap_abxy := false
    vmouse_vector_x := 0
    vmouse_vector_y := 0
    vmouse_timer_id := 0
    timers := []
    next_timer_id := 1 }

/-- Overwrite `gamepads[i]`. -/
def InputState.setPad (s : InputState) (i : Fin 4) (g : GAMEPAD_STATE) : InputState :=
  { s with gamepads := Function.update s.gamepads i g }

/-- The first branch of the loop body of `get_gamepad`: slot `i` is claimed
for the device and its bit is set in `activeGamepadMask`. -/
def claim_slot (sdl_id : Int) (s : InputState) (i : Fin 4) : InputState :=
  { s.setPad i { s.gamepads i with sdl_id := sdl_id, id := i.val, initialized := true } with
    activeGamepadMask := s.activeGamepadMask ||| (1 <<< i.val) }

/-- The body of the `for` loop of `get_gamepad`, over the indices still to be
visited; falling off the end returns `&gamepads[0]`. -/
def get_gamepad_scan (sdl_id : Int) (s : InputState) : List (Fin 4) → InputState × Fin 4
  | [] => (s, 0)
  | i :: rest =>
    if !(s.gamepads i).initialized then
      (claim_slot sdl_id s i, i)
    else if (s.gamepads i).sdl_id = sdl_id then
      (s, i)
    else
      get_gamepad_scan sdl_id s rest

/-- The function `get_gamepad(sdl_id)`: the new registry and the index of the returned slot. -/
def get_gamepad (sdl_id : Int) (s : InputState) : InputState × Fin 4 :=
  get_gamepad_scan sdl_id s [0, 1, 2, 3]

/-- The `LiSendMultiControllerEvent` call made with the fields of a slot. -/
def sendControllerState (s : InputState) (g : GAMEPAD_STATE) : InputOutput :=
  .LiSendMultiControllerEvent g.id s.activeGamepadMask g.buttons g.leftTrigger g.rightTrigger
    g.leftStickX g.leftStickY g.rightStickX g.rightStickY

/-- The function `release_buttons(gamepad)`: zero the slot and send its state. -/
def release_buttons (s : InputState) (i : Fin 4) : InputState × List InputOutput :=
  let g := { s.gamepads i with buttons := 0, leftTrigger := 0, rightTrigger := 0
                               leftStickX := 0, leftStickY := 0
                               rightStickX := 0, rightStickY := 0 }
  let s1 := s.setPad i g
  (s1, [sendControllerState s1 g])

/-- The `switch (event->button)` of `sdlinput_handle_cbutton_event`; `none` is
the `default: return`. -/
def button_flag (F : ButtonFlags) (swap_abxy : Bool) : SDL_GameControllerButton → Option Nat
  | .A => some (toShortBits (if swap_abxy then F.B_FLAG else F.A_FLAG))
  | .B => some (toShortBits (if swap_abxy then F.A_FLAG else F.B_FLAG))
  | .Y => some (toShortBits (if swap_abxy then F.X_FLAG else F.Y_FLAG))
  | .X => some (toShortBits (if swap_abxy then F.Y_FLAG else F.X_FLAG))
  | .DPAD_UP => some (toShortBits F.UP_FLAG)
  | .DPAD_DOWN => some (toShortBits F.DOWN_FLAG)
  | .DPAD_RIGHT => some (toShortBits F.RIGHT_FLAG)
  | .DPAD_LEFT => some (toShortBits F.LEFT_FLAG)
  | .BACK => some (toShortBits F.BACK_FLAG)
  | .START => some (toShortBits F.PLAY_FLAG)
  | .GUIDE => some (toShortBits F.SPECIAL_FLAG)
  | .LEFTSTICK => some (toShortBits F.LS_CLK_FLAG)
  | .RIGHTSTICK => some (toShortBits F.RS_CLK_FLAG)
  | .LEFTSHOULDER => some (toShortBits F.LB_FLAG)
  | .RIGHTSHOULDER => some (toShortBits F.RB_FLAG)
  | .other _ => none

/-- The update `buttons |= button` (press) or `buttons &= ~button` (release) on
the 16-bit pattern. -/
def update_buttons (buttons button : Nat) (down : Bool) : Nat :=
  if down then toShortBits (buttons ||| button) else buttons &&& (65535 ^^^ button)

/-- The function `sdlinput_handle_cbutton_event(event)`: the new state and the calls that
left the translator, in order. -/
def sdlinput_handle_cbutton_event (F : ButtonFlags) (s : InputState)
    (event : SDL_ControllerButtonEvent) : InputState × List InputOutput :=
  let (s1, i) := get_gamepad event.which s
  match button_flag F s1.swap_abxy event.button with
  | none => (s1, [])
  | some button =>
    let g := { s1.gamepads i with
                buttons := update_buttons (s1.gamepads i).buttons button event.down }
    let s2 := s1.setPad i g
    if g.buttons &&& QUIT_BUTTONS F = QUIT_BUTTONS F then
      ({ s2 with quit_combo_pressed := true }, [])
    else if s2.quit_combo_pressed then
      if g.buttons = 0 then
        let (s3, out) := release_buttons { s2 with quit_combo_pressed := false } i
        (s3, out ++ [.bus_pushevent_USER_OPEN_OVERLAY])
      else
        (s2, [])
    else if s2.absinput_no_control then
      (s2, [])
    else
      (s2, [sendControllerState s2 g])


/-- The stick update `(short) -SDL_max(event->value, (short) -32767)`. -/
def stick_value (value : Int) : Int :=
  toShort (-(max value (-32767)))

/-- The trigger update `(char) (event->value * 255UL / 32767)`, kept as an
8-bit pattern.  `ulong_bits` is the width of `unsigned long` on the target;
the multiplication and the division are done in that unsigned type. -/
def trigger_value (ulong_bits : Nat) (value : Int) : Nat :=
  ((value % (2 ^ ulong_bits : Int)).toNat * 255 % 2 ^ ulong_bits / 32767) % 256

/-- The macro `LV_CLAMP(min, val, max)` of the UI library: `LV_MAX(min, LV_MIN(val, max))`. -/
def LV_CLAMP (min val max : Int) : Int :=
  Max.max min (Min.min val max)

/-- The least natural number whose square is at least `d`. -/
def ceilSqrt (d : Nat) : Nat :=
  if Nat.sqrt d * Nat.sqrt d = d then Nat.sqrt d else Nat.sqrt d + 1

/-- The integer obtained by discarding the fractional part of the real number
`√d * sign / 32 - c`, for `sign = 1` (`positive`) or `sign = -1` and `0 ≤ c`:
the value of the conversion to an integer type of
`SDL_sqrt(d) * sign / 32 - c`.  Written with integer square roots: for a
non-negative value the floor, for a negative one the ceiling. -/
def sqrt_scaled_trunc (d : Nat) (positive : Bool) (c : Nat) : Int :=
  if positive then
    if 32 * c ≤ Nat.sqrt d then ((Nat.sqrt d / 32 : Nat) : Int) - c
    else (((ceilSqrt d + 31) / 32 : Nat) : Int) - c
  else
    -((Nat.sqrt d / 32 + c : Nat) : Int)

/-- The function `calc_mouse_movement(axis)` for a `short` argument. -/
def calc_mouse_movement (axis : Int) : Int :=
  let abs_axis := toShort (if axis > 0 then axis else -axis)
  let threshold : Int := 4096
  let speed : Int := 8
  if abs_axis < threshold then 0
  else toShort (sqrt_scaled_trunc (abs_axis - threshold).toNat (decide (axis > 0))
                  (LV_CLAMP 0 speed 16).toNat)

/-- The call `SDL_AddTimer`: schedules a timer under a fresh id and returns that id. -/
def SDL_AddTimer (s : InputState) : InputState × Nat :=
  ({ s with timers := s.timers ++ [s.next_timer_id], next_timer_id := s.next_timer_id + 1 },
   s.next_timer_id)

/-- The call `SDL_RemoveTimer(id)`: the timer is no longer scheduled. -/
def SDL_RemoveTimer (s : InputState) (id : Nat) : InputState :=
  { s with timers := s.timers.filter fun t => t != id }

/-- The function `vmouse_set_vector(x, y)`. -/
def vmouse_set_vector (x y : Int) (s : InputState) : InputState :=
  let s1 := { s with vmouse_vector_x := calc_mouse_movement (toShort (-x)) }
  let s2 := { s1 with vmouse_vector_y := calc_mouse_movement (toShort (-y)) }
  if s2.vmouse_vector_x ≠ 0 ∨ s2.vmouse_vector_y ≠ 0 then
    if s2.vmouse_timer_id = 0 then
      let (s3, id) := SDL_AddTimer s2
      { s3 with vmouse_timer_id := id }
    else s2
  else if s2.vmouse_timer_id ≠ 0 then
    { SDL_RemoveTimer s2 s2.vmouse_timer_id with vmouse_timer_id := 0 }
  else s2

/-- The function `vmouse_timer_callback`: the returned interval and the calls made. -/
def vmouse_timer_callback (s : InputState) : Nat × List InputOutput :=
  if s.absinput_virtual_mouse = .OFF then (0, [])
  else if s.vmouse_vector_x = 0 ∧ s.vmouse_vector_y = 0 then (0, [])
  else (5, [.LiSendMouseMoveEvent s.vmouse_vector_x s.vmouse_vector_y])

/-- One firing of the scheduled timer `id`: SDL runs the callback and drops the
timer when the callback returns 0.  A timer that is not scheduled does not
fire. -/
def timer_tick (s : InputState) (id : Nat) : InputState × List InputOutput :=
  if id ∈ s.timers then
    let (interval, out) := vmouse_timer_callback s
    if interval = 0 then (SDL_RemoveTimer s id, out) else (s, out)
  else (s, [])

/-- The `switch (event->axis)` of `sdlinput_handle_caxis_event`: the updated
slot and `vmouse_intercepted`; `none` is the `default: return`. -/
def axis_update (ulong_bits : Nat) (mode : ABSINPUT_VMOUSE) (g : GAMEPAD_STATE) (value : Int) :
    SDL_GameControllerAxis → Option (GAMEPAD_STATE × Bool)
  | .LEFTX => some ({ g with leftStickX := stick_value value }, false)
  | .LEFTY => some ({ g with leftStickY := stick_value value }, false)
  | .RIGHTX => some ({ g with rightStickX := stick_value value }, decide (mode = .RIGHT_STICK))
  | .RIGHTY => some ({ g with rightStickY := stick_value value }, decide (mode = .RIGHT_STICK))
  | .TRIGGERLEFT => some ({ g with leftTrigger := trigger_value ulong_bits value }, false)
  | .TRIGGERRIGHT => some ({ g with rightTrigger := trigger_value ulong_bits value }, false)
  | .other _ => none

/-- The function `sdlinput_handle_caxis_event(event)`: the new state and the calls that left
the translator, in order. -/
def sdlinput_handle_caxis_event (ulong_bits : Nat) (s : InputState)
    (event : SDL_ControllerAxisEvent) : InputState × List InputOutput :=
  let (s1, i) := get_gamepad event.which s
  match axis_update ulong_bits s1.absinput_virtual_mouse (s1.gamepads i) event.value
      event.axis with
  | none => (s1, [])
  | some (g, vmouse_intercepted) =>
    let s2 := s1.setPad i g
    if s2.absinput_no_control then (s2, [])
    else if vmouse_intercepted then
      if s2.absinput_virtual_mouse = .RIGHT_STICK then
        (vmouse_set_vector g.rightStickX g.rightStickY s2, [])
      else if s2.absinput_virtual_mouse = .LEFT_STICK then
        (vmouse_set_vector g.leftStickX g.leftStickY s2, [])
      else (s2, [])
    else (s2, [sendControllerState s2 g])

/-- An input event delivered to the translator. -/
inductive InputEvent where
  | button (e : SDL_ControllerButtonEvent)
  | axis (e : SDL_ControllerAxisEvent)
deriving DecidableEq, Repr

/-- Dispatch of one event to its handler. -/
def handle_event (F : ButtonFlags) (ulong_bits : Nat) (s : InputState) :
    InputEvent → InputState × List InputOutput
  | .button e => sdlinput_handle_cbutton_event F s e
  | .axis e => sdlinput_handle_caxis_event ulong_bits s e

/-- Serialized delivery of a sequence of events: the final state and the
concatenated output. -/
def handle_events (F : ButtonFlags) (ulong_bits : Nat) (s : InputState) :
    List InputEvent → InputState × List InputOutput
  | [] => (s, [])
  | e :: rest =>
    let (s1, out1) := handle_event F ulong_bits s e
    let (s2, out2) := handle_events F ulong_bits s1 rest
    (s2, out1 ++ out2)

/-- Serialized delivery of a sequence of button events. -/
def handle_buttons (F : ButtonFlags) (s : InputState) :
    List SDL_ControllerButtonEvent → InputState × List InputOutput
  | [] => (s, [])
  | e :: rest =>
    let (s1, out1) := sdlinput_handle_cbutton_event F s e
    let (s2, out2) := handle_buttons F s1 rest
    (s2, out1 ++ out2)

/-- Whether an output is a `LiSendMultiControllerEvent` call. -/
def InputOutput.isControllerEvent : InputOutput → Bool
  | .LiSendMultiControllerEvent .. => true
  | _ => false

/-- Whether an output is a call that sends something to the remote peer. -/
def InputOutput.reachesPeer : InputOutput → Bool
  | .LiSendMultiControllerEvent .. => true
  | .LiSendMouseMoveEvent .. => true
  | .bus_pushevent_USER_OPEN_OVERLAY => false

/-- Whether an output is the overlay request. -/
def InputOutput.isOverlayRequest : InputOutput → Bool
  | .bus_pushevent_USER_OPEN_OVERLAY => true
  | _ => false

/-- Bitwise AND-NOT of two bit masks: the bits of `a` that are not in `b`. -/
def andNot (a b : Nat) : Nat :=
  Nat.bitwise (fun x y => x && !y) a b

/-- The fold the specification describes for the button mask: OR in the mapped
flag on a press, AND-NOT it on a release, skip unrecognised buttons. -/
def spec_button_fold (F : ButtonFlags) (swap_abxy : Bool) (mask : Nat) :
    List SDL_ControllerButtonEvent → Nat
  | [] => mask
  | e :: rest =>
    match button_flag F swap_abxy e.button with
    | none => spec_button_fold F swap_abxy mask rest
    | some flag =>
      spec_button_fold F swap_abxy (if e.down then mask ||| flag else andNot mask flag) rest

/-- Every press of a recognised button in the sequence is followed, later in
the sequence, by a release of the same button. -/
def all_released : List SDL_ControllerButtonEvent → Prop
  | [] => True
  | e :: rest =>
    (e.down = true → ∃ r ∈ rest, r.button = e.button ∧ r.down = false) ∧ all_released rest


/-! ## Session configuration (`session_config_init` in `session.c`) -/

/-- Constants and macros of the streaming and decoder library headers used by
`session_config_init`.  The headers are not part of the sources, so the values
are parameters. -/
structure StreamConsts where
  VIDEO_FORMAT_H264 : Nat
  VIDEO_FORMAT_H265 : Nat
  VIDEO_FORMAT_H265_MAIN10 : Nat
  VIDEO_FORMAT_AV1_MAIN8 : Nat
  VIDEO_FORMAT_AV1_MAIN10 : Nat
  VIDEO_FORMAT_MASK_H264 : Nat
  SS4S_VIDEO_H264 : Nat
  SS4S_VIDEO_H265 : Nat
  SS4S_VIDEO_AV1 : Nat
  SS4S_VIDEO_CAP_COLORSPACE_BT2020 : Nat
  SS4S_VIDEO_CAP_COLORSPACE_BT709 : Nat
  COLORSPACE_REC_601 : Int
  COLORSPACE_REC_709 : Int
  COLORSPACE_REC_2020 : Int
  COLOR_RANGE_LIMITED : Int
  COLOR_RANGE_FULL : Int
  AUDIO_CONFIGURATION_STEREO : Nat
  AUDIO_CONFIGURATION_51_SURROUND : Nat
  AUDIO_CONFIGURATION_71_SURROUND : Nat
  CHANNEL_COUNT_FROM_AUDIO_CONFIGURATION : Nat → Int
  ENCFLG_AUDIO : Nat

/-- The values the library headers give to these constants, used for concrete
runs. -/
def limelightConsts : StreamConsts :=
  { VIDEO_FORMAT_H264 := 0x0001
    VIDEO_FORMAT_H265 := 0x0100
    VIDEO_FORMAT_H265_MAIN10 := 0x0200
    VIDEO_FORMAT_AV1_MAIN8 := 0x1000
    VIDEO_FORMAT_AV1_MAIN10 := 0x2000
    VIDEO_FORMAT_MASK_H264 := 0x000F
    SS4S_VIDEO_H264 := 1
    SS4S_VIDEO_H265 := 2
    SS4S_VIDEO_AV1 := 8
    SS4S_VIDEO_CAP_COLORSPACE_BT2020 := 4
    SS4S_VIDEO_CAP_COLORSPACE_BT709 := 2
    COLORSPACE_REC_601 := 0
    COLORSPACE_REC_709 := 1
    COLORSPACE_REC_2020 := 2
    COLOR_RANGE_LIMITED := 0
    COLOR_RANGE_FULL := 1
    AUDIO_CONFIGURATION_STEREO := 0x302CA
    AUDIO_CONFIGURATION_51_SURROUND := 0x3F06CA
    AUDIO_CONFIGURATION_71_SURROUND := 0x63F08CA
    CHANNEL_COUNT_FROM_AUDIO_CONFIGURATION := fun x => ((x >>> 8) &&& 0xFF : Nat)
    ENCFLG_AUDIO := 1 }

/-- The fields of `STREAM_CONFIGURATION` that `session_config_init` reads or
writes.  Bit masks are kept as bit patterns. -/
structure STREAM_CONFIGURATION where
  width : Int
  height : Int
  fps : Int
  bitrate : Int
  supportedVideoFormats : Nat
  colorSpace : Int
  colorRange : Int
  audioConfiguration : Nat
  encryptionFlags : Nat
deriving DecidableEq, Repr

/-- The fields of the user `CONFIGURATION` read by `session_config_init`. -/
structure CONFIGURATION where
  stream : STREAM_CONFIGURATION
  virtual_mouse : Bool
  hardware_mouse : Bool
  localaudio : Bool
  viewonly : Bool
  sops : Bool
  stick_deadzone : Int
  hevc : Bool
  av1 : Bool
  hdr : Bool
deriving DecidableEq, Repr

/-- The video capability snapshot `app->ss4s.video_cap`.  The record is
declared in a decoder library header that is not part of the sources;
`maxBitrate` is an `unsigned int` there (the source converts it back with
`(int)`), kept here as its value. -/
structure SS4S_VideoCapabilities where
  codecs : Nat
  hdr : Bool
  maxBitrate : Nat
  colorSpace : Nat
  fullColorRange : Bool
deriving DecidableEq, Repr

/-- The audio capability snapshot `app->ss4s.audio_cap`. -/
structure SS4S_AudioCapabilities where
  maxChannels : Int
deriving DecidableEq, Repr

/-- The derived `session_config_t`. -/
structure session_config_t where
  stream : STREAM_CONFIGURATION
  vmouse : Bool
  hardware_mouse : Bool
  local_audio : Bool
  view_only : Bool
  sops : Bool
  stick_deadzone : Nat
deriving DecidableEq, Repr

/-- The codec part of `session_config_init`: the value of
`config->stream.supportedVideoFormats` after the default has been applied,
starting from the value `preset` copied from the user configuration. -/
def select_video_formats (C : StreamConsts) (preset : Nat) (hevc av1 hdr : Bool)
    (video_cap : SS4S_VideoCapabilities) : Nat :=
  let f0 := preset
  let f1 := if video_cap.codecs &&& C.SS4S_VIDEO_H264 ≠ 0 then f0 ||| C.VIDEO_FORMAT_H264 else f0
  let f2 :=
    if hevc = true ∧ video_cap.codecs &&& C.SS4S_VIDEO_H265 ≠ 0 then
      let f := f1 ||| C.VIDEO_FORMAT_H265
      if hdr = true ∧ video_cap.hdr = true then f ||| C.VIDEO_FORMAT_H265_MAIN10 else f
    else f1
  let f3 :=
    if av1 = true ∧ video_cap.codecs &&& C.SS4S_VIDEO_AV1 ≠ 0 then
      let f := f2 ||| C.VIDEO_FORMAT_AV1_MAIN8
      if hdr = true ∧ video_cap.hdr = true then f ||| C.VIDEO_FORMAT_AV1_MAIN10 else f
    else f2
  if f3 = 0 then C.VIDEO_FORMAT_H264 else f3

/-- Conversion of an `int` value to `unsigned int` (32 bits): the conversion
the usual arithmetic conversions apply to the `int` operand of a comparison
with an `unsigned int`. -/
def toUInt32 (v : Int) : Nat := (v % 4294967296).toNat

/-- Conversion of an `unsigned int` value to `int` (two's complement
wrap-around), the cast `(int)`. -/
def toInt32 (n : Nat) : Int := ((n : Int) + 2147483648) % 4294967296 - 2147483648

/-- Lines 269-276 of `session_config_init`: the optimal bitrate for the negative
sentinel, then the cap to the platform maximum.  The test
`config->stream.bitrate > video_cap.maxBitrate` compares an `int` with an
`unsigned int`, so it is made on the `int` converted to `unsigned int`. -/
def config_bitrate (settings_optimal_bitrate : SS4S_VideoCapabilities → Int → Int → Int → Int)
    (video_cap : SS4S_VideoCapabilities) (stream : STREAM_CONFIGURATION) :
    STREAM_CONFIGURATION :=
  let b1 :=
    if stream.bitrate < 0 then
      settings_optimal_bitrate video_cap stream.width stream.height stream.fps
    else stream.bitrate
  let b2 := if video_cap.maxBitrate ≠ 0 ∧ toUInt32 b1 > video_cap.maxBitrate then
              toInt32 video_cap.maxBitrate
            else b1
  { stream with bitrate := b2 }

/-- Lines 277-295 of `session_config_init`: the codec selection. -/
def config_formats (C : StreamConsts) (hevc av1 hdr : Bool) (video_cap : SS4S_VideoCapabilities)
    (stream : STREAM_CONFIGURATION) : STREAM_CONFIGURATION :=
  { stream with
    supportedVideoFormats :=
      select_video_formats C stream.supportedVideoFormats hevc av1 hdr video_cap }

/-- Lines 296-304 of `session_config_init`: colour space and colour range.
`~VIDEO_FORMAT_MASK_H264` is the complement on the 32-bit pattern. -/
def config_color (C : StreamConsts) (video_cap : SS4S_VideoCapabilities)
    (stream : STREAM_CONFIGURATION) : STREAM_CONFIGURATION :=
  let colorSpace :=
    if video_cap.colorSpace &&& C.SS4S_VIDEO_CAP_COLORSPACE_BT2020 ≠ 0 ∧
        stream.supportedVideoFormats &&& (4294967295 ^^^ C.VIDEO_FORMAT_MASK_H264) ≠ 0 then
      C.COLORSPACE_REC_2020
    else if video_cap.colorSpace &&& C.SS4S_VIDEO_CAP_COLORSPACE_BT709 ≠ 0 then
      C.COLORSPACE_REC_709
    else
      C.COLORSPACE_REC_601
  { stream with
    colorSpace := colorSpace
    colorRange := if video_cap.fullColorRange then C.COLOR_RANGE_FULL
                  else C.COLOR_RANGE_LIMITED }

/-- Lines 305-322 of `session_config_init`: the audio layout, compiled in when
`FEATURE_SURROUND_SOUND` is set. -/
def config_audio (C : StreamConsts) (FEATURE_SURROUND_SOUND : Bool)
    (audio_cap : SS4S_AudioCapabilities) (stream : STREAM_CONFIGURATION) :
    STREAM_CONFIGURATION :=
  if FEATURE_SURROUND_SOUND then
    let a1 :=
      if audio_cap.maxChannels <
          C.CHANNEL_COUNT_FROM_AUDIO_CONFIGURATION stream.audioConfiguration then
        if audio_cap.maxChannels = 2 then C.AUDIO_CONFIGURATION_STEREO
        else if audio_cap.maxChannels = 6 then C.AUDIO_CONFIGURATION_51_SURROUND
        else if audio_cap.maxChannels = 8 then C.AUDIO_CONFIGURATION_71_SURROUND
        else stream.audioConfiguration
      else stream.audioConfiguration
    let a2 := if a1 = 0 then C.AUDIO_CONFIGURATION_STEREO else a1
    { stream with audioConfiguration := a2 }
  else stream

/-- The function `session_config_init(app, config, server, app_config)`.
`settings_optimal_bitrate` is a function defined outside the sources and
`FEATURE_SURROUND_SOUND` is the build flag guarding the audio block. -/
def session_config_init (C : StreamConsts)
    (settings_optimal_bitrate : SS4S_VideoCapabilities → Int → Int → Int → Int)
    (FEATURE_SURROUND_SOUND : Bool)
    (video_cap : SS4S_VideoCapabilities) (audio_cap : SS4S_AudioCapabilities)
    (app_config : CONFIGURATION) : session_config_t :=
  let stick_deadzone : Nat :=
    if app_config.stick_deadzone < 0 then 0
    else if app_config.stick_deadzone > 100 then 100
    else app_config.stick_deadzone.toNat % 256
  let stream := app_config.stream
  let stream := config_bitrate settings_optimal_bitrate video_cap stream
  let stream := config_formats C app_config.hevc app_config.av1 app_config.hdr video_cap stream
  let stream := config_color C video_cap stream
  let stream := config_audio C FEATURE_SURROUND_SOUND audio_cap stream
  let stream := { stream with encryptionFlags := C.ENCFLG_AUDIO }
  { stream := stream
    vmouse := app_config.virtual_mouse
    hardware_mouse := app_config.hardware_mouse
    local_audio := app_config.localaudio
    view_only := app_config.viewonly
    sops := app_config.sops
    stick_deadzone := stick_deadzone }

/-- Whether the codec set `formats` contains (a bit of) the format `flag`. -/
def has_format (formats flag : Nat) : Prop :=
  formats &&& flag ≠ 0

instance (formats flag : Nat) : Decidable (has_format formats flag) := by
  unfold has_format; infer_instance

/-- The format constants are non-zero and no two of them share a bit. -/
structure StreamConsts.formats_distinct (C : StreamConsts) : Prop where
  h264_ne : C.VIDEO_FORMAT_H264 ≠ 0
  h265_ne : C.VIDEO_FORMAT_H265 ≠ 0
  h265_10_ne : C.VIDEO_FORMAT_H265_MAIN10 ≠ 0
  av1_8_ne : C.VIDEO_FORMAT_AV1_MAIN8 ≠ 0
  av1_10_ne : C.VIDEO_FORMAT_AV1_MAIN10 ≠ 0
  h264_h265 : C.VIDEO_FORMAT_H264 &&& C.VIDEO_FORMAT_H265 = 0
  h264_h265_10 : C.VIDEO_FORMAT_H264 &&& C.VIDEO_FORMAT_H265_MAIN10 = 0
  h264_av1_8 : C.VIDEO_FORMAT_H264 &&& C.VIDEO_FORMAT_AV1_MAIN8 = 0
  h264_av1_10 : C.VIDEO_FORMAT_H264 &&& C.VIDEO_FORMAT_AV1_MAIN10 = 0
  h265_h265_10 : C.VIDEO_FORMAT_H265 &&& C.VIDEO_FORMAT_H265_MAIN10 = 0
  h265_av1_8 : C.VIDEO_FORMAT_H265 &&& C.VIDEO_FORMAT_AV1_MAIN8 = 0
  h265_av1_10 : C.VIDEO_FORMAT_H265 &&& C.VIDEO_FORMAT_AV1_MAIN10 = 0
  h265_10_av1_8 : C.VIDEO_FORMAT_H265_MAIN10 &&& C.VIDEO_FORMAT_AV1_MAIN8 = 0
  h265_10_av1_10 : C.VIDEO_FORMAT_H265_MAIN10 &&& C.VIDEO_FORMAT_AV1_MAIN10 = 0
  av1_8_av1_10 : C.VIDEO_FORMAT_AV1_MAIN8 &&& C.VIDEO_FORMAT_AV1_MAIN10 = 0


/-- A sample user configuration: 1080p60, bitrate sentinel `-1`, the given
value in `supportedVideoFormats` and the given HEVC / AV1 / HDR switches. -/
def sampleConfig (preset : Nat) (hevc av1 hdr : Bool) : CONFIGURATION :=
  { stream := { width := 1920, height := 1080, fps := 60, bitrate := -1
                supportedVideoFormats := preset, colorSpace := 0, colorRange := 0
                audioConfiguration := 0, encryptionFlags := 0 }
    virtual_mouse := false, hardware_mouse := false, localaudio := false, viewonly := false
    sops := true, stick_deadzone := 0, hevc := hevc, av1 := av1, hdr := hdr }

/-- A sample capability snapshot with the given codec mask and HDR flag, no
bitrate limit and BT.709 support. -/
def sampleVideoCap (codecs : Nat) (hdr : Bool) : SS4S_VideoCapabilities :=
  { codecs := codecs, hdr := hdr, maxBitrate := 0, colorSpace := 2, fullColorRange := false }

/-- A sample `settings_optimal_bitrate`. -/
def sampleOptimalBitrate : SS4S_VideoCapabilities → Int → Int → Int → Int :=
  fun _ _ _ _ => 20000

/-- The button mask of slot `i`. -/
def slot_mask (s : InputState) (i : Fin 4) : Nat :=
  (s.gamepads i).buttons

/-- The all-zero controller state event of slot `i`, as sent by
`release_buttons`. -/
def zero_state_event (s : InputState) (i : Fin 4) : InputOutput :=
  .LiSendMultiControllerEvent (s.gamepads i).id s.activeGamepadMask 0 0 0 0 0 0 0

/-- The button mask of slot `i` is non-zero after each event of the sequence. -/
def mask_held (F : ButtonFlags) (i : Fin 4) (s : InputState) :
    List SDL_ControllerButtonEvent → Bool
  | [] => true
  | e :: rest =>
    decide (slot_mask (sdlinput_handle_cbutton_event F s e).1 i ≠ 0) &&
      mask_held F i (sdlinput_handle_cbutton_event F s e).1 rest

/-- A press of `button` on device `which`. -/
def press (which : Int) (button : SDL_GameControllerButton) : SDL_ControllerButtonEvent :=
  { which := which, button := button, down := true }

/-- A release of `button` on device `which`. -/
def release (which : Int) (button : SDL_GameControllerButton) : SDL_ControllerButtonEvent :=
  { which := which, button := button, down := false }

/-- The four presses of the quit combination on device `which`. -/
def comboPress (which : Int) : List SDL_ControllerButtonEvent :=
  [press which .START, press which .BACK, press which .LEFTSHOULDER,
   press which .RIGHTSHOULDER]

/-- The four releases of the quit combination on device `which`. -/
def comboRelease (which : Int) : List SDL_ControllerButtonEvent :=
  [release which .START, release which .BACK, release which .LEFTSHOULDER,
   release which .RIGHTSHOULDER]

/-- The state reached from program start when device 0 holds the quit
combination. -/
def comboHeldState : InputState :=
  (handle_buttons limelightFlags InputState.init (comboPress 0)).1

/-- The state at program start with global input suppression switched on. -/
def suppressedInit : InputState :=
  { InputState.init with absinput_no_control := true }

/-- A change of the virtual-mouse mode: the assignment to
`absinput_virtual_mouse` made by the session control entry points. -/
def set_virtual_mouse (m : ABSINPUT_VMOUSE) (s : InputState) : InputState :=
  { s with absinput_virtual_mouse := m }

/-- The transitions that touch the virtual-mouse emulator: an axis event, a
change of the virtual-mouse mode, and a firing of the timer `id`. -/
inductive VMouseStep where
  | axis (e : SDL_ControllerAxisEvent)
  | mode (m : ABSINPUT_VMOUSE)
  | tick (id : Nat)
deriving DecidableEq, Repr

/-- One transition of the virtual-mouse emulator. -/
def vmouse_step (ulong_bits : Nat) (s : InputState) : VMouseStep → InputState × List InputOutput
  | .axis e => sdlinput_handle_caxis_event ulong_bits s e
  | .mode m => (set_virtual_mouse m s, [])
  | .tick id => timer_tick s id

/-- A sequence of transitions of the virtual-mouse emulator. -/
def vmouse_run (ulong_bits : Nat) (s : InputState) : List VMouseStep → InputState × List InputOutput
  | [] => (s, [])
  | t :: rest =>
    let (s1, out1) := vmouse_step ulong_bits s t
    let (s2, out2) := vmouse_run ulong_bits s1 rest
    (s2, out1 ++ out2)

/-- The registry after resolving the given devices one after the other. -/
def registry_run (s : InputState) : List Int → InputState
  | [] => s
  | d :: rest => registry_run (get_gamepad d s).1 rest

/-- No slot of the registry is initialized. -/
def all_uninitialized (s : InputState) : Prop :=
  ∀ j : Fin 4, (s.gamepads j).initialized = false

/-- Slot `j` is initialized with device id `d`. -/
def slot_holds (s : InputState) (j : Fin 4) (d : Int) : Prop :=
  (s.gamepads j).initialized = true ∧ (s.gamepads j).sdl_id = d

/-- A run of the emulator from program start: right-stick mode is selected and
the right stick is deflected, the mode is switched off and the timer fires,
then right-stick mode is selected again and the right stick is deflected
again. -/
def staleTimerRun : List VMouseStep :=
  [.mode .RIGHT_STICK, .axis ⟨0, .RIGHTX, 20000⟩, .mode .OFF, .tick 1, .mode .RIGHT_STICK,
   .axis ⟨0, .RIGHTX, 20000⟩]

/-- The first two steps of `staleTimerRun`: the first deflection. -/
def staleTimerRun2 : List VMouseStep :=
  [.mode .RIGHT_STICK, .axis ⟨0, .RIGHTX, 20000⟩]

/-- The first four steps of `staleTimerRun`: up to the firing of the timer. -/
def staleTimerRun4 : List VMouseStep :=
  [.mode .RIGHT_STICK, .axis ⟨0, .RIGHTX, 20000⟩, .mode .OFF, .tick 1]

/-- The state at program start with left-stick virtual-mouse mode selected. -/
def leftStickModeInit : InputState :=
  set_virtual_mouse .LEFT_STICK InputState.init

/-- The state at program start with right-stick virtual-mouse mode selected. -/
def rightStickModeInit : InputState :=
  set_virtual_mouse .RIGHT_STICK InputState.init

/-- The registry invariant with `k` tracked controllers: the initialized slots
are exactly the slots `0 .. k-1`, no two of them hold the same device id, and
each carries its own index as `id`. -/
structure registry_inv (s : InputState) (k : Nat) : Prop where
  bound : k ≤ 4
  initial_segment : ∀ j : Fin 4, (s.gamepads j).initialized = true ↔ j.val < k
  distinct : ∀ i j : Fin 4, (s.gamepads i).initialized = true →
    (s.gamepads j).initialized = true → (s.gamepads i).sdl_id = (s.gamepads j).sdl_id → i = j
  index : ∀ j : Fin 4, (s.gamepads j).initialized = true → (s.gamepads j).id = j.val

/-- The test `supportedVideoFormats & ~VIDEO_FORMAT_MASK_H264` of
`session_config_init`: the codec set has a bit outside the H.264 mask. -/
def has_non_h264 (C : StreamConsts) (formats : Nat) : Prop :=
  formats &&& (4294967295 ^^^ C.VIDEO_FORMAT_MASK_H264) ≠ 0

instance (C : StreamConsts) (formats : Nat) : Decidable (has_non_h264 C formats) := by
  unfold has_non_h264; infer_instance

/-- The H.264 format lies inside `VIDEO_FORMAT_MASK_H264` and each of the other
four formats has a bit outside it. -/
structure StreamConsts.mask_separates (C : StreamConsts) : Prop where
  h264_inside : ¬ has_non_h264 C C.VIDEO_FORMAT_H264
  h265_outside : has_non_h264 C C.VIDEO_FORMAT_H265
  h265_10_outside : has_non_h264 C C.VIDEO_FORMAT_H265_MAIN10
  av1_8_outside : has_non_h264 C C.VIDEO_FORMAT_AV1_MAIN8
  av1_10_outside : has_non_h264 C C.VIDEO_FORMAT_AV1_MAIN10

/-- The audio configuration constants have the channel counts 2, 6 and 8, and
the unset configuration 0 has channel count 0. -/
structure StreamConsts.channel_counts (C : StreamConsts) : Prop where
  unset : C.CHANNEL_COUNT_FROM_AUDIO_CONFIGURATION 0 = 0
  stereo : C.CHANNEL_COUNT_FROM_AUDIO_CONFIGURATION C.AUDIO_CONFIGURATION_STEREO = 2
  surround51 : C.CHANNEL_COUNT_FROM_AUDIO_CONFIGURATION C.AUDIO_CONFIGURATION_51_SURROUND = 6
  surround71 : C.CHANNEL_COUNT_FROM_AUDIO_CONFIGURATION C.AUDIO_CONFIGURATION_71_SURROUND = 8

/-- A sample capability snapshot with the given codec mask, HDR flag,
colour-space mask and maximum bitrate. -/
def sampleVideoCapFull (codecs : Nat) (hdr : Bool) (colorSpace maxBitrate : Nat) :
    SS4S_VideoCapabilities :=
  { codecs := codecs, hdr := hdr, maxBitrate := maxBitrate, colorSpace := colorSpace
    fullColorRange := false }

/-- A sample user configuration that requests the given audio configuration. -/
def sampleAudioConfig (audioConfiguration : Nat) : CONFIGURATION :=
  { sampleConfig 0 false false false with
    stream := { (sampleConfig 0 false false false).stream with
                audioConfiguration := audioConfiguration } }

/-- The `case` labels of the `switch` in `session_interrupt` are pairwise
distinct, as the C language requires of the labels of one `switch`. -/
structure InterruptReasons.cases_distinct (R : InterruptReasons) : Prop where
  watchdog_network : R.STREAMING_INTERRUPT_WATCHDOG ≠ R.STREAMING_INTERRUPT_NETWORK
  watchdog_decoder : R.STREAMING_INTERRUPT_WATCHDOG ≠ R.STREAMING_INTERRUPT_DECODER
  network_decoder : R.STREAMING_INTERRUPT_NETWORK ≠ R.STREAMING_INTERRUPT_DECODER

/-- The calls one first interruption of a live session makes, in program
order: `embed` says whether the `embed_interrupt` call is made and `error`
whether `streaming_error` is called. -/
def first_interrupt_calls (embed error : Bool) : List SessionEffect :=
  [.SDL_LockMutex .mutex, .session_input_interrupt] ++
    (if embed then [.embed_interrupt] else []) ++
    (if error then [.SDL_LockMutex .state_lock, .SDL_UnlockMutex .state_lock] else []) ++
    [.SDL_CondSignal, .SDL_UnlockMutex .mutex, .SDL_UnlockMutex .state_lock]

/-- Replay of a sequence of calls against the number of times the sequence
itself has locked `session->mutex` (`m`) and `session->state_lock` (`sl`) so
far: the result says whether every `SDL_UnlockMutex` in the sequence is
applied to a mutex the sequence currently holds. -/
def spec_unlocks_held : Nat → Nat → List SessionEffect → Bool
  | _, _, [] => true
  | m, sl, .SDL_LockMutex .mutex :: rest => spec_unlocks_held (m + 1) sl rest
  | m, sl, .SDL_LockMutex .state_lock :: rest => spec_unlocks_held m (sl + 1) rest
  | m, sl, .SDL_UnlockMutex .mutex :: rest => decide (0 < m) && spec_unlocks_held (m - 1) sl rest
  | m, sl, .SDL_UnlockMutex .state_lock :: rest =>
    decide (0 < sl) && spec_unlocks_held m (sl - 1) rest
  | m, sl, _ :: rest => spec_unlocks_held m sl rest

/-- The bit mask of the initialized slot indices: bit `j` is set exactly when
`gamepads[j]` is initialized. -/
def initialized_mask (s : InputState) : Nat :=
  (if (s.gamepads 0).initialized then 1 else 0) ||| (if (s.gamepads 1).initialized then 2 else 0)
    ||| (if (s.gamepads 2).initialized then 4 else 0)
    ||| (if (s.gamepads 3).initialized then 8 else 0)

/-- The timer invariant of the virtual-mouse emulator: no timer is scheduled,
or exactly one is and `vmouse_timer_id` is its non-zero id; and the ids that
`SDL_AddTimer` hands out are non-zero. -/
structure timer_inv (s : InputState) : Prop where
  scheduled : s.timers = [] ∨ (s.timers = [s.vmouse_timer_id] ∧ s.vmouse_timer_id ≠ 0)
  fresh : 0 < s.next_timer_id

/-- A `settings_optimal_bitrate` that returns a negative value. -/
def negativeOptimalBitrate : SS4S_VideoCapabilities → Int → Int → Int → Int :=
  fun _ _ _ _ => -5

/-! ## Theorems: session interruption -/

/-- After `session_interrupt` on a live session the session is interrupted. -/
theorem session_interrupt_session (R : InterruptReasons) (feat : Bool) (q : Bool) (r : Int)
    (w : SessionWorld) (s : session_t) (hs : w.session = some s) :
    ∃ s1, (session_interrupt R feat q r w).session = some s1 ∧ s1.interrupted = true ∧
      (s.interrupted = false → s1.quitapp = q) := by
  unfold session_interrupt
  rw [hs]
  by_cases hi : s.interrupted = true
  · simp [hi, SDL_LockMutex, SDL_UnlockMutex, SessionWorld.modify, SessionWorld.emit, hs]
  · by_cases he : R.STREAMING_INTERRUPT_ERROR ≤ r <;>
      by_cases hf : (feat && s.embed && s.embed_process) = true <;>
      simp [hi, he, hf, SDL_LockMutex, SDL_UnlockMutex, SessionWorld.modify, SessionWorld.emit,
        hs, streaming_error]

/-- A call of `session_interrupt` on an already interrupted session only takes
and releases `session->mutex`. -/
theorem session_interrupt_interrupted (R : InterruptReasons) (feat : Bool) (q : Bool) (r : Int)
    (w : SessionWorld) (s : session_t) (hs : w.session = some s) (hi : s.interrupted = true) :
    session_interrupt R feat q r w =
      { w with log := w.log ++ [.SDL_LockMutex .mutex, .SDL_UnlockMutex .mutex] } := by
  unfold session_interrupt
  rw [hs]
  obtain ⟨ses, eno, emsg, lg⟩ := w
  simp only at hs
  subst hs
  obtain ⟨i, qa, em, ep, mx, sl⟩ := s
  simp only at hi
  subst hi
  simp [SDL_LockMutex, SDL_UnlockMutex, SessionWorld.modify, SessionWorld.emit]

/-- The error slot after the first interruption of a live session with an
error-class reason. -/
theorem session_interrupt_records (R : InterruptReasons) (feat : Bool) (q : Bool) (r : Int)
    (w : SessionWorld) (s : session_t) (hs : w.session = some s) (hi : s.interrupted = false)
    (he : R.STREAMING_INTERRUPT_ERROR ≤ r) :
    (session_interrupt R feat q r w).streaming_errno = r ∧
    (session_interrupt R feat q r w).streaming_errmsg =
      vsnprintf_errmsg (interrupt_error_message R r) := by
  unfold session_interrupt
  rw [hs]
  by_cases hf : (feat && s.embed && s.embed_process) = true <;>
    simp [hi, he, hf, SDL_LockMutex, SDL_UnlockMutex, SessionWorld.modify, SessionWorld.emit,
      streaming_error]


/-- C1: `session_interrupt` is idempotent.  For a live session and two
consecutive calls with flags and reasons `(q1, r1)` and `(q2, r2)`, the second
call leaves the session record (with `interrupted = true` and the `quitapp`
written by the first call, which is `q1` when the session was not interrupted
before) and the error slot exactly as the first call left them, the error slot
holds the first reason and its message when the first reason is an error
reason, and the second call only locks and unlocks `session->mutex`: it emits
no input interrupt and no condition signal.  The interruption requested by
`session_destroy` after an earlier interruption likewise leaves the error slot
untouched and emits only that lock/unlock pair before the teardown calls. -/
theorem C1_session_interrupt_idempotent (R : InterruptReasons) (feat : Bool)
    (w : SessionWorld) (s : session_t) (q1 q2 : Bool) (r1 r2 : Int)
    (hs : w.session = some s) :
    (∃ s1, (session_interrupt R feat q1 r1 w).session = some s1 ∧
      s1.interrupted = true ∧
      (s.interrupted = false → s1.quitapp = q1) ∧
      (session_interrupt R feat q2 r2 (session_interrupt R feat q1 r1 w)).session = some s1) ∧
    (session_interrupt R feat q2 r2 (session_interrupt R feat q1 r1 w)).streaming_errno =
      (session_interrupt R feat q1 r1 w).streaming_errno ∧
    (session_interrupt R feat q2 r2 (session_interrupt R feat q1 r1 w)).streaming_errmsg =
      (session_interrupt R feat q1 r1 w).streaming_errmsg ∧
    (s.interrupted = false → R.STREAMING_INTERRUPT_ERROR ≤ r1 →
      (session_interrupt R feat q2 r2 (session_interrupt R feat q1 r1 w)).streaming_errno = r1 ∧
      (session_interrupt R feat q2 r2 (session_interrupt R feat q1 r1 w)).streaming_errmsg =
        vsnprintf_errmsg (interrupt_error_message R r1)) ∧
    (session_interrupt R feat q2 r2 (session_interrupt R feat q1 r1 w)).log =
      (session_interrupt R feat q1 r1 w).log ++
        [.SDL_LockMutex .mutex, .SDL_UnlockMutex .mutex] ∧
    (session_destroy R feat (session_interrupt R feat q1 r1 w)).streaming_errno =
      (session_interrupt R feat q1 r1 w).streaming_errno ∧
    (session_destroy R feat (session_interrupt R feat q1 r1 w)).streaming_errmsg =
      (session_interrupt R feat q1 r1 w).streaming_errmsg ∧
    (session_destroy R feat (session_interrupt R feat q1 r1 w)).log =
      (session_interrupt R feat q1 r1 w).log ++
        [.SDL_LockMutex .mutex, .SDL_UnlockMutex .mutex, .session_input_deinit,
         .SDL_WaitThread, .serverdata_free, .SDL_DestroyCond, .SDL_DestroyMutex .mutex,
         .SDL_DestroyMutex .state_lock, .free_app_name, .free_session] := by
  obtain ⟨s1, h1, hint, hq⟩ := session_interrupt_session R feat q1 r1 w s hs
  have h2 := session_interrupt_interrupted R feat q2 r2 _ s1 h1 hint
  have h3 := session_interrupt_interrupted R feat false R.STREAMING_INTERRUPT_QUIT _ s1 h1 hint
  refine ⟨⟨s1, h1, hint, hq, ?_⟩, ?_, ?_, ?_, ?_, ?_, ?_, ?_⟩
  · rw [h2]; exact h1
  · rw [h2]
  · rw [h2]
  · intro hi he
    rw [h2]
    exact session_interrupt_records R feat q1 r1 w s hs hi he
  · rw [h2]
  · unfold session_destroy; rw [h3]
  · unfold session_destroy; rw [h3]
  · unfold session_destroy; rw [h3]; simp

/-- C1 witness: a fresh session interrupted for a network error and then for a
user quit. -/
theorem C1_session_interrupt_idempotent_witness :
    (session_interrupt sampleReasons false true 3
        (session_interrupt sampleReasons false false 6 freshSessionWorld)).streaming_errno = 6 ∧
    (session_interrupt sampleReasons false true 3
        (session_interrupt sampleReasons false false 6 freshSessionWorld)).streaming_errmsg =
      vsnprintf_errmsg (interrupt_error_message sampleReasons 6) :=
  (C1_session_interrupt_idempotent sampleReasons false freshSessionWorld _ false true 6 3
    rfl).2.2.2.1 rfl (by decide)


/-! ## Theorems: axis arithmetic -/

/-- The function `vmouse_set_vector` does not touch the controller slots. -/
theorem vmouse_set_vector_gamepads (x y : Int) (s : InputState) :
    (vmouse_set_vector x y s).gamepads = s.gamepads := by
  unfold vmouse_set_vector
  simp only [SDL_AddTimer, SDL_RemoveTimer]
  split_ifs <;> rfl

/-- After an axis event for a recognised axis the resolved slot holds the
record computed by the `switch`. -/
theorem caxis_slot (ub : Nat) (s : InputState) (e : SDL_ControllerAxisEvent)
    (g : GAMEPAD_STATE) (b : Bool)
    (h : axis_update ub (get_gamepad e.which s).1.absinput_virtual_mouse
          ((get_gamepad e.which s).1.gamepads (get_gamepad e.which s).2) e.value e.axis
        = some (g, b)) :
    (sdlinput_handle_caxis_event ub s e).1.gamepads (get_gamepad e.which s).2 = g := by
  unfold sdlinput_handle_caxis_event
  simp only [h]
  split_ifs <;>
    simp [vmouse_set_vector_gamepads, InputState.setPad]

/-- On signed 16-bit input the stick update does not wrap. -/
theorem stick_value_eq (v : Int) (_hlo : -32768 ≤ v) (hhi : v ≤ 32767) :
    stick_value v = -(max v (-32767)) := by
  unfold stick_value toShort
  have h1 : -32767 ≤ max v (-32767) := le_max_right _ _
  have h2 : max v (-32767) ≤ 32767 := max_le hhi (by norm_num)
  omega

/-- C8: stick axis inversion with clamping.  For every signed 16-bit value `v`
of a left/right stick X/Y event the value stored in the resolved slot is
`-max(v, -32767)`; it lies in `[-32767, 32767]`, equals `-v` for `v > -32768`
and is `32767` for `v = -32768`. -/
theorem C8_stick_axis_inversion (ub : Nat) (s : InputState) (which v : Int)
    (hlo : -32768 ≤ v) (hhi : v ≤ 32767) :
    ((sdlinput_handle_caxis_event ub s ⟨which, .LEFTX, v⟩).1.gamepads
        (get_gamepad which s).2).leftStickX = -(max v (-32767)) ∧
    ((sdlinput_handle_caxis_event ub s ⟨which, .LEFTY, v⟩).1.gamepads
        (get_gamepad which s).2).leftStickY = -(max v (-32767)) ∧
    ((sdlinput_handle_caxis_event ub s ⟨which, .RIGHTX, v⟩).1.gamepads
        (get_gamepad which s).2).rightStickX = -(max v (-32767)) ∧
    ((sdlinput_handle_caxis_event ub s ⟨which, .RIGHTY, v⟩).1.gamepads
        (get_gamepad which s).2).rightStickY = -(max v (-32767)) ∧
    -32767 ≤ -(max v (-32767)) ∧ -(max v (-32767)) ≤ 32767 ∧
    (-32768 < v → -(max v (-32767)) = -v) ∧
    (v = -32768 → -(max v (-32767)) = 32767) := by
  have hv := stick_value_eq v hlo hhi
  refine ⟨?_, ?_, ?_, ?_, ?_, ?_, ?_, ?_⟩
  · rw [caxis_slot ub s ⟨which, .LEFTX, v⟩ _ _ rfl]; exact hv
  · rw [caxis_slot ub s ⟨which, .LEFTY, v⟩ _ _ rfl]; exact hv
  · rw [caxis_slot ub s ⟨which, .RIGHTX, v⟩ _ _ rfl]; exact hv
  · rw [caxis_slot ub s ⟨which, .RIGHTY, v⟩ _ _ rfl]; exact hv
  · have := le_max_right v (-32767); omega
  · have := le_max_left v (-32767); omega
  · intro h; rw [max_eq_left (by omega)]
  · intro h; subst h; rfl

/-- C8 witness: the negative extreme `-32768` on the left stick X axis is
stored as `32767`. -/
theorem C8_stick_axis_inversion_witness :
    ((sdlinput_handle_caxis_event 64 InputState.init ⟨0, .LEFTX, -32768⟩).1.gamepads
        (get_gamepad 0 InputState.init).2).leftStickX = -(max (-32768) (-32767)) :=
  (C8_stick_axis_inversion 64 InputState.init 0 (-32768) (by decide) (by decide)).1


/-- Without wrap-around the trigger update is the plain quotient. -/
theorem trigger_value_eq (ub : Nat) (hub : 32 ≤ ub) (v : Int) (h0 : 0 ≤ v) (h1 : v ≤ 32767) :
    trigger_value ub v = v.toNat * 255 / 32767 := by
  unfold trigger_value
  have hpow : (2 : Nat) ^ 32 ≤ 2 ^ ub := Nat.pow_le_pow_right (by norm_num) hub
  have hpowi : ((2 : Int) ^ ub) = ((2 ^ ub : Nat) : Int) := by push_cast; rfl
  have hv : v % (2 ^ ub : Int) = v := by
    apply Int.emod_eq_of_lt h0
    rw [hpowi]
    have : ((2 ^ 32 : Nat) : Int) ≤ ((2 ^ ub : Nat) : Int) := by exact_mod_cast hpow
    norm_num at this
    omega
  rw [hv]
  have hn : v.toNat ≤ 32767 := by omega
  have hm : v.toNat * 255 % 2 ^ ub = v.toNat * 255 := by
    apply Nat.mod_eq_of_lt
    have : v.toNat * 255 < 2 ^ 32 := by norm_num; omega
    omega
  rw [hm]
  apply Nat.mod_eq_of_lt
  have : v.toNat * 255 / 32767 ≤ 255 := by
    apply Nat.div_le_of_le_mul
    omega
  omega

/-- C9 (as stated, refuted): the inputs `-1 ≤ 0` lie in the signed 16-bit
range, yet the left trigger value stored for `-1` is `3` on a 32-bit and `15`
on a 64-bit `unsigned long` while the value stored for `0` is `0`: the stored
value is not monotonic on the signed 16-bit range and is not
`v * 255 / 32767` there. -/
theorem C9_trigger_not_monotonic_on_negatives :
    (-32768 : Int) ≤ -1 ∧ (-1 : Int) ≤ 0 ∧ (0 : Int) ≤ 32767 ∧
    ((sdlinput_handle_caxis_event 32 InputState.init ⟨0, .TRIGGERLEFT, -1⟩).1.gamepads
        0).leftTrigger = 3 ∧
    ((sdlinput_handle_caxis_event 32 InputState.init ⟨0, .TRIGGERLEFT, 0⟩).1.gamepads
        0).leftTrigger = 0 ∧
    ((sdlinput_handle_caxis_event 64 InputState.init ⟨0, .TRIGGERLEFT, -1⟩).1.gamepads
        0).leftTrigger = 15 ∧
    ((sdlinput_handle_caxis_event 64 InputState.init ⟨0, .TRIGGERLEFT, 0⟩).1.gamepads
        0).leftTrigger = 0 ∧
    ¬ (trigger_value 32 (-1) ≤ trigger_value 32 0) ∧
    ¬ (trigger_value 64 (-1) ≤ trigger_value 64 0) := by
  decide

/-- C9 (amended): trigger scaling on the trigger range.  For every axis input
`v` with `0 ≤ v ≤ 32767` the value stored in the resolved slot, for either
trigger, is `v * 255 / 32767`; input 0 gives 0 and input 32767 gives 255; for
`0 ≤ a ≤ b ≤ 32767` the stored value for `a` is at most the stored value for
`b`; and every stored value, for any input, lies in `[0, 255]`. -/
theorem C9_trigger_scaling (ub : Nat) (hub : 32 ≤ ub) (s : InputState) (which : Int)
    (a b : Int) (ha : 0 ≤ a) (hab : a ≤ b) (hb : b ≤ 32767) :
    ((sdlinput_handle_caxis_event ub s ⟨which, .TRIGGERLEFT, a⟩).1.gamepads
        (get_gamepad which s).2).leftTrigger = a.toNat * 255 / 32767 ∧
    ((sdlinput_handle_caxis_event ub s ⟨which, .TRIGGERRIGHT, a⟩).1.gamepads
        (get_gamepad which s).2).rightTrigger = a.toNat * 255 / 32767 ∧
    trigger_value ub 0 = 0 ∧
    trigger_value ub 32767 = 255 ∧
    trigger_value ub a ≤ trigger_value ub b ∧
    (∀ v : Int, trigger_value ub v ≤ 255) := by
  have hva := trigger_value_eq ub hub a ha (by omega)
  have hvb := trigger_value_eq ub hub b (by omega) hb
  refine ⟨?_, ?_, ?_, ?_, ?_, ?_⟩
  · rw [caxis_slot ub s ⟨which, .TRIGGERLEFT, a⟩ _ _ rfl]; exact hva
  · rw [caxis_slot ub s ⟨which, .TRIGGERRIGHT, a⟩ _ _ rfl]; exact hva
  · rw [trigger_value_eq ub hub 0 (by decide) (by decide)]; rfl
  · rw [trigger_value_eq ub hub 32767 (by decide) (by decide)]; rfl
  · rw [hva, hvb]
    apply Nat.div_le_div_right
    have : a.toNat ≤ b.toNat := by omega
    omega
  · intro v
    unfold trigger_value
    have := Nat.mod_lt ((v % (2 ^ ub : Int)).toNat * 255 % 2 ^ ub / 32767)
      (show 0 < 256 by norm_num)
    omega

/-- C9 witness: on a 64-bit `unsigned long`, half deflection and full
deflection of the left trigger. -/
theorem C9_trigger_scaling_witness :
    trigger_value 64 16384 ≤ trigger_value 64 32767 :=
  (C9_trigger_scaling 64 (by decide) InputState.init 0 16384 32767 (by decide) (by decide)
    (by decide)).2.2.2.2.1

/-- C10: virtual-mouse deadzone.  For every axis value with `|axis| < 4096`
(in particular every such signed 16-bit value) `calc_mouse_movement` returns
0. -/
theorem C10_vmouse_deadzone (axis : Int) (h : |axis| < 4096) :
    calc_mouse_movement axis = 0 := by
  have habs := abs_lt.mp h
  unfold calc_mouse_movement toShort
  by_cases hp : axis > 0
  · simp only [hp, if_true]
    rw [if_pos (by omega)]
  · simp only [hp, if_false]
    rw [if_pos (by omega)]

/-- C10 witness: the largest deflection inside the deadzone. -/
theorem C10_vmouse_deadzone_witness : calc_mouse_movement (-4095) = 0 :=
  C10_vmouse_deadzone (-4095) (by decide)


/-! ## Theorems: configuration derivation -/

/-- A bitwise OR is zero exactly when both operands are. -/
theorem nat_or_eq_zero (a b : Nat) : a ||| b = 0 ↔ a = 0 ∧ b = 0 := by
  constructor
  · intro h
    have hb : ∀ i, (a ||| b).testBit i = false := by intro i; rw [h]; simp
    constructor
    · apply Nat.eq_of_testBit_eq; intro i
      have := hb i
      simp only [Nat.testBit_or, Bool.or_eq_false_iff] at this
      simp [this.1]
    · apply Nat.eq_of_testBit_eq; intro i
      have := hb i
      simp only [Nat.testBit_or, Bool.or_eq_false_iff] at this
      simp [this.2]
  · rintro ⟨rfl, rfl⟩; rfl

/-- Membership in a union of codec sets. -/
theorem has_format_or (a b x : Nat) :
    has_format (a ||| b) x ↔ has_format a x ∨ has_format b x := by
  unfold has_format
  rw [Nat.and_comm, Nat.and_or_distrib_left, Nat.and_comm x a, Nat.and_comm x b, Ne,
    nat_or_eq_zero]
  tauto

/-- The codec set produced by `session_config_init` is the one computed by
`select_video_formats` from the copied value. -/
theorem session_config_init_formats (C : StreamConsts)
    (opt : SS4S_VideoCapabilities → Int → Int → Int → Int) (surround : Bool)
    (video_cap : SS4S_VideoCapabilities) (audio_cap : SS4S_AudioCapabilities)
    (app_config : CONFIGURATION) :
    (session_config_init C opt surround video_cap audio_cap app_config).stream.supportedVideoFormats
      = select_video_formats C app_config.stream.supportedVideoFormats app_config.hevc
          app_config.av1 app_config.hdr video_cap := by
  have haudio : ∀ st : STREAM_CONFIGURATION,
      (config_audio C surround audio_cap st).supportedVideoFormats
        = st.supportedVideoFormats := by
    intro st; unfold config_audio; split_ifs <;> rfl
  simp only [session_config_init, haudio]
  rfl

/-- C6: `session_config_init` never produces zero video formats.  For every
user configuration (whatever `supportedVideoFormats` value is copied from it)
and every capability snapshot the resulting `supportedVideoFormats` is
non-zero, `VIDEO_FORMAT_H264` being a non-zero constant. -/
theorem C6_video_formats_nonzero (C : StreamConsts)
    (opt : SS4S_VideoCapabilities → Int → Int → Int → Int) (surround : Bool)
    (video_cap : SS4S_VideoCapabilities) (audio_cap : SS4S_AudioCapabilities)
    (app_config : CONFIGURATION) (h264 : C.VIDEO_FORMAT_H264 ≠ 0) :
    (session_config_init C opt surround video_cap audio_cap
      app_config).stream.supportedVideoFormats ≠ 0 := by
  rw [session_config_init_formats]
  unfold select_video_formats
  simp only
  split_ifs <;> first | exact h264 | assumption

/-- C6 witness: a platform without any codec and a user configuration without
formats still yields a non-zero codec set. -/
theorem C6_video_formats_nonzero_witness :
    (session_config_init limelightConsts (fun _ _ _ _ => 20000) true
      ⟨0, false, 0, 0, false⟩ ⟨2⟩
      ⟨⟨1920, 1080, 60, -1, 0, 0, 0, 0, 0⟩, false, false, false, false, false, 0,
        false, false, false⟩).stream.supportedVideoFormats ≠ 0 :=
  C6_video_formats_nonzero limelightConsts (fun _ _ _ _ => 20000) true
    ⟨0, false, 0, 0, false⟩ ⟨2⟩
    ⟨⟨1920, 1080, 60, -1, 0, 0, 0, 0, 0⟩, false, false, false, false, false, 0,
      false, false, false⟩ (by decide)


/-- The library values of the format constants are non-zero and pairwise
disjoint. -/
theorem limelightConsts_formats_distinct : limelightConsts.formats_distinct := by
  constructor <;> decide

/-- C7 (as stated, refuted): a user configuration whose copied stream settings
already carry `VIDEO_FORMAT_H265`, with HEVC switched off, on a platform that
supports only H.264: the resulting codec set is `0x0101` and contains H.265
although the user did not enable HEVC and the platform does not support it. -/
theorem C7_preset_formats_survive :
    (sampleConfig 0x0100 false false false).hevc = false ∧
    (sampleVideoCap 1 false).codecs &&& limelightConsts.SS4S_VIDEO_H265 = 0 ∧
    (session_config_init limelightConsts sampleOptimalBitrate true (sampleVideoCap 1 false) ⟨2⟩
      (sampleConfig 0x0100 false false false)).stream.supportedVideoFormats = 0x0101 ∧
    has_format
      (session_config_init limelightConsts sampleOptimalBitrate true (sampleVideoCap 1 false) ⟨2⟩
        (sampleConfig 0x0100 false false false)).stream.supportedVideoFormats
      limelightConsts.VIDEO_FORMAT_H265 := by
  decide

/-- C7 (amended): codec selection of `session_config_init` when the copied
stream settings carry no pre-set formats (`supportedVideoFormats = 0`).  The
resulting codec set contains H.264 iff the platform supports H.264 or neither
H.265 nor AV1 was selected; contains H.265 iff the user enabled HEVC and the
platform supports H.265, and the H.265 10-bit flag iff additionally HDR is
user-enabled and the platform is HDR-capable; contains AV1 8-bit and AV1 10-bit
under the same two-tier gating on the AV1 setting; and whenever neither H.265
nor AV1 is selected the resulting set is exactly `VIDEO_FORMAT_H264`. -/
theorem C7_codec_selection (C : StreamConsts) (hC : C.formats_distinct)
    (opt : SS4S_VideoCapabilities → Int → Int → Int → Int) (surround : Bool)
    (video_cap : SS4S_VideoCapabilities) (audio_cap : SS4S_AudioCapabilities)
    (app_config : CONFIGURATION) (hpre : app_config.stream.supportedVideoFormats = 0) :
    (has_format (session_config_init C opt surround video_cap audio_cap
        app_config).stream.supportedVideoFormats C.VIDEO_FORMAT_H264 ↔
      (video_cap.codecs &&& C.SS4S_VIDEO_H264 ≠ 0 ∨
        (¬ (app_config.hevc = true ∧ video_cap.codecs &&& C.SS4S_VIDEO_H265 ≠ 0) ∧
         ¬ (app_config.av1 = true ∧ video_cap.codecs &&& C.SS4S_VIDEO_AV1 ≠ 0)))) ∧
    (has_format (session_config_init C opt surround video_cap audio_cap
        app_config).stream.supportedVideoFormats C.VIDEO_FORMAT_H265 ↔
      (app_config.hevc = true ∧ video_cap.codecs &&& C.SS4S_VIDEO_H265 ≠ 0)) ∧
    (has_format (session_config_init C opt surround video_cap audio_cap
        app_config).stream.supportedVideoFormats C.VIDEO_FORMAT_H265_MAIN10 ↔
      ((app_config.hevc = true ∧ video_cap.codecs &&& C.SS4S_VIDEO_H265 ≠ 0) ∧
        app_config.hdr = true ∧ video_cap.hdr = true)) ∧
    (has_format (session_config_init C opt surround video_cap audio_cap
        app_config).stream.supportedVideoFormats C.VIDEO_FORMAT_AV1_MAIN8 ↔
      (app_config.av1 = true ∧ video_cap.codecs &&& C.SS4S_VIDEO_AV1 ≠ 0)) ∧
    (has_format (session_config_init C opt surround video_cap audio_cap
        app_config).stream.supportedVideoFormats C.VIDEO_FORMAT_AV1_MAIN10 ↔
      ((app_config.av1 = true ∧ video_cap.codecs &&& C.SS4S_VIDEO_AV1 ≠ 0) ∧
        app_config.hdr = true ∧ video_cap.hdr = true)) ∧
    (¬ (app_config.hevc = true ∧ video_cap.codecs &&& C.SS4S_VIDEO_H265 ≠ 0) →
      ¬ (app_config.av1 = true ∧ video_cap.codecs &&& C.SS4S_VIDEO_AV1 ≠ 0) →
      (session_config_init C opt surround video_cap audio_cap
        app_config).stream.supportedVideoFormats = C.VIDEO_FORMAT_H264) := by
  rw [session_config_init_formats, hpre]
  obtain ⟨n1, n2, n3, n4, n5, d12, d13, d14, d15, d23, d24, d25, d34, d35, d45⟩ := hC
  have d21 := (Nat.and_comm _ _).trans d12
  have d31 := (Nat.and_comm _ _).trans d13
  have d41 := (Nat.and_comm _ _).trans d14
  have d51 := (Nat.and_comm _ _).trans d15
  have d32 := (Nat.and_comm _ _).trans d23
  have d42 := (Nat.and_comm _ _).trans d24
  have d52 := (Nat.and_comm _ _).trans d25
  have d43 := (Nat.and_comm _ _).trans d34
  have d53 := (Nat.and_comm _ _).trans d35
  have d54 := (Nat.and_comm _ _).trans d45
  unfold select_video_formats
  by_cases p1 : video_cap.codecs &&& C.SS4S_VIDEO_H264 = 0 <;>
  by_cases p2 : video_cap.codecs &&& C.SS4S_VIDEO_H265 = 0 <;>
  by_cases p3 : video_cap.codecs &&& C.SS4S_VIDEO_AV1 = 0 <;>
  cases app_config.hevc <;> cases app_config.av1 <;> cases app_config.hdr <;>
  cases video_cap.hdr <;>
  simp [p1, p2, p3, has_format, nat_or_eq_zero, Nat.and_or_distrib_left, n1, n2, n3, n4, n5,
    d12, d13, d14, d15, d23, d24, d25, d34, d35, d45, d21, d31, d41, d51, d32, d42, d52, d43,
    d53, d54, Nat.and_comm]


/-- C7 witness: HEVC and HDR requested on a platform supporting H.264 and
H.265 without HDR: H.265 is in the codec set. -/
theorem C7_codec_selection_witness :
    has_format
      (session_config_init limelightConsts sampleOptimalBitrate true (sampleVideoCap 3 false) ⟨2⟩
        (sampleConfig 0 true false true)).stream.supportedVideoFormats
      limelightConsts.VIDEO_FORMAT_H265 :=
  (C7_codec_selection limelightConsts limelightConsts_formats_distinct sampleOptimalBitrate true
    (sampleVideoCap 3 false) ⟨2⟩ (sampleConfig 0 true false true) rfl).2.1.mpr (by decide)


/-! ## Theorems: controller registry -/

/-- The scan leaves every slot outside the scanned indices untouched. -/
theorem get_gamepad_scan_untouched (d : Int) (s : InputState) (l : List (Fin 4)) (j : Fin 4)
    (hj : j ∉ l) : (get_gamepad_scan d s l).1.gamepads j = s.gamepads j := by
  induction l with
  | nil => rfl
  | cons i rest ih =>
    have hji : j ≠ i := fun h => hj (h ▸ List.mem_cons_self _ _)
    have hjr : j ∉ rest := fun h => hj (List.mem_cons_of_mem _ h)
    unfold get_gamepad_scan
    split_ifs
    · simp [claim_slot, InputState.setPad, Function.update_noteq hji]
    · rfl
    · exact ih hjr

/-- The scan either leaves the state alone or claims the returned slot, which
was uninitialized. -/
theorem get_gamepad_scan_cases (d : Int) (s : InputState) (l : List (Fin 4)) :
    (get_gamepad_scan d s l).1 = s ∨
    ((get_gamepad_scan d s l).1 = claim_slot d s (get_gamepad_scan d s l).2 ∧
      (s.gamepads (get_gamepad_scan d s l).2).initialized = false) := by
  induction l with
  | nil => left; rfl
  | cons i rest ih =>
    unfold get_gamepad_scan
    split_ifs with h1 h2
    · right
      refine ⟨rfl, ?_⟩
      simpa using h1
    · left; rfl
    · exact ih

/-- Scanning again after a scan returns the same slot and changes nothing. -/
theorem get_gamepad_scan_idem (d : Int) (s : InputState) (l : List (Fin 4)) (hl : l.Nodup) :
    get_gamepad_scan d (get_gamepad_scan d s l).1 l = get_gamepad_scan d s l := by
  induction l with
  | nil => rfl
  | cons i rest ih =>
    have hi : i ∉ rest := (List.nodup_cons.mp hl).1
    have hr : rest.Nodup := (List.nodup_cons.mp hl).2
    by_cases h1 : (s.gamepads i).initialized = false
    · have e1 : get_gamepad_scan d s (i :: rest) = (claim_slot d s i, i) := by
        rw [get_gamepad_scan]; simp [h1]
      rw [e1]
      rw [get_gamepad_scan]
      simp [claim_slot, InputState.setPad]
    · have h1t : (s.gamepads i).initialized = true := by simpa using h1
      by_cases h2 : (s.gamepads i).sdl_id = d
      · have e1 : get_gamepad_scan d s (i :: rest) = (s, i) := by
          rw [get_gamepad_scan]; simp [h1t, h2]
        rw [e1, e1]
      · have e1 : get_gamepad_scan d s (i :: rest) = get_gamepad_scan d s rest := by
          rw [get_gamepad_scan]; simp [h1t, h2]
        rw [e1]
        have hu := get_gamepad_scan_untouched d s rest i hi
        rw [get_gamepad_scan]
        simp only [hu, h1t, h2, Bool.not_true, Bool.false_eq_true, if_false]
        exact ih hr

/-- The function `get_gamepad` is idempotent: once a device has been resolved, resolving it
again returns the same slot and leaves the registry unchanged. -/
theorem get_gamepad_idem (d : Int) (s : InputState) :
    get_gamepad d (get_gamepad d s).1 = ((get_gamepad d s).1, (get_gamepad d s).2) := by
  unfold get_gamepad
  exact get_gamepad_scan_idem d s [0, 1, 2, 3] (by decide)

/-- The scan only reads `initialized` and `sdl_id`: a state that agrees on
these with a state in which the device is already resolved resolves it to the
same slot without change. -/
theorem get_gamepad_scan_congr (d : Int) (s t : InputState) (l : List (Fin 4))
    (hkey : ∀ j, (t.gamepads j).initialized = (s.gamepads j).initialized ∧
      (t.gamepads j).sdl_id = (s.gamepads j).sdl_id)
    (hs : (get_gamepad_scan d s l).1 = s) :
    get_gamepad_scan d t l = (t, (get_gamepad_scan d s l).2) := by
  induction l with
  | nil => rfl
  | cons i rest ih =>
    by_cases h1 : (s.gamepads i).initialized = false
    · exfalso
      have e1 : get_gamepad_scan d s (i :: rest) = (claim_slot d s i, i) := by
        rw [get_gamepad_scan]; simp [h1]
      rw [e1] at hs
      have := congrArg (fun x => (x.gamepads i).initialized) hs
      simp [claim_slot, InputState.setPad, h1] at this
    · have h1t : (s.gamepads i).initialized = true := by simpa using h1
      by_cases h2 : (s.gamepads i).sdl_id = d
      · have e1 : get_gamepad_scan d s (i :: rest) = (s, i) := by
          rw [get_gamepad_scan]; simp [h1t, h2]
        rw [e1, get_gamepad_scan]
        simp [(hkey i).1, (hkey i).2, h1t, h2]
      · have e1 : get_gamepad_scan d s (i :: rest) = get_gamepad_scan d s rest := by
          rw [get_gamepad_scan]; simp [h1t, h2]
        rw [e1] at hs ⊢
        rw [get_gamepad_scan]
        simp only [(hkey i).1, (hkey i).2, h1t, h2, Bool.not_true, Bool.false_eq_true, if_false]
        exact ih hs

/-- A state in which device `d` is resolved to slot `i`. -/
theorem get_gamepad_congr (d : Int) (s t : InputState) (i : Fin 4)
    (hkey : ∀ j, (t.gamepads j).initialized = (s.gamepads j).initialized ∧
      (t.gamepads j).sdl_id = (s.gamepads j).sdl_id)
    (hs : get_gamepad d s = (s, i)) : get_gamepad d t = (t, i) := by
  unfold get_gamepad at hs ⊢
  have h1 : (get_gamepad_scan d s [0, 1, 2, 3]).1 = s := by rw [hs]
  have h2 : (get_gamepad_scan d s [0, 1, 2, 3]).2 = i := by rw [hs]
  rw [get_gamepad_scan_congr d s t _ hkey h1, h2]


/-! ## Theorems: button events -/

/-- The button handler on a state in which the device is already resolved. -/
theorem cbutton_resolved_eq (F : ButtonFlags) (s : InputState)
    (e : SDL_ControllerButtonEvent) (i : Fin 4) (hres : get_gamepad e.which s = (s, i)) :
    sdlinput_handle_cbutton_event F s e =
      match button_flag F s.swap_abxy e.button with
      | none => (s, [])
      | some button =>
        if update_buttons (s.gamepads i).buttons button e.down &&& QUIT_BUTTONS F
            = QUIT_BUTTONS F then
          ({ s.setPad i { s.gamepads i with
                buttons := update_buttons (s.gamepads i).buttons button e.down } with
              quit_combo_pressed := true }, [])
        else if s.quit_combo_pressed then
          if update_buttons (s.gamepads i).buttons button e.down = 0 then
            ((release_buttons
                { s.setPad i { s.gamepads i with
                    buttons := update_buttons (s.gamepads i).buttons button e.down } with
                  quit_combo_pressed := false } i).1,
             (release_buttons
                { s.setPad i { s.gamepads i with
                    buttons := update_buttons (s.gamepads i).buttons button e.down } with
                  quit_combo_pressed := false } i).2 ++ [.bus_pushevent_USER_OPEN_OVERLAY])
          else
            (s.setPad i { s.gamepads i with
                buttons := update_buttons (s.gamepads i).buttons button e.down }, [])
        else if s.absinput_no_control then
          (s.setPad i { s.gamepads i with
              buttons := update_buttons (s.gamepads i).buttons button e.down }, [])
        else
          (s.setPad i { s.gamepads i with
              buttons := update_buttons (s.gamepads i).buttons button e.down },
           [sendControllerState
              (s.setPad i { s.gamepads i with
                buttons := update_buttons (s.gamepads i).buttons button e.down })
              { s.gamepads i with
                buttons := update_buttons (s.gamepads i).buttons button e.down }]) := by
  unfold sdlinput_handle_cbutton_event
  rw [hres]
  simp only [InputState.setPad]


/-- The button handler never changes which device a slot belongs to, nor the
settings it reads. -/
theorem cbutton_frame (F : ButtonFlags) (s : InputState) (e : SDL_ControllerButtonEvent)
    (i : Fin 4) (hres : get_gamepad e.which s = (s, i)) :
    (∀ j, ((sdlinput_handle_cbutton_event F s e).1.gamepads j).initialized
            = (s.gamepads j).initialized ∧
          ((sdlinput_handle_cbutton_event F s e).1.gamepads j).sdl_id = (s.gamepads j).sdl_id ∧
          ((sdlinput_handle_cbutton_event F s e).1.gamepads j).id = (s.gamepads j).id) ∧
    (sdlinput_handle_cbutton_event F s e).1.swap_abxy = s.swap_abxy ∧
    (sdlinput_handle_cbutton_event F s e).1.absinput_no_control = s.absinput_no_control ∧
    (sdlinput_handle_cbutton_event F s e).1.activeGamepadMask = s.activeGamepadMask := by
  rw [cbutton_resolved_eq F s e i hres]
  cases button_flag F s.swap_abxy e.button with
  | none => simp
  | some b =>
    simp only
    refine ⟨?_, ?_, ?_, ?_⟩
    · intro j
      by_cases hj : j = i
      · subst hj
        split_ifs <;> simp [release_buttons, InputState.setPad]
      · split_ifs <;> simp [release_buttons, InputState.setPad, Function.update_noteq hj]
    · split_ifs <;> simp [release_buttons, InputState.setPad]
    · split_ifs <;> simp [release_buttons, InputState.setPad]
    · split_ifs <;> simp [release_buttons, InputState.setPad]

/-- After a button event the device is still resolved to the same slot. -/
theorem cbutton_resolved (F : ButtonFlags) (s : InputState) (e : SDL_ControllerButtonEvent)
    (i : Fin 4) (hres : get_gamepad e.which s = (s, i)) :
    get_gamepad e.which (sdlinput_handle_cbutton_event F s e).1
      = ((sdlinput_handle_cbutton_event F s e).1, i) :=
  get_gamepad_congr e.which s _ i
    (fun j => ⟨((cbutton_frame F s e i hres).1 j).1, ((cbutton_frame F s e i hres).1 j).2.1⟩) hres

/-- The mask of the resolved slot after a button event: updated by the mapped
flag, or unchanged for an unrecognised button. -/
theorem cbutton_mask (F : ButtonFlags) (s : InputState) (e : SDL_ControllerButtonEvent)
    (i : Fin 4) (hres : get_gamepad e.which s = (s, i)) :
    slot_mask (sdlinput_handle_cbutton_event F s e).1 i =
      match button_flag F s.swap_abxy e.button with
      | none => slot_mask s i
      | some b => update_buttons (slot_mask s i) b e.down := by
  rw [cbutton_resolved_eq F s e i hres]
  unfold slot_mask
  cases button_flag F s.swap_abxy e.button with
  | none => rfl
  | some b =>
    simp only
    split_ifs with h1 h2 h3 <;> simp [release_buttons, InputState.setPad]
    exact h3.symm

/-- While the latch is armed, a button event of the resolved device after which
the slot mask is non-zero emits nothing and leaves the latch armed. -/
theorem cbutton_latched (F : ButtonFlags) (s : InputState) (e : SDL_ControllerButtonEvent)
    (i : Fin 4) (hres : get_gamepad e.which s = (s, i)) (hl : s.quit_combo_pressed = true)
    (hm : slot_mask (sdlinput_handle_cbutton_event F s e).1 i ≠ 0) :
    (sdlinput_handle_cbutton_event F s e).2 = [] ∧
    (sdlinput_handle_cbutton_event F s e).1.quit_combo_pressed = true := by
  have hmask := cbutton_mask F s e i hres
  rw [cbutton_resolved_eq F s e i hres] at hm ⊢
  cases hb : button_flag F s.swap_abxy e.button with
  | none => simp [hl]
  | some b =>
    rw [hb] at hm
    simp only at hm ⊢
    split_ifs with h1 h2
    · simp
    · exfalso
      rw [if_neg h1, if_pos hl, if_pos h2] at hm
      simp [slot_mask, release_buttons, InputState.setPad] at hm
    · simp [InputState.setPad, hl]

/-- While the latch is armed, the button event of the resolved device that
takes the slot mask from non-zero to zero emits exactly the zero-state event
and the overlay request and disarms the latch. -/
theorem cbutton_release (F : ButtonFlags) (hQ : QUIT_BUTTONS F ≠ 0) (s : InputState)
    (e : SDL_ControllerButtonEvent)
    (i : Fin 4) (hres : get_gamepad e.which s = (s, i)) (hl : s.quit_combo_pressed = true)
    (h0 : slot_mask s i ≠ 0)
    (hm : slot_mask (sdlinput_handle_cbutton_event F s e).1 i = 0) :
    (sdlinput_handle_cbutton_event F s e).2 =
      [zero_state_event (sdlinput_handle_cbutton_event F s e).1 i,
       .bus_pushevent_USER_OPEN_OVERLAY] ∧
    (sdlinput_handle_cbutton_event F s e).1.quit_combo_pressed = false := by
  have hmask := cbutton_mask F s e i hres
  rw [hm] at hmask
  rw [cbutton_resolved_eq F s e i hres]
  cases hb : button_flag F s.swap_abxy e.button with
  | none =>
    rw [hb] at hmask
    exact absurd hmask.symm h0
  | some b =>
    rw [hb] at hmask
    simp only at hmask ⊢
    have hu : update_buttons (s.gamepads i).buttons b e.down = 0 := hmask.symm
    rw [hu]
    have hq : ¬ (0 &&& QUIT_BUTTONS F = QUIT_BUTTONS F) := by
      rw [Nat.zero_and]; exact fun h => hQ h.symm
    rw [if_neg hq, if_pos hl, if_pos rfl]
    simp [release_buttons, InputState.setPad, zero_state_event, sendControllerState]

/-- A button event after which the slot mask contains the quit combination
arms the latch and emits nothing. -/
theorem cbutton_arm (F : ButtonFlags) (s : InputState) (e : SDL_ControllerButtonEvent)
    (i : Fin 4) (hres : get_gamepad e.which s = (s, i))
    (hb : (button_flag F s.swap_abxy e.button).isSome = true)
    (hm : slot_mask (sdlinput_handle_cbutton_event F s e).1 i &&& QUIT_BUTTONS F
            = QUIT_BUTTONS F) :
    (sdlinput_handle_cbutton_event F s e).2 = [] ∧
    (sdlinput_handle_cbutton_event F s e).1.quit_combo_pressed = true := by
  have hmask := cbutton_mask F s e i hres
  rw [hmask] at hm
  rw [cbutton_resolved_eq F s e i hres]
  cases hf : button_flag F s.swap_abxy e.button with
  | none => rw [hf] at hb; simp at hb
  | some b =>
    rw [hf] at hm
    simp only [slot_mask] at hm ⊢
    rw [if_pos hm]
    simp


/-- Resolving a device changes no button mask and none of the flags the
handlers read. -/
theorem get_gamepad_frame (d : Int) (s : InputState) :
    (∀ j, slot_mask (get_gamepad d s).1 j = slot_mask s j) ∧
    (get_gamepad d s).1.quit_combo_pressed = s.quit_combo_pressed ∧
    (get_gamepad d s).1.swap_abxy = s.swap_abxy ∧
    (get_gamepad d s).1.absinput_no_control = s.absinput_no_control := by
  unfold get_gamepad
  rcases get_gamepad_scan_cases d s [0, 1, 2, 3] with h | ⟨h, -⟩
  · rw [h]; simp
  · rw [h]
    refine ⟨?_, rfl, rfl, rfl⟩
    intro j
    unfold slot_mask claim_slot InputState.setPad
    by_cases hj : j = (get_gamepad_scan d s [0, 1, 2, 3]).2
    · rw [hj]; simp
    · simp [Function.update_noteq hj]

/-- The button handler resolves the device first, so it acts on the resolved
registry. -/
theorem cbutton_pre (F : ButtonFlags) (s : InputState) (e : SDL_ControllerButtonEvent) :
    sdlinput_handle_cbutton_event F s e =
      sdlinput_handle_cbutton_event F (get_gamepad e.which s).1 e := by
  unfold sdlinput_handle_cbutton_event
  rw [get_gamepad_idem]

/-- While the latch is armed and the slot mask stays non-zero, a sequence of
button events of the resolved device emits nothing, keeps the latch armed and
keeps the device resolved and the mask non-zero. -/
theorem held_run (F : ButtonFlags) (d : Int) (i : Fin 4) (evs : List SDL_ControllerButtonEvent) :
    ∀ s : InputState, get_gamepad d s = (s, i) → (∀ x ∈ evs, x.which = d) →
      s.quit_combo_pressed = true → mask_held F i s evs = true →
      (handle_buttons F s evs).2 = [] ∧
      (handle_buttons F s evs).1.quit_combo_pressed = true ∧
      get_gamepad d (handle_buttons F s evs).1 = ((handle_buttons F s evs).1, i) ∧
      (slot_mask s i ≠ 0 → slot_mask (handle_buttons F s evs).1 i ≠ 0) := by
  induction evs with
  | nil =>
    intro s hres _ hl _
    exact ⟨rfl, hl, hres, fun h => h⟩
  | cons e rest ih =>
    intro s hres hall hl hheld
    have hed : e.which = d := hall e (List.mem_cons_self _ _)
    have hrest : ∀ x ∈ rest, x.which = d := fun x hx => hall x (List.mem_cons_of_mem _ hx)
    subst hed
    simp only [mask_held, Bool.and_eq_true, decide_eq_true_eq] at hheld
    obtain ⟨hm, hheld'⟩ := hheld
    obtain ⟨hout, hl'⟩ := cbutton_latched F s e i hres hl hm
    have hres' := cbutton_resolved F s e i hres
    obtain ⟨h1, h2, h3, h4⟩ := ih _ hres' hrest hl' hheld'
    simp only [handle_buttons]
    refine ⟨?_, h2, h3, fun _ => h4 hm⟩
    rw [hout, h1]; rfl

/-- The event at which the mask of the resolved slot comes to contain the quit
combination arms the latch and emits nothing. -/
theorem combo_arms (F : ButtonFlags) (s : InputState) (e : SDL_ControllerButtonEvent)
    (hpre : slot_mask s (get_gamepad e.which s).2 &&& QUIT_BUTTONS F ≠ QUIT_BUTTONS F)
    (hpost : slot_mask (sdlinput_handle_cbutton_event F s e).1 (get_gamepad e.which s).2
              &&& QUIT_BUTTONS F = QUIT_BUTTONS F) :
    (sdlinput_handle_cbutton_event F s e).2 = [] ∧
    (sdlinput_handle_cbutton_event F s e).1.quit_combo_pressed = true ∧
    get_gamepad e.which (sdlinput_handle_cbutton_event F s e).1
      = ((sdlinput_handle_cbutton_event F s e).1, (get_gamepad e.which s).2) := by
  have hres := get_gamepad_idem e.which s
  rw [cbutton_pre] at hpost ⊢
  rw [← (get_gamepad_frame e.which s).1] at hpre
  have hmask := cbutton_mask F _ e _ hres
  have hb : (button_flag F (get_gamepad e.which s).1.swap_abxy e.button).isSome = true := by
    cases hf : button_flag F (get_gamepad e.which s).1.swap_abxy e.button with
    | none =>
      rw [hf] at hmask
      rw [hmask] at hpost
      exact absurd hpost hpre
    | some b => rfl
  obtain ⟨h1, h2⟩ := cbutton_arm F _ e _ hres hb hpost
  exact ⟨h1, h2, cbutton_resolved F _ e _ hres⟩


/-- Delivery of a concatenated sequence of button events. -/
theorem handle_buttons_append (F : ButtonFlags) (a b : List SDL_ControllerButtonEvent) :
    ∀ s : InputState, handle_buttons F s (a ++ b) =
      ((handle_buttons F (handle_buttons F s a).1 b).1,
       (handle_buttons F s a).2 ++ (handle_buttons F (handle_buttons F s a).1 b).2) := by
  induction a with
  | nil => intro s; simp [handle_buttons]
  | cons e rest ih =>
    intro s
    rw [List.cons_append]
    simp only [handle_buttons]
    rw [ih]
    simp only [List.append_assoc]

/-- C2 (as stated, refuted): device 0 holds START+BACK+LB+RB (slot 0 mask
`816 = QUIT_BUTTONS`, latch armed).  An axis event of the same device is then
forwarded as a `LiSendMultiControllerEvent` carrying the mask 816, the mask
never having returned to 0.  Likewise after a second controller has pressed
and released A, the release of START on device 0 is forwarded with mask 800
although the mask of slot 0 has not returned to 0. -/
theorem C2_axis_event_forwarded_while_armed :
    slot_mask comboHeldState 0 = 816 ∧
    slot_mask comboHeldState 0 &&& QUIT_BUTTONS limelightFlags = QUIT_BUTTONS limelightFlags ∧
    comboHeldState.quit_combo_pressed = true ∧
    (sdlinput_handle_caxis_event 64 comboHeldState ⟨0, .LEFTX, 1000⟩).2 =
      [.LiSendMultiControllerEvent 0 1 816 0 0 (-1000) 0 0 0] ∧
    slot_mask (sdlinput_handle_caxis_event 64 comboHeldState ⟨0, .LEFTX, 1000⟩).1 0 = 816 ∧
    slot_mask (handle_buttons limelightFlags comboHeldState [press 1 .A, release 1 .A]).1 0
      = 816 ∧
    (sdlinput_handle_cbutton_event limelightFlags
        (handle_buttons limelightFlags comboHeldState [press 1 .A, release 1 .A]).1
        (release 0 .START)).2 =
      [.LiSendMultiControllerEvent 0 3 800 0 0 0 0 0 0] := by
  decide

/-- C2 (amended): while the quit-combo latch is armed no button event of the
combo-holding controller reaches the remote peer.  For every state, every
button event `e` at which the mask of the slot of its controller comes to
contain START+BACK+LB+RB, and every following sequence of button events of
that controller after each of which the slot mask is non-zero, neither `e` nor
any event of the sequence emits a `LiSendMultiControllerEvent` (they emit
nothing at all), and the latch is armed throughout. -/
theorem C2_no_button_event_while_armed (F : ButtonFlags) (s : InputState)
    (e : SDL_ControllerButtonEvent) (evs : List SDL_ControllerButtonEvent)
    (hdev : ∀ x ∈ evs, x.which = e.which)
    (hpre : slot_mask s (get_gamepad e.which s).2 &&& QUIT_BUTTONS F ≠ QUIT_BUTTONS F)
    (hpost : slot_mask (sdlinput_handle_cbutton_event F s e).1 (get_gamepad e.which s).2
              &&& QUIT_BUTTONS F = QUIT_BUTTONS F)
    (hheld : mask_held F (get_gamepad e.which s).2 (sdlinput_handle_cbutton_event F s e).1 evs
              = true) :
    (∀ o ∈ (handle_buttons F s (e :: evs)).2, o.isControllerEvent = false) ∧
    (handle_buttons F s (e :: evs)).2 = [] ∧
    (sdlinput_handle_cbutton_event F s e).1.quit_combo_pressed = true ∧
    (handle_buttons F s (e :: evs)).1.quit_combo_pressed = true := by
  obtain ⟨h1, h2, h3⟩ := combo_arms F s e hpre hpost
  obtain ⟨r1, r2, -, -⟩ := held_run F e.which _ evs _ h3 hdev h2 hheld
  simp only [handle_buttons]
  refine ⟨?_, ?_, h2, r2⟩
  · rw [h1, r1]
    intro o ho
    simp at ho
  · rw [h1, r1]; rfl

/-- C2 witness: with START, BACK and LB held on device 0, pressing RB completes
the combination; pressing and releasing A and releasing START afterwards is
not forwarded. -/
theorem C2_no_button_event_while_armed_witness :
    (handle_buttons limelightFlags
        (handle_buttons limelightFlags InputState.init
          [press 0 .START, press 0 .BACK, press 0 .LEFTSHOULDER]).1
        (press 0 .RIGHTSHOULDER :: [press 0 .A, release 0 .A, release 0 .START])).2 = [] :=
  (C2_no_button_event_while_armed limelightFlags
    (handle_buttons limelightFlags InputState.init
      [press 0 .START, press 0 .BACK, press 0 .LEFTSHOULDER]).1
    (press 0 .RIGHTSHOULDER) [press 0 .A, release 0 .A, release 0 .START]
    (by decide) (by decide) (by decide) (by decide)).2.1


/-- C3 (as stated, refuted): device 0 holds the quit combination (slot 0 mask
816, latch armed) and a second controller presses and releases A.  The release
on the second controller disarms the latch, sends the zero state of slot 1 and
raises the overlay request while the mask of the combo-holding slot 0 is still
816; when device 0 afterwards releases its four buttons, each release is
forwarded and the event that returns the mask of slot 0 to 0 raises no overlay
request. -/
theorem C3_other_controller_resolves_combo :
    slot_mask comboHeldState 0 = 816 ∧
    comboHeldState.quit_combo_pressed = true ∧
    (handle_buttons limelightFlags comboHeldState [press 1 .A, release 1 .A]).2 =
      [.LiSendMultiControllerEvent 1 3 0 0 0 0 0 0 0, .bus_pushevent_USER_OPEN_OVERLAY] ∧
    slot_mask (handle_buttons limelightFlags comboHeldState [press 1 .A, release 1 .A]).1 0
      = 816 ∧
    (handle_buttons limelightFlags comboHeldState
        [press 1 .A, release 1 .A]).1.quit_combo_pressed = false ∧
    (handle_buttons limelightFlags
        (handle_buttons limelightFlags comboHeldState [press 1 .A, release 1 .A]).1
        (comboRelease 0)).2 =
      [.LiSendMultiControllerEvent 0 3 800 0 0 0 0 0 0,
       .LiSendMultiControllerEvent 0 3 768 0 0 0 0 0 0,
       .LiSendMultiControllerEvent 0 3 512 0 0 0 0 0 0,
       .LiSendMultiControllerEvent 0 3 0 0 0 0 0 0 0] ∧
    slot_mask (handle_buttons limelightFlags
        (handle_buttons limelightFlags comboHeldState [press 1 .A, release 1 .A]).1
        (comboRelease 0)).1 0 = 0 := by
  decide

/-- C3 (amended): quit-combo resolution for the button events of one
controller.  For every state, every button event `e` at which the mask of the
slot of its controller comes to contain the full combination, every following
sequence `held` of button events of that controller after each of which the
slot mask is non-zero, and every next button event `rel` of that controller
that returns the slot mask to 0: `e` and the events of `held` emit nothing (no
overlay request while the combination is held, whatever is pressed or
released) and leave the latch armed, and `rel` emits exactly the all-zero
controller state event of the slot followed by one `USER_OPEN_OVERLAY` request
and disarms the latch; these two are the whole output of the sequence. -/
theorem C3_quit_combo_resolution (F : ButtonFlags) (hQ : QUIT_BUTTONS F ≠ 0) (s : InputState)
    (e rel : SDL_ControllerButtonEvent) (held : List SDL_ControllerButtonEvent)
    (hdev : ∀ x ∈ held, x.which = e.which) (hrel : rel.which = e.which)
    (hpre : slot_mask s (get_gamepad e.which s).2 &&& QUIT_BUTTONS F ≠ QUIT_BUTTONS F)
    (hpost : slot_mask (sdlinput_handle_cbutton_event F s e).1 (get_gamepad e.which s).2
              &&& QUIT_BUTTONS F = QUIT_BUTTONS F)
    (hheld : mask_held F (get_gamepad e.which s).2 (sdlinput_handle_cbutton_event F s e).1 held
              = true)
    (hzero : slot_mask (handle_buttons F s (e :: held ++ [rel])).1 (get_gamepad e.which s).2
              = 0) :
    (sdlinput_handle_cbutton_event F s e).2 = [] ∧
    (sdlinput_handle_cbutton_event F s e).1.quit_combo_pressed = true ∧
    (handle_buttons F s (e :: held)).2 = [] ∧
    (handle_buttons F s (e :: held)).1.quit_combo_pressed = true ∧
    (sdlinput_handle_cbutton_event F (handle_buttons F s (e :: held)).1 rel).2 =
      [zero_state_event (handle_buttons F s (e :: held ++ [rel])).1 (get_gamepad e.which s).2,
       .bus_pushevent_USER_OPEN_OVERLAY] ∧
    (handle_buttons F s (e :: held ++ [rel])).2 =
      [zero_state_event (handle_buttons F s (e :: held ++ [rel])).1 (get_gamepad e.which s).2,
       .bus_pushevent_USER_OPEN_OVERLAY] ∧
    (handle_buttons F s (e :: held ++ [rel])).1.quit_combo_pressed = false := by
  obtain ⟨h1, h2, h3⟩ := combo_arms F s e hpre hpost
  have hne : slot_mask (sdlinput_handle_cbutton_event F s e).1 (get_gamepad e.which s).2 ≠ 0 := by
    intro h0
    rw [h0, Nat.zero_and] at hpost
    exact hQ hpost.symm
  obtain ⟨r1, r2, r3, r4⟩ := held_run F e.which _ held _ h3 hdev h2 hheld
  have hstep : ∀ l, handle_buttons F s (e :: l) =
      ((handle_buttons F (sdlinput_handle_cbutton_event F s e).1 l).1,
       (sdlinput_handle_cbutton_event F s e).2 ++
         (handle_buttons F (sdlinput_handle_cbutton_event F s e).1 l).2) := by
    intro l; simp only [handle_buttons]
  have hlast : ∀ t : InputState, handle_buttons F t [rel] =
      ((sdlinput_handle_cbutton_event F t rel).1, (sdlinput_handle_cbutton_event F t rel).2) := by
    intro t; simp [handle_buttons]
  have r3' : get_gamepad rel.which (handle_buttons F (sdlinput_handle_cbutton_event F s e).1
      held).1 = ((handle_buttons F (sdlinput_handle_cbutton_event F s e).1 held).1,
        (get_gamepad e.which s).2) := by
    rw [hrel]; exact r3
  rw [handle_buttons_append, hlast] at hzero ⊢
  simp only at hzero ⊢
  rw [hstep held] at hzero ⊢
  simp only at hzero ⊢
  obtain ⟨q1, q2⟩ := cbutton_release F hQ _ rel _ r3' r2 (r4 hne) hzero
  refine ⟨h1, h2, ?_, r2, q1, ?_, q2⟩
  · rw [h1, r1]; rfl
  · rw [h1, r1, q1]; rfl

/-- C3 witness: from three combo buttons held on device 0, RB completes the
combination, A is pressed and released and the four combo buttons are
released; the last release resolves the combination. -/
theorem C3_quit_combo_resolution_witness :
    (handle_buttons limelightFlags
        (handle_buttons limelightFlags InputState.init
          [press 0 .START, press 0 .BACK, press 0 .LEFTSHOULDER]).1
        (press 0 .RIGHTSHOULDER ::
          [press 0 .A, release 0 .A, release 0 .START, release 0 .BACK,
           release 0 .LEFTSHOULDER] ++ [release 0 .RIGHTSHOULDER])).1.quit_combo_pressed
      = false :=
  (C3_quit_combo_resolution limelightFlags (by decide)
    (handle_buttons limelightFlags InputState.init
      [press 0 .START, press 0 .BACK, press 0 .LEFTSHOULDER]).1
    (press 0 .RIGHTSHOULDER) (release 0 .RIGHTSHOULDER)
    [press 0 .A, release 0 .A, release 0 .START, release 0 .BACK, release 0 .LEFTSHOULDER]
    (by decide) (by decide) (by decide) (by decide) (by decide) (by decide)).2.2.2.2.2.2


/-! ## Theorems: input suppression -/

/-- Resolving a device does not depend on the suppression flag. -/
theorem get_gamepad_scan_no_control (d : Int) (b : Bool) (s : InputState) (l : List (Fin 4)) :
    get_gamepad_scan d { s with absinput_no_control := b } l =
      ({ (get_gamepad_scan d s l).1 with absinput_no_control := b },
       (get_gamepad_scan d s l).2) := by
  induction l with
  | nil => rfl
  | cons i rest ih =>
    unfold get_gamepad_scan
    simp only
    split_ifs
    · rfl
    · rfl
    · exact ih

/-- The function `vmouse_set_vector` does not touch the latch or the suppression flag. -/
theorem vmouse_set_vector_flags (x y : Int) (s : InputState) :
    (vmouse_set_vector x y s).quit_combo_pressed = s.quit_combo_pressed ∧
    (vmouse_set_vector x y s).absinput_no_control = s.absinput_no_control := by
  unfold vmouse_set_vector
  simp only [SDL_AddTimer, SDL_RemoveTimer]
  split_ifs <;> exact ⟨rfl, rfl⟩

/-- The latch after a button event does not depend on the suppression flag. -/
theorem cbutton_latch_no_control (F : ButtonFlags) (b : Bool) (s : InputState)
    (e : SDL_ControllerButtonEvent) :
    (sdlinput_handle_cbutton_event F { s with absinput_no_control := b } e).1.quit_combo_pressed
      = (sdlinput_handle_cbutton_event F s e).1.quit_combo_pressed := by
  unfold sdlinput_handle_cbutton_event get_gamepad
  rw [get_gamepad_scan_no_control]
  simp only
  cases button_flag F (get_gamepad_scan e.which s [0, 1, 2, 3]).1.swap_abxy e.button with
  | none => rfl
  | some flag =>
    simp only [InputState.setPad, release_buttons]
    split_ifs <;> simp_all

/-- The latch after an axis event is the latch before it. -/
theorem caxis_latch (ub : Nat) (s : InputState) (e : SDL_ControllerAxisEvent) :
    (sdlinput_handle_caxis_event ub s e).1.quit_combo_pressed = s.quit_combo_pressed := by
  have hg := (get_gamepad_frame e.which s).2.1
  unfold sdlinput_handle_caxis_event
  simp only
  cases axis_update ub (get_gamepad e.which s).1.absinput_virtual_mouse
      ((get_gamepad e.which s).1.gamepads (get_gamepad e.which s).2) e.value e.axis with
  | none => exact hg
  | some p =>
    simp only [InputState.setPad]
    split_ifs <;> simp [(vmouse_set_vector_flags _ _ _).1, hg]

/-- Under suppression an axis event emits nothing. -/
theorem caxis_suppressed (ub : Nat) (s : InputState) (e : SDL_ControllerAxisEvent)
    (hs : s.absinput_no_control = true) :
    (sdlinput_handle_caxis_event ub s e).2 = [] ∧
    (sdlinput_handle_caxis_event ub s e).1.absinput_no_control = true := by
  have hg := (get_gamepad_frame e.which s).2.2.2
  rw [hs] at hg
  unfold sdlinput_handle_caxis_event
  simp only
  cases axis_update ub (get_gamepad e.which s).1.absinput_virtual_mouse
      ((get_gamepad e.which s).1.gamepads (get_gamepad e.which s).2) e.value e.axis with
  | none => exact ⟨rfl, hg⟩
  | some p =>
    simp [InputState.setPad, hg]

/-- Under suppression a button event emits nothing, except that the event
resolving the quit combination emits the zero state and the overlay request. -/
theorem cbutton_suppressed (F : ButtonFlags) (s : InputState) (e : SDL_ControllerButtonEvent)
    (hs : s.absinput_no_control = true) :
    ((sdlinput_handle_cbutton_event F s e).2 = [] ∨
      (s.quit_combo_pressed = true ∧
       (sdlinput_handle_cbutton_event F s e).1.quit_combo_pressed = false ∧
       (sdlinput_handle_cbutton_event F s e).2 =
        [zero_state_event (sdlinput_handle_cbutton_event F s e).1 (get_gamepad e.which s).2,
         .bus_pushevent_USER_OPEN_OVERLAY])) ∧
    (sdlinput_handle_cbutton_event F s e).1.absinput_no_control = true := by
  obtain ⟨-, hl, -, hn⟩ := get_gamepad_frame e.which s
  rw [hs] at hn
  have hres := get_gamepad_idem e.which s
  have hfr := (cbutton_frame F _ e _ hres).2.2.1
  rw [cbutton_pre]
  refine ⟨?_, by rw [hfr, hn]⟩
  rw [cbutton_resolved_eq F _ e _ hres]
  cases button_flag F (get_gamepad e.which s).1.swap_abxy e.button with
  | none => left; rfl
  | some b =>
    simp only
    split_ifs with h1 h2 h3
    · left; rfl
    · right
      refine ⟨by rw [← hl]; exact h2, ?_, ?_⟩
      · simp [release_buttons, InputState.setPad]
      · simp [release_buttons, InputState.setPad, zero_state_event, sendControllerState]
    · left; rfl
    · left; rfl


/-- C4 (as stated, refuted): with `absinput_no_control` set from program start,
device 0 presses and releases the quit combination.  The last release sends a
`LiSendMultiControllerEvent` (the all-zero state of slot 0) to the remote peer
although suppression is still set. -/
theorem C4_zero_state_sent_under_suppression :
    suppressedInit.absinput_no_control = true ∧
    (handle_buttons limelightFlags suppressedInit
        (comboPress 0 ++ comboRelease 0)).1.absinput_no_control = true ∧
    (handle_buttons limelightFlags suppressedInit (comboPress 0 ++ comboRelease 0)).2 =
      [.LiSendMultiControllerEvent 0 1 0 0 0 0 0 0 0, .bus_pushevent_USER_OPEN_OVERLAY] := by
  decide

/-- C4 (amended): global input suppression.  For every button or axis event
handled while `absinput_no_control` is set, nothing is sent to the remote peer
(no `LiSendMultiControllerEvent`, no mouse move) except that the button event
which resolves the quit combination emits the all-zero controller state of its
slot followed by the overlay request; an axis event emits nothing; the flag
stays set; and the latch after the event is the one the same event produces
without suppression. -/
theorem C4_input_suppression (F : ButtonFlags) (ub : Nat) (s : InputState) (ev : InputEvent)
    (hs : s.absinput_no_control = true) :
    ((handle_event F ub s ev).2 = [] ∨
      ∃ e, ev = .button e ∧ s.quit_combo_pressed = true ∧
        (handle_event F ub s ev).1.quit_combo_pressed = false ∧
        (handle_event F ub s ev).2 =
          [zero_state_event (handle_event F ub s ev).1 (get_gamepad e.which s).2,
           .bus_pushevent_USER_OPEN_OVERLAY]) ∧
    (∀ e, ev = .axis e → (handle_event F ub s ev).2 = []) ∧
    (∀ o ∈ (handle_event F ub s ev).2, ∀ dx dy, o ≠ .LiSendMouseMoveEvent dx dy) ∧
    (handle_event F ub s ev).1.absinput_no_control = true ∧
    (handle_event F ub s ev).1.quit_combo_pressed =
      (handle_event F ub { s with absinput_no_control := false } ev).1.quit_combo_pressed := by
  cases ev with
  | button e =>
    simp only [handle_event]
    obtain ⟨hout, hflag⟩ := cbutton_suppressed F s e hs
    refine ⟨?_, ?_, ?_, hflag, (cbutton_latch_no_control F false s e).symm⟩
    · rcases hout with h | ⟨h1, h2, h3⟩
      · left; exact h
      · right; exact ⟨e, rfl, h1, h2, h3⟩
    · intro e' he'; cases he'
    · intro o ho dx dy
      rcases hout with h | ⟨-, -, h3⟩
      · rw [h] at ho; simp at ho
      · rw [h3] at ho
        simp only [List.mem_cons, List.mem_singleton, List.not_mem_nil, or_false] at ho
        rcases ho with rfl | rfl
        · simp [zero_state_event]
        · simp
  | axis e =>
    simp only [handle_event]
    obtain ⟨hout, hflag⟩ := caxis_suppressed ub s e hs
    refine ⟨Or.inl hout, fun _ _ => hout, ?_, hflag, ?_⟩
    · intro o ho; rw [hout] at ho; simp at ho
    · rw [caxis_latch, caxis_latch]

/-- C4 witness: under suppression a left-stick axis event emits nothing. -/
theorem C4_input_suppression_witness :
    (handle_event limelightFlags 64 suppressedInit (.axis ⟨0, .LEFTX, 1000⟩)).2 = [] :=
  (C4_input_suppression limelightFlags 64 suppressedInit (.axis ⟨0, .LEFTX, 1000⟩) rfl).2.1
    ⟨0, .LEFTX, 1000⟩ rfl


/-! ## Theorems: the button mask as a fold -/

/-- Every mapped flag is a 16-bit pattern. -/
theorem button_flag_lt (F : ButtonFlags) (sw : Bool) (btn : SDL_GameControllerButton) (b : Nat)
    (h : button_flag F sw btn = some b) : b < 65536 := by
  cases btn <;> simp only [button_flag, Option.some.injEq, reduceCtorEq] at h <;>
    (subst h; unfold toShortBits; omega)

/-- Bits of the AND-NOT of two masks. -/
theorem andNot_testBit (a b i : Nat) :
    (andNot a b).testBit i = (a.testBit i && !b.testBit i) := by
  unfold andNot
  rw [Nat.testBit_bitwise (by rfl)]

/-- On 16-bit patterns the release update is the AND-NOT. -/
theorem release_eq_andNot (m b : Nat) (hm : m < 65536) : m &&& (65535 ^^^ b) = andNot m b := by
  apply Nat.eq_of_testBit_eq
  intro i
  rw [andNot_testBit, Nat.testBit_and, Nat.testBit_xor]
  by_cases hi : i < 16
  · have h1 : Nat.testBit 65535 i = true := by
      have := Nat.testBit_two_pow_sub_one 16 i
      norm_num at this
      rw [this]; simpa using hi
    rw [h1]
    cases Nat.testBit b i <;> simp
  · have h2 : m.testBit i = false := by
      apply Nat.testBit_lt_two_pow
      calc m < 2 ^ 16 := by norm_num; exact hm
        _ ≤ 2 ^ i := Nat.pow_le_pow_right (by norm_num) (by omega)
    rw [h2]; simp

/-- On 16-bit patterns the press update is the OR. -/
theorem press_eq_or (m b : Nat) (hm : m < 65536) (hb : b < 65536) :
    toShortBits (m ||| b) = m ||| b := by
  unfold toShortBits
  apply Nat.mod_eq_of_lt
  have := @Nat.or_lt_two_pow m b 16 (by norm_num; exact hm) (by norm_num; exact hb)
  norm_num at this
  exact this

/-- The button update keeps the mask a 16-bit pattern. -/
theorem update_buttons_lt (m b : Nat) (down : Bool) (hm : m < 65536) :
    update_buttons m b down < 65536 := by
  unfold update_buttons toShortBits
  split_ifs
  · omega
  · exact lt_of_le_of_lt Nat.and_le_left hm

/-- On 16-bit patterns the button update is one step of the specification
fold. -/
theorem update_buttons_eq (m b : Nat) (down : Bool) (hm : m < 65536) (hb : b < 65536) :
    update_buttons m b down = if down then m ||| b else andNot m b := by
  unfold update_buttons
  cases down
  · simp [release_eq_andNot m b hm]
  · simp [press_eq_or m b hm hb]

/-- The mask of the resolved slot after a sequence of button events of its
device is the specification fold of the sequence. -/
theorem mask_run_fold (F : ButtonFlags) (d : Int) (i : Fin 4)
    (evs : List SDL_ControllerButtonEvent) :
    ∀ s : InputState, get_gamepad d s = (s, i) → (∀ x ∈ evs, x.which = d) →
      slot_mask s i < 65536 →
      slot_mask (handle_buttons F s evs).1 i
        = spec_button_fold F s.swap_abxy (slot_mask s i) evs := by
  induction evs with
  | nil => intro s _ _ _; rfl
  | cons e rest ih =>
    intro s hres hall hlt
    have hed : e.which = d := hall e (List.mem_cons_self _ _)
    have hrest : ∀ x ∈ rest, x.which = d := fun x hx => hall x (List.mem_cons_of_mem _ hx)
    subst hed
    have hmask := cbutton_mask F s e i hres
    have hres' := cbutton_resolved F s e i hres
    have hsw := (cbutton_frame F s e i hres).2.1
    simp only [handle_buttons, spec_button_fold]
    cases hb : button_flag F s.swap_abxy e.button with
    | none =>
      rw [hb] at hmask
      simp only at hmask ⊢
      rw [ih _ hres' hrest (by rw [hmask]; exact hlt), hsw, hmask]
    | some b =>
      rw [hb] at hmask
      simp only at hmask ⊢
      have hbl := button_flag_lt F _ _ b hb
      rw [ih _ hres' hrest (by rw [hmask]; exact update_buttons_lt _ _ _ hlt), hsw, hmask,
        update_buttons_eq _ _ _ hlt hbl]

/-- A bit that survives the specification fold of a sequence in which every
pressed button is released again was set at the start and is cleared by no
release of the sequence. -/
theorem spec_fold_bit (F : ButtonFlags) (sw : Bool) (t : Nat)
    (evs : List SDL_ControllerButtonEvent) :
    ∀ m : Nat, all_released evs → (spec_button_fold F sw m evs).testBit t = true →
      m.testBit t = true ∧
      ∀ r ∈ evs, r.down = false → ∀ f, button_flag F sw r.button = some f →
        f.testBit t = false := by
  induction evs with
  | nil =>
    intro m _ h
    exact ⟨h, fun r hr => absurd hr (List.not_mem_nil r)⟩
  | cons e rest ih =>
    intro m hall h
    obtain ⟨hfirst, hrestall⟩ := hall
    simp only [spec_button_fold] at h
    cases hb : button_flag F sw e.button with
    | none =>
      rw [hb] at h
      obtain ⟨h1, h2⟩ := ih m hrestall h
      refine ⟨h1, ?_⟩
      intro r hr hdown f hf
      rcases List.mem_cons.mp hr with rfl | hr'
      · rw [hb] at hf; cases hf
      · exact h2 r hr' hdown f hf
    | some b =>
      rw [hb] at h
      simp only at h
      obtain ⟨h1, h2⟩ := ih _ hrestall h
      cases hd : e.down with
      | true =>
        rw [hd] at h1
        simp only [if_true, Nat.testBit_or, Bool.or_eq_true] at h1
        obtain ⟨r, hr, hrb, hrd⟩ := hfirst hd
        have hbt : b.testBit t = false := h2 r hr hrd b (by rw [hrb]; exact hb)
        refine ⟨?_, ?_⟩
        · rcases h1 with h1 | h1
          · exact h1
          · rw [hbt] at h1; cases h1
        · intro r' hr' hdown f hf
          rcases List.mem_cons.mp hr' with rfl | hr''
          · rw [hd] at hdown; cases hdown
          · exact h2 r' hr'' hdown f hf
      | false =>
        rw [hd] at h1
        simp only [Bool.false_eq_true, if_false, andNot_testBit, Bool.and_eq_true,
          Bool.not_eq_true'] at h1
        refine ⟨h1.1, ?_⟩
        intro r' hr' hdown f hf
        rcases List.mem_cons.mp hr' with rfl | hr''
        · rw [hb] at hf
          cases hf
          exact h1.2
        · exact h2 r' hr'' hdown f hf

/-- Started from the empty mask, the specification fold of a sequence in which
every pressed button is released again is the empty mask. -/
theorem spec_fold_all_released (F : ButtonFlags) (sw : Bool)
    (evs : List SDL_ControllerButtonEvent) (hall : all_released evs) :
    spec_button_fold F sw 0 evs = 0 := by
  apply Nat.eq_of_testBit_eq
  intro t
  rw [Nat.zero_testBit]
  by_contra h
  have h' : (spec_button_fold F sw 0 evs).testBit t = true := by simpa using h
  have := (spec_fold_bit F sw t evs 0 hall h').1
  simp at this


/-- Delivery of a non-empty sequence of button events of one device acts on
the registry in which that device is resolved. -/
theorem handle_buttons_pre (F : ButtonFlags) (d : Int) (s : InputState)
    (e : SDL_ControllerButtonEvent) (rest : List SDL_ControllerButtonEvent) (hd : e.which = d) :
    handle_buttons F s (e :: rest) = handle_buttons F (get_gamepad d s).1 (e :: rest) := by
  subst hd
  simp only [handle_buttons]
  rw [← cbutton_pre]

/-- C5: the button mask is the OR / AND-NOT fold of the event sequence.  For
every state, every controller whose slot mask is 0 and every sequence of
button-down / button-up events delivered for that controller (the `swap_abxy`
setting being the one of the state), the mask of the slot after the sequence
equals the fold that ORs in the mapped flag on each press and AND-NOTs it on
each release, starting from 0; an event for an unrecognised button leaves every
mask unchanged; and if every pressed button has been released again the mask
is 0. -/
theorem C5_button_mask_fold (F : ButtonFlags) (s : InputState) (d : Int)
    (evs : List SDL_ControllerButtonEvent) (hdev : ∀ x ∈ evs, x.which = d)
    (h0 : slot_mask s (get_gamepad d s).2 = 0) :
    slot_mask (handle_buttons F s evs).1 (get_gamepad d s).2
      = spec_button_fold F s.swap_abxy 0 evs ∧
    (∀ (t : InputState) (e : SDL_ControllerButtonEvent),
      button_flag F t.swap_abxy e.button = none →
      ∀ j, slot_mask (sdlinput_handle_cbutton_event F t e).1 j = slot_mask t j) ∧
    (all_released evs → slot_mask (handle_buttons F s evs).1 (get_gamepad d s).2 = 0) := by
  have hfold : slot_mask (handle_buttons F s evs).1 (get_gamepad d s).2
      = spec_button_fold F s.swap_abxy 0 evs := by
    cases evs with
    | nil => simpa [handle_buttons, spec_button_fold] using h0
    | cons e rest =>
      have hed : e.which = d := hdev e (List.mem_cons_self _ _)
      obtain ⟨hm, -, hsw, -⟩ := get_gamepad_frame d s
      rw [handle_buttons_pre F d s e rest hed,
        mask_run_fold F d _ (e :: rest) _ (get_gamepad_idem d s) hdev
          (by rw [hm, h0]; norm_num), hm, h0, hsw]
  refine ⟨hfold, ?_, ?_⟩
  · intro t e hnone j
    obtain ⟨hm, -, hsw, -⟩ := get_gamepad_frame e.which t
    unfold sdlinput_handle_cbutton_event
    simp only
    rw [hsw, hnone]
    exact hm j
  · intro hall
    rw [hfold]
    exact spec_fold_all_released F _ evs hall

/-- C5 witness: on a fresh registry, A and START are pressed, a button unknown
to the handler is pressed, and A and START are released. -/
theorem C5_button_mask_fold_witness :
    slot_mask (handle_buttons limelightFlags InputState.init
        [press 0 .A, press 0 .START, press 0 (.other 21), release 0 .A,
         release 0 (.other 21), release 0 .START]).1
      (get_gamepad 0 InputState.init).2 = 0 :=
  (C5_button_mask_fold limelightFlags InputState.init 0
    [press 0 .A, press 0 .START, press 0 (.other 21), release 0 .A,
     release 0 (.other 21), release 0 .START]
    (by decide) (by decide)).2.2
    (by
      refine ⟨fun _ => ⟨release 0 .A, by decide, rfl, rfl⟩,
        fun _ => ⟨release 0 .START, by decide, rfl, rfl⟩,
        fun _ => ⟨release 0 (.other 21), by decide, rfl, rfl⟩,
        fun h => absurd h (by decide), fun h => absurd h (by decide),
        fun h => absurd h (by decide), trivial⟩)


/-! ## Theorems: the virtual-mouse curve -/

/-- Conversion to `short` is the identity on the `short` range. -/
theorem toShort_id (v : Int) (h1 : -32768 ≤ v) (h2 : v ≤ 32767) : toShort v = v := by
  unfold toShort; omega

/-- The integer square root on the range of `abs_axis - threshold`. -/
theorem sqrt_le_169 (d : Nat) (h : d ≤ 28671) : Nat.sqrt d ≤ 169 := by
  have : Nat.sqrt d < 170 := by
    rw [Nat.sqrt_lt']; omega
  omega

/-- The curve for a positive deflection outside the deadzone. -/
theorem calc_mouse_movement_pos (a : Int) (h1 : 4096 ≤ a) (h2 : a ≤ 32767) :
    calc_mouse_movement a = (((ceilSqrt (a - 4096).toNat + 31) / 32 : Nat) : Int) - 8 := by
  have hs := sqrt_le_169 (a - 4096).toNat (by omega)
  have hc : ceilSqrt (a - 4096).toNat ≤ 170 := by
    unfold ceilSqrt; split_ifs <;> omega
  unfold calc_mouse_movement
  have hpos : a > 0 := by omega
  simp only [hpos, if_true, toShort_id a (by omega) h2, decide_True]
  rw [if_neg (by omega)]
  have c8 : (LV_CLAMP 0 8 16).toNat = 8 := by decide
  rw [c8]
  unfold sqrt_scaled_trunc
  simp only [if_true]
  rw [if_neg (by omega)]
  apply toShort_id <;> omega

/-- The curve for a negative deflection outside the deadzone. -/
theorem calc_mouse_movement_neg (a : Int) (h1 : a ≤ -4096) (h2 : -32767 ≤ a) :
    calc_mouse_movement a = -(((Nat.sqrt (-a - 4096).toNat / 32 + 8 : Nat) : Nat) : Int) := by
  have hs := sqrt_le_169 (-a - 4096).toNat (by omega)
  unfold calc_mouse_movement
  have hpos : ¬ (a > 0) := by omega
  simp only [hpos, if_false, toShort_id (-a) (by omega) (by omega), decide_False]
  rw [if_neg (by omega)]
  have c8 : (LV_CLAMP 0 8 16).toNat = 8 := by decide
  rw [c8]
  unfold sqrt_scaled_trunc
  simp only [Bool.false_eq_true, if_false]
  apply toShort_id <;> omega

/-- The integer square root of `32767 - 4096`. -/
theorem sqrt_28671 : Nat.sqrt 28671 = 169 := by
  symm; rw [Nat.eq_sqrt]; constructor <;> norm_num

/-- The rounded-up square root of `32767 - 4096`. -/
theorem ceilSqrt_28671 : ceilSqrt 28671 = 170 := by
  unfold ceilSqrt
  rw [sqrt_28671]
  decide

/-- The rounded-up square root of 0. -/
theorem ceilSqrt_zero : ceilSqrt 0 = 0 := by
  unfold ceilSqrt
  rw [Nat.sqrt_zero]
  decide

/-- The curve at the edge of the deadzone, at full positive deflection and at
the two corresponding negative deflections. -/
theorem calc_mouse_movement_samples :
    calc_mouse_movement 4096 = -8 ∧ calc_mouse_movement 32767 = -2 ∧
    calc_mouse_movement (-4096) = -8 ∧ calc_mouse_movement (-32767) = -13 := by
  have n0 : ((4096 : Int) - 4096).toNat = 0 := by decide
  have n1 : ((32767 : Int) - 4096).toNat = 28671 := by decide
  have m0 : (-(-4096 : Int) - 4096).toNat = 0 := by decide
  have m1 : (-(-32767 : Int) - 4096).toNat = 28671 := by decide
  refine ⟨?_, ?_, ?_, ?_⟩
  · rw [calc_mouse_movement_pos 4096 (by norm_num) (by norm_num), n0, ceilSqrt_zero]
    norm_num
  · rw [calc_mouse_movement_pos 32767 (by norm_num) (by norm_num), n1, ceilSqrt_28671]
    norm_num
  · rw [calc_mouse_movement_neg (-4096) (by norm_num) (by norm_num), m0, Nat.sqrt_zero]
    norm_num
  · rw [calc_mouse_movement_neg (-32767) (by norm_num) (by norm_num), m1, sqrt_28671]
    norm_num

/-- C11 (code evaluated at the failing inputs): at the positive inputs 4096
and 32767 outside the deadzone `calc_mouse_movement` returns the negative
values -8 and -2, so the sign of the output does not match the sign of the
input, and although `|4096| ≤ |32767|` the output magnitudes are `8 > 2`. -/
theorem C11_positive_axis_gives_negative_movement :
    (4096 : Int) ≤ |4096| ∧ |(4096 : Int)| ≤ |32767| ∧ |(32767 : Int)| ≤ 32767 ∧
    calc_mouse_movement 4096 = -8 ∧ calc_mouse_movement 32767 = -2 ∧
    ¬ (0 ≤ calc_mouse_movement 4096) ∧
    ¬ (|calc_mouse_movement 4096| ≤ |calc_mouse_movement 32767|) := by
  obtain ⟨h1, h2, -, -⟩ := calc_mouse_movement_samples
  rw [h1, h2]
  decide


/-! ## Theorems: the virtual-mouse timer -/

/-- The integer square root of `20000 - 4096`. -/
theorem sqrt_15904 : Nat.sqrt 15904 = 126 := by
  symm; rw [Nat.eq_sqrt]; constructor <;> norm_num

/-- The rounded-up square root of `20000 - 4096`. -/
theorem ceilSqrt_15904 : ceilSqrt 15904 = 127 := by
  unfold ceilSqrt
  rw [sqrt_15904]
  decide

/-- The curve at the deflection 20000. -/
theorem calc_mouse_movement_20000 : calc_mouse_movement 20000 = -4 := by
  have n0 : ((20000 : Int) - 4096).toNat = 15904 := by decide
  rw [calc_mouse_movement_pos 20000 (by norm_num) (by norm_num), n0, ceilSqrt_15904]
  norm_num

/-- The curve at rest. -/
theorem calc_mouse_movement_rest : calc_mouse_movement 0 = 0 := by decide

/-- Resolving a device leaves the virtual-mouse variables alone. -/
theorem get_gamepad_vmouse (d : Int) (s : InputState) :
    (get_gamepad d s).1.absinput_virtual_mouse = s.absinput_virtual_mouse ∧
    (get_gamepad d s).1.vmouse_vector_x = s.vmouse_vector_x ∧
    (get_gamepad d s).1.vmouse_vector_y = s.vmouse_vector_y ∧
    (get_gamepad d s).1.vmouse_timer_id = s.vmouse_timer_id ∧
    (get_gamepad d s).1.timers = s.timers ∧
    (get_gamepad d s).1.next_timer_id = s.next_timer_id := by
  unfold get_gamepad
  rcases get_gamepad_scan_cases d s [0, 1, 2, 3] with h | ⟨h, -⟩
  · rw [h]; simp
  · rw [h]; exact ⟨rfl, rfl, rfl, rfl, rfl, rfl⟩

/-- In right-stick mode without suppression a right-stick X event is handed to
`vmouse_set_vector` and nothing is forwarded. -/
theorem caxis_rightx_intercepted (ub : Nat) (s : InputState) (which v : Int)
    (hnc : s.absinput_no_control = false) (hm : s.absinput_virtual_mouse = .RIGHT_STICK) :
    sdlinput_handle_caxis_event ub s ⟨which, .RIGHTX, v⟩ =
      (vmouse_set_vector (stick_value v)
        ((get_gamepad which s).1.gamepads (get_gamepad which s).2).rightStickY
        ((get_gamepad which s).1.setPad (get_gamepad which s).2
          { (get_gamepad which s).1.gamepads (get_gamepad which s).2 with
            rightStickX := stick_value v }), []) := by
  have h1 := (get_gamepad_frame which s).2.2.2
  have h2 := (get_gamepad_vmouse which s).1
  rw [hnc] at h1
  rw [hm] at h2
  unfold sdlinput_handle_caxis_event
  simp only [axis_update, h2, InputState.setPad, h1]
  simp

/-- The vector computed by `vmouse_set_vector`, and the variables it leaves
alone. -/
theorem vmouse_set_vector_vector (x y : Int) (s : InputState) :
    (vmouse_set_vector x y s).vmouse_vector_x = calc_mouse_movement (toShort (-x)) ∧
    (vmouse_set_vector x y s).vmouse_vector_y = calc_mouse_movement (toShort (-y)) ∧
    (vmouse_set_vector x y s).absinput_virtual_mouse = s.absinput_virtual_mouse ∧
    (vmouse_set_vector x y s).absinput_no_control = s.absinput_no_control := by
  unfold vmouse_set_vector
  simp only [SDL_AddTimer, SDL_RemoveTimer]
  split_ifs <;> exact ⟨rfl, rfl, rfl, rfl⟩

/-- A non-zero vector schedules a fresh timer exactly when `vmouse_timer_id`
is 0 and otherwise leaves the timers alone. -/
theorem vmouse_set_vector_nonzero (x y : Int) (s : InputState)
    (hv : calc_mouse_movement (toShort (-x)) ≠ 0 ∨ calc_mouse_movement (toShort (-y)) ≠ 0) :
    (s.vmouse_timer_id = 0 →
      (vmouse_set_vector x y s).timers = s.timers ++ [s.next_timer_id] ∧
      (vmouse_set_vector x y s).vmouse_timer_id = s.next_timer_id ∧
      (vmouse_set_vector x y s).next_timer_id = s.next_timer_id + 1) ∧
    (s.vmouse_timer_id ≠ 0 →
      (vmouse_set_vector x y s).timers = s.timers ∧
      (vmouse_set_vector x y s).vmouse_timer_id = s.vmouse_timer_id ∧
      (vmouse_set_vector x y s).next_timer_id = s.next_timer_id) := by
  unfold vmouse_set_vector
  simp only [SDL_AddTimer, SDL_RemoveTimer]
  rw [if_pos hv]
  constructor
  · intro h0; rw [if_pos h0]; exact ⟨rfl, rfl, rfl⟩
  · intro h0; rw [if_neg h0]; exact ⟨rfl, rfl, rfl⟩

/-- A zero vector cancels the timer named by a non-zero `vmouse_timer_id` and
clears the id; with `vmouse_timer_id = 0` nothing changes. -/
theorem vmouse_set_vector_zero (x y : Int) (s : InputState)
    (hx : calc_mouse_movement (toShort (-x)) = 0) (hy : calc_mouse_movement (toShort (-y)) = 0) :
    (s.vmouse_timer_id ≠ 0 →
      (vmouse_set_vector x y s).timers = s.timers.filter (fun t => t != s.vmouse_timer_id)) ∧
    (s.vmouse_timer_id = 0 → (vmouse_set_vector x y s).timers = s.timers) ∧
    (vmouse_set_vector x y s).vmouse_timer_id = 0 ∧
    (vmouse_set_vector x y s).next_timer_id = s.next_timer_id := by
  unfold vmouse_set_vector
  simp only [SDL_AddTimer, SDL_RemoveTimer]
  rw [if_neg (by rw [hx, hy]; simp)]
  by_cases h0 : s.vmouse_timer_id = 0
  · rw [if_neg (by simp [h0])]
    exact ⟨fun h => absurd h0 h, fun _ => rfl, h0, rfl⟩
  · rw [if_pos h0]
    exact ⟨fun _ => rfl, fun h => absurd h h0, rfl, rfl⟩


/-- The virtual-mouse variables after an intercepted right-stick X event whose
deflection lies outside the deadzone. -/
theorem caxis_rightx_fields (ub : Nat) (s : InputState) (which v : Int)
    (hnc : s.absinput_no_control = false) (hm : s.absinput_virtual_mouse = .RIGHT_STICK)
    (hv : calc_mouse_movement (toShort (-(stick_value v))) ≠ 0) :
    (sdlinput_handle_caxis_event ub s ⟨which, .RIGHTX, v⟩).1.vmouse_vector_x
      = calc_mouse_movement (toShort (-(stick_value v))) ∧
    (sdlinput_handle_caxis_event ub s ⟨which, .RIGHTX, v⟩).1.absinput_virtual_mouse
      = .RIGHT_STICK ∧
    (sdlinput_handle_caxis_event ub s ⟨which, .RIGHTX, v⟩).1.absinput_no_control = false ∧
    (s.vmouse_timer_id = 0 →
      (sdlinput_handle_caxis_event ub s ⟨which, .RIGHTX, v⟩).1.timers
        = s.timers ++ [s.next_timer_id] ∧
      (sdlinput_handle_caxis_event ub s ⟨which, .RIGHTX, v⟩).1.vmouse_timer_id
        = s.next_timer_id) ∧
    (s.vmouse_timer_id ≠ 0 →
      (sdlinput_handle_caxis_event ub s ⟨which, .RIGHTX, v⟩).1.timers = s.timers ∧
      (sdlinput_handle_caxis_event ub s ⟨which, .RIGHTX, v⟩).1.vmouse_timer_id
        = s.vmouse_timer_id) := by
  obtain ⟨g1, -, -, g4, g5, g6⟩ := get_gamepad_vmouse which s
  have gnc := (get_gamepad_frame which s).2.2.2
  rw [caxis_rightx_intercepted ub s which v hnc hm]
  simp only
  generalize hS : (get_gamepad which s).1.setPad (get_gamepad which s).2
      { (get_gamepad which s).1.gamepads (get_gamepad which s).2 with
        rightStickX := stick_value v } = S
  generalize ((get_gamepad which s).1.gamepads (get_gamepad which s).2).rightStickY = y
  have k1 : S.absinput_virtual_mouse = .RIGHT_STICK := by rw [← hS, ← hm, ← g1]; rfl
  have k2 : S.absinput_no_control = false := by rw [← hS, ← hnc, ← gnc]; rfl
  have k4 : S.vmouse_timer_id = s.vmouse_timer_id := by rw [← hS, ← g4]; rfl
  have k5 : S.timers = s.timers := by rw [← hS, ← g5]; rfl
  have k6 : S.next_timer_id = s.next_timer_id := by rw [← hS, ← g6]; rfl
  obtain ⟨v1, -, v3, v4⟩ := vmouse_set_vector_vector (stick_value v) y S
  obtain ⟨n1, n2⟩ := vmouse_set_vector_nonzero (stick_value v) y S (Or.inl hv)
  rw [k4, k5, k6] at n1
  rw [k4, k5] at n2
  refine ⟨v1, by rw [v3, k1], by rw [v4, k2], ?_, ?_⟩
  · intro h0; exact ⟨(n1 h0).1, (n1 h0).2.1⟩
  · intro h0; exact ⟨(n2 h0).1, (n2 h0).2.1⟩

/-- With virtual-mouse mode off, a firing of a scheduled timer emits nothing and
SDL drops the timer; `vmouse_timer_id` is not touched. -/
theorem timer_tick_off (s : InputState) (id : Nat) (hm : s.absinput_virtual_mouse = .OFF)
    (hid : id ∈ s.timers) :
    timer_tick s id = ({ s with timers := s.timers.filter fun t => t != id }, []) := by
  unfold timer_tick vmouse_timer_callback SDL_RemoveTimer
  simp [hid, hm]


/-- The stale timer id, for any starting state without suppression, without a
timer and with `vmouse_timer_id = 0`: a right-stick deflection outside the
deadzone in right-stick mode schedules the timer `id`; once the mode is off
the firing timer is dropped while `vmouse_timer_id` stays `id`; the same
deflection after right-stick mode is selected again schedules nothing. -/
theorem stale_timer_general (ub : Nat) (s : InputState) (which v : Int) (id : Nat)
    (hnc : s.absinput_no_control = false) (h0 : s.vmouse_timer_id = 0)
    (ht : s.timers = []) (hnext : s.next_timer_id = id) (hid : id ≠ 0)
    (hv : calc_mouse_movement (toShort (-(stick_value v))) ≠ 0) :
    (sdlinput_handle_caxis_event ub (set_virtual_mouse .RIGHT_STICK s)
      ⟨which, .RIGHTX, v⟩).1.timers = [id] ∧
    (sdlinput_handle_caxis_event ub (set_virtual_mouse .RIGHT_STICK s)
      ⟨which, .RIGHTX, v⟩).1.vmouse_timer_id = id ∧
    (timer_tick (set_virtual_mouse .OFF
      (sdlinput_handle_caxis_event ub (set_virtual_mouse .RIGHT_STICK s)
        ⟨which, .RIGHTX, v⟩).1) id).1.timers = [] ∧
    (timer_tick (set_virtual_mouse .OFF
      (sdlinput_handle_caxis_event ub (set_virtual_mouse .RIGHT_STICK s)
        ⟨which, .RIGHTX, v⟩).1) id).1.vmouse_timer_id = id ∧
    (sdlinput_handle_caxis_event ub (set_virtual_mouse .RIGHT_STICK
      (timer_tick (set_virtual_mouse .OFF
        (sdlinput_handle_caxis_event ub (set_virtual_mouse .RIGHT_STICK s)
          ⟨which, .RIGHTX, v⟩).1) id).1) ⟨which, .RIGHTX, v⟩).1.vmouse_vector_x
      = calc_mouse_movement (toShort (-(stick_value v))) ∧
    (sdlinput_handle_caxis_event ub (set_virtual_mouse .RIGHT_STICK
      (timer_tick (set_virtual_mouse .OFF
        (sdlinput_handle_caxis_event ub (set_virtual_mouse .RIGHT_STICK s)
          ⟨which, .RIGHTX, v⟩).1) id).1) ⟨which, .RIGHTX, v⟩).1.vmouse_timer_id = id ∧
    (sdlinput_handle_caxis_event ub (set_virtual_mouse .RIGHT_STICK
      (timer_tick (set_virtual_mouse .OFF
        (sdlinput_handle_caxis_event ub (set_virtual_mouse .RIGHT_STICK s)
          ⟨which, .RIGHTX, v⟩).1) id).1) ⟨which, .RIGHTX, v⟩).1.timers = [] := by
  obtain ⟨-, -, a3, a4, -⟩ :=
    caxis_rightx_fields ub (set_virtual_mouse .RIGHT_STICK s) which v hnc rfl hv
  obtain ⟨a5, a6⟩ := a4 h0
  generalize (sdlinput_handle_caxis_event ub (set_virtual_mouse .RIGHT_STICK s)
      ⟨which, .RIGHTX, v⟩).1 = s2 at a3 a5 a6 ⊢
  have a5' : s2.timers = [id] := by
    rw [a5]
    show s.timers ++ [s.next_timer_id] = [id]
    rw [ht, hnext]; rfl
  have a6' : s2.vmouse_timer_id = id := by
    rw [a6]
    exact hnext
  have hmem : id ∈ (set_virtual_mouse .OFF s2).timers := by
    show id ∈ s2.timers
    rw [a5']; exact List.mem_singleton.mpr rfl
  have htick := timer_tick_off (set_virtual_mouse .OFF s2) id rfl hmem
  rw [htick]
  simp only
  have hfil : (set_virtual_mouse .OFF s2).timers.filter (fun t => t != id) = [] := by
    show s2.timers.filter (fun t => t != id) = []
    rw [a5']
    simp
  rw [hfil]
  generalize hs4 : ({ set_virtual_mouse .OFF s2 with timers := [] } : InputState) = s4
  have c1 : s4.timers = [] := by rw [← hs4]
  have c2 : s4.vmouse_timer_id = id := by rw [← hs4]; exact a6'
  have c3 : s4.absinput_no_control = false := by rw [← hs4]; exact a3
  obtain ⟨b1, -, -, -, b5⟩ :=
    caxis_rightx_fields ub (set_virtual_mouse .RIGHT_STICK s4) which v c3 rfl hv
  obtain ⟨b6, b7⟩ := b5 (by show s4.vmouse_timer_id ≠ 0; rw [c2]; exact hid)
  refine ⟨a5', a6', rfl, a6', b1, ?_, ?_⟩
  · rw [b7]; exact c2
  · rw [b6]; exact c1


/-- The stale timer id as a run of the emulator, for any starting state without
suppression, without a timer and with `vmouse_timer_id = 0`. -/
theorem stale_timer_run (ub : Nat) (s : InputState) (which v : Int) (id : Nat)
    (hnc : s.absinput_no_control = false) (h0 : s.vmouse_timer_id = 0)
    (ht : s.timers = []) (hnext : s.next_timer_id = id) (hid : id ≠ 0)
    (hv : calc_mouse_movement (toShort (-(stick_value v))) ≠ 0) :
    (vmouse_run ub s [.mode .RIGHT_STICK, .axis ⟨which, .RIGHTX, v⟩]).1.timers = [id] ∧
    (vmouse_run ub s [.mode .RIGHT_STICK, .axis ⟨which, .RIGHTX, v⟩]).1.vmouse_timer_id = id ∧
    (vmouse_run ub s [.mode .RIGHT_STICK, .axis ⟨which, .RIGHTX, v⟩, .mode .OFF,
      .tick id]).1.timers = [] ∧
    (vmouse_run ub s [.mode .RIGHT_STICK, .axis ⟨which, .RIGHTX, v⟩, .mode .OFF,
      .tick id]).1.vmouse_timer_id = id ∧
    (vmouse_run ub s [.mode .RIGHT_STICK, .axis ⟨which, .RIGHTX, v⟩, .mode .OFF,
      .tick id, .mode .RIGHT_STICK, .axis ⟨which, .RIGHTX, v⟩]).1.vmouse_vector_x
      = calc_mouse_movement (toShort (-(stick_value v))) ∧
    (vmouse_run ub s [.mode .RIGHT_STICK, .axis ⟨which, .RIGHTX, v⟩, .mode .OFF,
      .tick id, .mode .RIGHT_STICK, .axis ⟨which, .RIGHTX, v⟩]).1.vmouse_timer_id = id ∧
    (vmouse_run ub s [.mode .RIGHT_STICK, .axis ⟨which, .RIGHTX, v⟩, .mode .OFF,
      .tick id, .mode .RIGHT_STICK, .axis ⟨which, .RIGHTX, v⟩]).1.timers = [] := by
  simp only [vmouse_run, vmouse_step]
  exact stale_timer_general ub s which v id hnc h0 ht hnext hid hv


/-- C12 (code evaluated at the failing run): from program start, right-stick
mode and a right-stick deflection of 20000 give the vector component
`x = -4` and schedule timer 1 (`vmouse_timer_id = 1`); after the mode is
switched off the timer fires, its callback returns 0 and SDL drops it, but
`vmouse_timer_id` is still 1; when right-stick mode is selected again and the
stick is deflected again, `vmouse_set_vector` returns with the non-zero vector
component `x = -4` and no timer scheduled. -/
theorem C12_no_timer_after_callback_stop :
    (vmouse_run 64 InputState.init staleTimerRun2).1.timers = [1] ∧
    (vmouse_run 64 InputState.init staleTimerRun2).1.vmouse_timer_id = 1 ∧
    (vmouse_run 64 InputState.init staleTimerRun4).1.timers = [] ∧
    (vmouse_run 64 InputState.init staleTimerRun4).1.vmouse_timer_id = 1 ∧
    (vmouse_run 64 InputState.init staleTimerRun).1.vmouse_vector_x = -4 ∧
    (vmouse_run 64 InputState.init staleTimerRun).1.vmouse_timer_id = 1 ∧
    (vmouse_run 64 InputState.init staleTimerRun).1.timers = [] := by
  have hv : calc_mouse_movement (toShort (-(stick_value 20000))) = -4 := by
    have e : toShort (-(stick_value 20000)) = 20000 := by decide
    rw [e]; exact calc_mouse_movement_20000
  have hv0 : calc_mouse_movement (toShort (-(stick_value 20000))) ≠ 0 := by rw [hv]; decide
  have h := stale_timer_run 64 InputState.init 0 20000 1 rfl rfl rfl rfl (by decide) hv0
  unfold staleTimerRun staleTimerRun2 staleTimerRun4
  exact ⟨h.1, h.2.1, h.2.2.1, h.2.2.2.1, h.2.2.2.2.1.trans hv, h.2.2.2.2.2.1, h.2.2.2.2.2.2⟩


/-- C13: the timer callback contract.  In every state `vmouse_timer_callback`
returns 0 and emits nothing if virtual-mouse mode is off or the vector is
`(0, 0)`, and otherwise returns 5 and emits exactly one relative mouse-move
event carrying the current vector; a firing of the timer leaves the vector
unchanged. -/
theorem C13_timer_callback_contract (s : InputState) (id : Nat) :
    vmouse_timer_callback s =
      (if s.absinput_virtual_mouse = .OFF ∨ (s.vmouse_vector_x = 0 ∧ s.vmouse_vector_y = 0)
       then (0, [])
       else (5, [.LiSendMouseMoveEvent s.vmouse_vector_x s.vmouse_vector_y])) ∧
    (timer_tick s id).1.vmouse_vector_x = s.vmouse_vector_x ∧
    (timer_tick s id).1.vmouse_vector_y = s.vmouse_vector_y := by
  refine ⟨?_, ?_, ?_⟩
  · unfold vmouse_timer_callback
    by_cases h1 : s.absinput_virtual_mouse = .OFF
    · simp [h1]
    · by_cases h2 : s.vmouse_vector_x = 0 ∧ s.vmouse_vector_y = 0
      · simp [h1, h2]
      · rw [if_neg h1, if_neg h2, if_neg (by tauto)]
  · unfold timer_tick SDL_RemoveTimer
    simp only
    split_ifs <;> rfl
  · unfold timer_tick SDL_RemoveTimer
    simp only
    split_ifs <;> rfl

/-- C14 (code evaluated at the failing input): in left-stick virtual-mouse
mode with suppression off, a left-stick X event of value 20000 is forwarded as
a controller state event and the emulator is not fed (vector `(0, 0)`, no
timer), whereas in right-stick mode the same deflection of the right stick is
intercepted: nothing is forwarded and a timer is scheduled. -/
theorem C14_left_stick_not_intercepted :
    leftStickModeInit.absinput_virtual_mouse = .LEFT_STICK ∧
    leftStickModeInit.absinput_no_control = false ∧
    (sdlinput_handle_caxis_event 64 leftStickModeInit ⟨0, .LEFTX, 20000⟩).2 =
      [.LiSendMultiControllerEvent 0 1 0 0 0 (-20000) 0 0 0] ∧
    (sdlinput_handle_caxis_event 64 leftStickModeInit ⟨0, .LEFTX, 20000⟩).1.vmouse_vector_x
      = 0 ∧
    (sdlinput_handle_caxis_event 64 leftStickModeInit ⟨0, .LEFTX, 20000⟩).1.vmouse_vector_y
      = 0 ∧
    (sdlinput_handle_caxis_event 64 leftStickModeInit ⟨0, .LEFTX, 20000⟩).1.timers = [] ∧
    (sdlinput_handle_caxis_event 64 rightStickModeInit ⟨0, .RIGHTX, 20000⟩).2 = [] ∧
    (sdlinput_handle_caxis_event 64 rightStickModeInit ⟨0, .RIGHTX, 20000⟩).1.timers = [1] := by
  have hv0 : calc_mouse_movement (toShort (-(stick_value 20000))) ≠ 0 := by
    have e : toShort (-(stick_value 20000)) = 20000 := by decide
    rw [e, calc_mouse_movement_20000]; decide
  have hr := caxis_rightx_intercepted 64 rightStickModeInit 0 20000 rfl rfl
  have hf := (caxis_rightx_fields 64 rightStickModeInit 0 20000 rfl rfl hv0).2.2.2.1 rfl
  refine ⟨rfl, rfl, by decide, by decide, by decide, by decide, ?_, hf.1⟩
  rw [hr]


/-! ## Theorems: the registry scan -/

/-- The fields of a claimed registry. -/
theorem claim_slot_gamepads (d : Int) (s : InputState) (j i : Fin 4) :
    (claim_slot d s j).gamepads i =
      if i = j then { s.gamepads j with sdl_id := d, id := j.val, initialized := true }
      else s.gamepads i := by
  unfold claim_slot InputState.setPad
  by_cases h : i = j
  · subst h; simp
  · simp [h, Function.update_noteq h]

/-- The outcome of the scan over a list of indices: either it stops at an index
`j` of the list, all indices before it being initialized with other devices,
and `j` holds the device or is uninitialized and claimed; or every index of
the list is initialized with another device and slot 0 is returned. -/
theorem get_gamepad_scan_spec (d : Int) (s : InputState) (l : List (Fin 4)) :
    (∃ pre j post, l = pre ++ j :: post ∧
      (∀ i ∈ pre, (s.gamepads i).initialized = true ∧ (s.gamepads i).sdl_id ≠ d) ∧
      ((slot_holds s j d ∧ get_gamepad_scan d s l = (s, j)) ∨
       ((s.gamepads j).initialized = false ∧
         get_gamepad_scan d s l = (claim_slot d s j, j)))) ∨
    ((∀ i ∈ l, (s.gamepads i).initialized = true ∧ (s.gamepads i).sdl_id ≠ d) ∧
      get_gamepad_scan d s l = (s, 0)) := by
  induction l with
  | nil => right; exact ⟨fun i hi => absurd hi (List.not_mem_nil i), rfl⟩
  | cons a rest ih =>
    by_cases h1 : (s.gamepads a).initialized = false
    · left
      refine ⟨[], a, rest, rfl, fun i hi => absurd hi (List.not_mem_nil i), Or.inr ⟨h1, ?_⟩⟩
      rw [get_gamepad_scan]; simp [h1]
    · have h1t : (s.gamepads a).initialized = true := by simpa using h1
      by_cases h2 : (s.gamepads a).sdl_id = d
      · left
        refine ⟨[], a, rest, rfl, fun i hi => absurd hi (List.not_mem_nil i),
          Or.inl ⟨⟨h1t, h2⟩, ?_⟩⟩
        rw [get_gamepad_scan]; simp [h1t, h2]
      · have e1 : get_gamepad_scan d s (a :: rest) = get_gamepad_scan d s rest := by
          rw [get_gamepad_scan]; simp [h1t, h2]
        rw [e1]
        rcases ih with ⟨pre, j, post, hl, hpre, hj⟩ | ⟨hall, hres⟩
        · left
          refine ⟨a :: pre, j, post, by rw [hl]; rfl, ?_, hj⟩
          intro i hi
          rcases List.mem_cons.mp hi with rfl | hi'
          · exact ⟨h1t, h2⟩
          · exact hpre i hi'
        · right
          refine ⟨?_, hres⟩
          intro i hi
          rcases List.mem_cons.mp hi with rfl | hi'
          · exact ⟨h1t, h2⟩
          · exact hall i hi'


/-- In a split of the scan order `0, 1, 2, 3` the indices before the split
point are exactly the smaller ones. -/
theorem scan_order_split (pre post : List (Fin 4)) (j : Fin 4)
    (hl : ([0, 1, 2, 3] : List (Fin 4)) = pre ++ j :: post) (i : Fin 4) :
    i ∈ pre ↔ i < j := by
  have hs : List.Pairwise (fun a b : Fin 4 => a < b) ([0, 1, 2, 3] : List (Fin 4)) := by decide
  have hmem : i ∈ ([0, 1, 2, 3] : List (Fin 4)) := by fin_cases i <;> decide
  rw [hl] at hs hmem
  rw [List.pairwise_append] at hs
  obtain ⟨-, hjp, hcross⟩ := hs
  constructor
  · intro hi
    exact hcross i hi j (List.mem_cons_self _ _)
  · intro hij
    rcases List.mem_append.mp hmem with h | h
    · exact h
    · exfalso
      rcases List.mem_cons.mp h with rfl | h'
      · exact lt_irrefl _ hij
      · exact lt_asymm hij ((List.pairwise_cons.mp hjp).1 i h')

/-- The outcome of `get_gamepad`: it returns the first slot that holds the
device, all lower slots being initialized with other devices; or claims the
first uninitialized slot, all lower slots being initialized with other
devices; or, when all four slots are initialized with other devices, returns
slot 0 and changes nothing. -/
theorem get_gamepad_spec (d : Int) (s : InputState) :
    (∃ j, get_gamepad d s = (s, j) ∧ slot_holds s j d ∧
      ∀ i, i < j → (s.gamepads i).initialized = true ∧ (s.gamepads i).sdl_id ≠ d) ∨
    (∃ j, get_gamepad d s = (claim_slot d s j, j) ∧ (s.gamepads j).initialized = false ∧
      ∀ i, i < j → (s.gamepads i).initialized = true ∧ (s.gamepads i).sdl_id ≠ d) ∨
    (get_gamepad d s = (s, 0) ∧
      ∀ i, (s.gamepads i).initialized = true ∧ (s.gamepads i).sdl_id ≠ d) := by
  unfold get_gamepad
  rcases get_gamepad_scan_spec d s [0, 1, 2, 3] with ⟨pre, j, post, hl, hpre, hj⟩ | ⟨hall, hres⟩
  · have hlow : ∀ i, i < j → (s.gamepads i).initialized = true ∧ (s.gamepads i).sdl_id ≠ d :=
      fun i hi => hpre i ((scan_order_split pre post j hl i).mpr hi)
    rcases hj with ⟨hh, hr⟩ | ⟨hu, hr⟩
    · left; exact ⟨j, hr, hh, hlow⟩
    · right; left; exact ⟨j, hr, hu, hlow⟩
  · right; right
    refine ⟨hres, ?_⟩
    intro i
    exact hall i (by fin_cases i <;> decide)


/-- An initialized slot is not touched by `get_gamepad`. -/
theorem get_gamepad_keeps_initialized (d : Int) (s : InputState) (j : Fin 4)
    (hj : (s.gamepads j).initialized = true) :
    (get_gamepad d s).1.gamepads j = s.gamepads j := by
  unfold get_gamepad
  rcases get_gamepad_scan_cases d s [0, 1, 2, 3] with h | ⟨h, hu⟩
  · rw [h]
  · rw [h, claim_slot_gamepads]
    have hne : j ≠ (get_gamepad_scan d s [0, 1, 2, 3]).2 := by
      intro he
      rw [← he, hj] at hu
      cases hu
    rw [if_neg hne]

/-- The all-uninitialized registry satisfies the invariant with no tracked
controller. -/
theorem registry_inv_init (s : InputState) (h : all_uninitialized s) : registry_inv s 0 where
  bound := by omega
  initial_segment := by
    intro j
    rw [h j]
    simp
  distinct := by
    intro i j hi
    rw [h i] at hi
    cases hi
  index := by
    intro j hj
    rw [h j] at hj
    cases hj

/-- Claiming the first uninitialized slot extends the invariant by one tracked
controller. -/
theorem registry_inv_claim (d : Int) (s : InputState) (k : Nat) (j : Fin 4)
    (hinv : registry_inv s k) (hu : (s.gamepads j).initialized = false)
    (hlow : ∀ i, i < j → (s.gamepads i).initialized = true ∧ (s.gamepads i).sdl_id ≠ d) :
    j.val = k ∧ registry_inv (claim_slot d s j) (k + 1) := by
  have hjk : j.val = k := by
    have h1 : ¬ j.val < k := by
      intro hlt
      rw [(hinv.initial_segment j).mpr hlt] at hu
      cases hu
    by_contra hne
    have hk : k < j.val := by omega
    have hk4 : k < 4 := by omega
    have := (hlow ⟨k, hk4⟩ (by exact hk)).1
    have := (hinv.initial_segment ⟨k, hk4⟩).mp this
    simp at this
  refine ⟨hjk, ?_⟩
  have hother : ∀ i, (s.gamepads i).initialized = true → (s.gamepads i).sdl_id ≠ d := by
    intro i hi
    have : i.val < k := (hinv.initial_segment i).mp hi
    exact (hlow i (by rw [Fin.lt_def]; omega)).2
  constructor
  · have := j.isLt; omega
  · intro i
    rw [claim_slot_gamepads]
    by_cases hij : i = j
    · subst hij; simp; omega
    · rw [if_neg hij, hinv.initial_segment i]
      have : i.val ≠ j.val := fun h => hij (Fin.ext h)
      omega
  · intro a b ha hb hab
    rw [claim_slot_gamepads] at ha hb hab
    rw [claim_slot_gamepads] at hab
    by_cases haj : a = j <;> by_cases hbj : b = j
    · rw [haj, hbj]
    · rw [if_pos haj, if_neg hbj] at hab
      rw [if_neg hbj] at hb
      exact absurd hab.symm (hother b hb)
    · rw [if_neg haj, if_pos hbj] at hab
      rw [if_neg haj] at ha
      exact absurd hab (hother a ha)
    · rw [if_neg haj] at ha hab
      rw [if_neg hbj] at hb hab
      exact hinv.distinct a b ha hb hab
  · intro i hi
    rw [claim_slot_gamepads] at hi ⊢
    by_cases hij : i = j
    · rw [if_pos hij, hij]
    · rw [if_neg hij] at hi ⊢
      exact hinv.index i hi

/-- Resolving a device keeps the registry invariant. -/
theorem registry_inv_step (d : Int) (s : InputState) (k : Nat) (hinv : registry_inv s k) :
    ∃ k2, registry_inv (get_gamepad d s).1 k2 := by
  rcases get_gamepad_spec d s with ⟨j, h, -, -⟩ | ⟨j, h, hu, hlow⟩ | ⟨h, -⟩
  · rw [h]; exact ⟨k, hinv⟩
  · rw [h]; exact ⟨k + 1, (registry_inv_claim d s k j hinv hu hlow).2⟩
  · rw [h]; exact ⟨k, hinv⟩

/-- Every registry reached by `get_gamepad` calls from an all-uninitialized
registry satisfies the invariant. -/
theorem registry_inv_run (ds : List Int) :
    ∀ (s : InputState) (k : Nat), registry_inv s k → ∃ k2, registry_inv (registry_run s ds) k2 := by
  induction ds with
  | nil => intro s k h; exact ⟨k, h⟩
  | cons d rest ih =>
    intro s k h
    obtain ⟨k2, h2⟩ := registry_inv_step d s k h
    exact ih _ k2 h2

/-- An initialized slot is never touched by later `get_gamepad` calls. -/
theorem registry_run_keeps_initialized (ds : List Int) :
    ∀ (s : InputState) (j : Fin 4), (s.gamepads j).initialized = true →
      (registry_run s ds).gamepads j = s.gamepads j := by
  induction ds with
  | nil => intro s j _; rfl
  | cons d rest ih =>
    intro s j hj
    have h1 := get_gamepad_keeps_initialized d s j hj
    simp only [registry_run]
    rw [ih _ j (by rw [h1]; exact hj), h1]


/-- C15: controller registry resolve.  In every registry reached from an
all-uninitialized registry by `get_gamepad` calls, `get_gamepad(d)` returns the
slot that is initialized with device id `d` if there is one, changing nothing;
otherwise, if there is an uninitialized slot, it returns the lowest-index
uninitialized slot, which it claims (device id `d`, `id` = index, initialized)
and whose bit it sets in `activeGamepadMask`, leaving the other slots alone;
otherwise, with all four slots initialized with other devices, it returns
slot 0 and leaves the registry unchanged. -/
theorem C15_registry_resolve (s0 : InputState) (h0 : all_uninitialized s0) (ds : List Int)
    (d : Int) :
    (∀ j, slot_holds (registry_run s0 ds) j d →
      get_gamepad d (registry_run s0 ds) = (registry_run s0 ds, j)) ∧
    ((∀ j, ¬ slot_holds (registry_run s0 ds) j d) →
      ∀ j, ((registry_run s0 ds).gamepads j).initialized = false →
        (∀ i, i < j → ((registry_run s0 ds).gamepads i).initialized = true) →
        get_gamepad d (registry_run s0 ds) = (claim_slot d (registry_run s0 ds) j, j) ∧
        ((claim_slot d (registry_run s0 ds) j).gamepads j).sdl_id = d ∧
        ((claim_slot d (registry_run s0 ds) j).gamepads j).id = j.val ∧
        ((claim_slot d (registry_run s0 ds) j).gamepads j).initialized = true ∧
        (claim_slot d (registry_run s0 ds) j).activeGamepadMask
          = (registry_run s0 ds).activeGamepadMask ||| (1 <<< j.val) ∧
        (∀ i, i ≠ j →
          (claim_slot d (registry_run s0 ds) j).gamepads i = (registry_run s0 ds).gamepads i)) ∧
    ((∀ j, ((registry_run s0 ds).gamepads j).initialized = true ∧
          ((registry_run s0 ds).gamepads j).sdl_id ≠ d) →
      get_gamepad d (registry_run s0 ds) = (registry_run s0 ds, 0)) := by
  obtain ⟨k, hinv⟩ := registry_inv_run ds s0 0 (registry_inv_init s0 h0)
  generalize registry_run s0 ds = s at hinv ⊢
  refine ⟨?_, ?_, ?_⟩
  · intro j hj
    rcases get_gamepad_spec d s with ⟨j2, h, hh, -⟩ | ⟨j2, -, hu, hlow⟩ | ⟨-, hall⟩
    · rw [h, hinv.distinct j2 j hh.1 hj.1 (hh.2.trans hj.2.symm)]
    · exfalso
      have h1 : j.val < k := (hinv.initial_segment j).mp hj.1
      have h2 : ¬ j2.val < k := by
        intro hlt
        rw [(hinv.initial_segment j2).mpr hlt] at hu
        cases hu
      exact (hlow j (by rw [Fin.lt_def]; omega)).2 hj.2
    · exact absurd hj.2 (hall j).2
  · intro hnone j hu hlow
    have hget : get_gamepad d s = (claim_slot d s j, j) := by
      rcases get_gamepad_spec d s with ⟨j2, -, hh, -⟩ | ⟨j2, h, hu2, hlow2⟩ | ⟨-, hall⟩
      · exact absurd hh (hnone j2)
      · have hjj : j2 = j := by
          rcases lt_trichotomy j2 j with hlt | heq | hgt
          · rw [hlow j2 hlt] at hu2; cases hu2
          · exact heq
          · rw [(hlow2 j hgt).1] at hu; cases hu
        rw [h, hjj]
      · rw [(hall j).1] at hu; cases hu
    refine ⟨hget, ?_, ?_, ?_, rfl, ?_⟩
    · rw [claim_slot_gamepads, if_pos rfl]
    · rw [claim_slot_gamepads, if_pos rfl]
    · rw [claim_slot_gamepads, if_pos rfl]
    · intro i hi
      rw [claim_slot_gamepads, if_neg hi]
  · intro hall
    rcases get_gamepad_spec d s with ⟨j2, -, hh, -⟩ | ⟨j2, -, hu, -⟩ | ⟨h, -⟩
    · exact absurd hh.2 (hall j2).2
    · rw [(hall j2).1] at hu; cases hu
    · exact h

/-- C15 witness: after devices 7 and 9 have been resolved on a fresh registry,
device 9 resolves to slot 1 without changing the registry. -/
theorem C15_registry_resolve_witness :
    get_gamepad 9 (registry_run InputState.init [7, 9])
      = (registry_run InputState.init [7, 9], 1) :=
  (C15_registry_resolve InputState.init (fun _ => rfl) [7, 9] 9).1 1 ⟨by decide, by decide⟩

/-- C16: registry slot stability.  For every sequence of `get_gamepad` calls
from an all-uninitialized registry, the initialized slots form a prefix
`0 .. k-1` of the four slots, no two initialized slots hold the same device
id, every initialized slot carries its own index as `id`, and an initialized
slot is left exactly as it is by every later sequence of `get_gamepad` calls
(it is neither reassigned nor freed). -/
theorem C16_registry_stability (s0 : InputState) (h0 : all_uninitialized s0)
    (ds later : List Int) :
    (∃ k, k ≤ 4 ∧
      ∀ j : Fin 4, ((registry_run s0 ds).gamepads j).initialized = true ↔ j.val < k) ∧
    (∀ i j : Fin 4, ((registry_run s0 ds).gamepads i).initialized = true →
      ((registry_run s0 ds).gamepads j).initialized = true →
      ((registry_run s0 ds).gamepads i).sdl_id = ((registry_run s0 ds).gamepads j).sdl_id →
      i = j) ∧
    (∀ j : Fin 4, ((registry_run s0 ds).gamepads j).initialized = true →
      ((registry_run s0 ds).gamepads j).id = j.val ∧
      (registry_run (registry_run s0 ds) later).gamepads j = (registry_run s0 ds).gamepads j) := by
  obtain ⟨k, hinv⟩ := registry_inv_run ds s0 0 (registry_inv_init s0 h0)
  refine ⟨⟨k, hinv.bound, hinv.initial_segment⟩, hinv.distinct, ?_⟩
  intro j hj
  exact ⟨hinv.index j hj, registry_run_keeps_initialized later _ j hj⟩

/-- C16 witness: on a fresh registry devices 7, 9 and 7 are resolved; slot 0
keeps its record when devices 11, 12, 13 and 14 are resolved afterwards. -/
theorem C16_registry_stability_witness :
    (registry_run (registry_run InputState.init [7, 9, 7]) [11, 12, 13, 14]).gamepads 0
      = (registry_run InputState.init [7, 9, 7]).gamepads 0 :=
  ((C16_registry_stability InputState.init (fun _ => rfl) [7, 9, 7] [11, 12, 13, 14]).2.2 0
    (by decide)).2


/-! ## Theorems: bitrate, colour and audio derivation -/

/-- The audio stage only writes the audio configuration. -/
theorem config_audio_frame (C : StreamConsts) (surround : Bool)
    (audio_cap : SS4S_AudioCapabilities) (st : STREAM_CONFIGURATION) :
    (config_audio C surround audio_cap st).bitrate = st.bitrate ∧
    (config_audio C surround audio_cap st).supportedVideoFormats = st.supportedVideoFormats ∧
    (config_audio C surround audio_cap st).colorSpace = st.colorSpace ∧
    (config_audio C surround audio_cap st).colorRange = st.colorRange := by
  unfold config_audio
  split_ifs <;> exact ⟨rfl, rfl, rfl, rfl⟩

/-- The bitrate produced by `session_config_init`. -/
theorem session_config_init_bitrate (C : StreamConsts)
    (opt : SS4S_VideoCapabilities → Int → Int → Int → Int) (surround : Bool)
    (video_cap : SS4S_VideoCapabilities) (audio_cap : SS4S_AudioCapabilities)
    (app_config : CONFIGURATION) :
    (session_config_init C opt surround video_cap audio_cap app_config).stream.bitrate =
      (config_bitrate opt video_cap app_config.stream).bitrate := by
  simp only [session_config_init, (config_audio_frame C surround audio_cap _).1]
  rfl

/-- The colour space and range produced by `session_config_init`, in terms of
the final codec set. -/
theorem session_config_init_color (C : StreamConsts)
    (opt : SS4S_VideoCapabilities → Int → Int → Int → Int) (surround : Bool)
    (video_cap : SS4S_VideoCapabilities) (audio_cap : SS4S_AudioCapabilities)
    (app_config : CONFIGURATION) :
    (session_config_init C opt surround video_cap audio_cap app_config).stream.colorSpace =
      (if video_cap.colorSpace &&& C.SS4S_VIDEO_CAP_COLORSPACE_BT2020 ≠ 0 ∧
          has_non_h264 C (session_config_init C opt surround video_cap audio_cap
            app_config).stream.supportedVideoFormats then C.COLORSPACE_REC_2020
       else if video_cap.colorSpace &&& C.SS4S_VIDEO_CAP_COLORSPACE_BT709 ≠ 0 then
         C.COLORSPACE_REC_709
       else C.COLORSPACE_REC_601) ∧
    (session_config_init C opt surround video_cap audio_cap app_config).stream.colorRange =
      (if video_cap.fullColorRange = true then C.COLOR_RANGE_FULL
       else C.COLOR_RANGE_LIMITED) := by
  rw [session_config_init_formats]
  simp only [session_config_init, (config_audio_frame C surround audio_cap _).2.2.1,
    (config_audio_frame C surround audio_cap _).2.2.2]
  exact ⟨rfl, rfl⟩


/-- C17 (as stated, refuted): the user's bitrate is the sentinel -1, the
computed optimal bitrate is -5 and the platform maximum is 15000.  The test
`bitrate > maxBitrate` is made in `unsigned int`, where -5 is 4294967291, so
the final bitrate is 15000, not `min(-5, 15000) = -5`. -/
theorem C17_negative_optimal_bitrate_capped :
    (sampleConfig 0 false false false).stream.bitrate = -1 ∧
    negativeOptimalBitrate (sampleVideoCapFull 1 false 2 15000) 1920 1080 60 = -5 ∧
    (session_config_init limelightConsts negativeOptimalBitrate true
      (sampleVideoCapFull 1 false 2 15000) ⟨2⟩
      (sampleConfig 0 false false false)).stream.bitrate = 15000 ∧
    min (-5 : Int) 15000 ≠ 15000 := by
  decide

/-- C17 (amended): bitrate derivation of `session_config_init`.  With `b` the
user's bitrate if it is non-negative and otherwise
`settings_optimal_bitrate(capabilities, width, height, fps)`, and with `b` and
the platform's `maxBitrate` in the range of `int`: if `b` is non-negative the
final bitrate is `min(b, maxBitrate)` when `maxBitrate` is non-zero; if `b` is
negative and `maxBitrate` is non-zero the final bitrate is `maxBitrate`; when
`maxBitrate` is zero the final bitrate is `b`.  In particular bitrate -1 with
platform maximum 15000 and computed optimal bitrate 20000 yields 15000. -/
theorem C17_bitrate_derivation (C : StreamConsts)
    (opt : SS4S_VideoCapabilities → Int → Int → Int → Int) (surround : Bool)
    (video_cap : SS4S_VideoCapabilities) (audio_cap : SS4S_AudioCapabilities)
    (app_config : CONFIGURATION) (b : Int)
    (hb : b = (if 0 ≤ app_config.stream.bitrate then app_config.stream.bitrate
               else opt video_cap app_config.stream.width app_config.stream.height
                      app_config.stream.fps))
    (hlo : -2147483648 ≤ b) (hhi : b ≤ 2147483647)
    (hmax : video_cap.maxBitrate ≤ 2147483647) :
    (0 ≤ b → video_cap.maxBitrate ≠ 0 →
      (session_config_init C opt surround video_cap audio_cap app_config).stream.bitrate
        = min b (video_cap.maxBitrate : Int)) ∧
    (b < 0 → video_cap.maxBitrate ≠ 0 →
      (session_config_init C opt surround video_cap audio_cap app_config).stream.bitrate
        = (video_cap.maxBitrate : Int)) ∧
    (video_cap.maxBitrate = 0 →
      (session_config_init C opt surround video_cap audio_cap app_config).stream.bitrate = b) ∧
    (app_config.stream.bitrate = -1 → video_cap.maxBitrate = 15000 →
      opt video_cap app_config.stream.width app_config.stream.height app_config.stream.fps
        = 20000 →
      (session_config_init C opt surround video_cap audio_cap app_config).stream.bitrate
        = 15000) := by
  have hb1 : (if app_config.stream.bitrate < 0 then
        opt video_cap app_config.stream.width app_config.stream.height app_config.stream.fps
      else app_config.stream.bitrate) = b := by
    rw [hb]
    by_cases h : app_config.stream.bitrate < 0
    · have h2 : ¬ (0 ≤ app_config.stream.bitrate) := by omega
      rw [if_pos h, if_neg h2]
    · have h2 : 0 ≤ app_config.stream.bitrate := by omega
      rw [if_neg h, if_pos h2]
  have hcast : toInt32 video_cap.maxBitrate = (video_cap.maxBitrate : Int) := by
    unfold toInt32; omega
  have key : (session_config_init C opt surround video_cap audio_cap app_config).stream.bitrate
      = (if video_cap.maxBitrate ≠ 0 ∧ toUInt32 b > video_cap.maxBitrate then
          (video_cap.maxBitrate : Int) else b) := by
    rw [session_config_init_bitrate]
    unfold config_bitrate
    simp only
    rw [hb1, hcast]
  refine ⟨?_, ?_, ?_, ?_⟩
  · intro h0 hm
    have hu : toUInt32 b = b.toNat := by unfold toUInt32; omega
    rw [key, hu]
    by_cases hgt : b.toNat > video_cap.maxBitrate
    · rw [if_pos ⟨hm, hgt⟩, min_eq_right (by omega)]
    · have hn : ¬ (video_cap.maxBitrate ≠ 0 ∧ b.toNat > video_cap.maxBitrate) :=
        fun h => hgt h.2
      rw [if_neg hn, min_eq_left (by omega)]
  · intro hneg hm
    have hu : toUInt32 b > video_cap.maxBitrate := by unfold toUInt32; omega
    rw [key, if_pos ⟨hm, hu⟩]
  · intro hm
    have hn : ¬ (video_cap.maxBitrate ≠ 0 ∧ toUInt32 b > video_cap.maxBitrate) :=
      fun h => h.1 hm
    rw [key, if_neg hn]
  · intro hbit hm ho
    have hb20 : b = 20000 := by
      rw [hb, hbit, if_neg (by decide)]
      exact ho
    have hu : toUInt32 b > video_cap.maxBitrate := by
      rw [hb20, hm]; decide
    have hm0 : video_cap.maxBitrate ≠ 0 := by rw [hm]; decide
    rw [key, if_pos ⟨hm0, hu⟩, hm]
    rfl

/-- C17 witness: the sample configuration (bitrate -1) on a platform with
maximum bitrate 15000 and a computed optimal bitrate of 20000. -/
theorem C17_bitrate_derivation_witness :
    (session_config_init limelightConsts sampleOptimalBitrate true
      (sampleVideoCapFull 1 false 2 15000) ⟨2⟩
      (sampleConfig 0 false false false)).stream.bitrate = 15000 :=
  (C17_bitrate_derivation limelightConsts sampleOptimalBitrate true
    (sampleVideoCapFull 1 false 2 15000) ⟨2⟩ (sampleConfig 0 false false false) 20000
    rfl (by decide) (by decide) (by decide)).2.2.2 rfl rfl rfl


/-- The library values of the format constants are separated by
`VIDEO_FORMAT_MASK_H264`. -/
theorem limelightConsts_mask_separates : limelightConsts.mask_separates := by
  constructor <;> decide

/-- Bits outside the H.264 mask in a union of codec sets. -/
theorem has_non_h264_or (C : StreamConsts) (a b : Nat) :
    has_non_h264 C (a ||| b) ↔ has_non_h264 C a ∨ has_non_h264 C b :=
  has_format_or a b _

/-- With nothing copied from the user configuration, the final codec set has a
bit outside the H.264 mask exactly when H.265 or AV1 was selected. -/
theorem select_video_formats_non_h264 (C : StreamConsts) (hC : C.formats_distinct)
    (hM : C.mask_separates) (hevc av1 hdr : Bool) (video_cap : SS4S_VideoCapabilities) :
    has_non_h264 C (select_video_formats C 0 hevc av1 hdr video_cap) ↔
      ((hevc = true ∧ video_cap.codecs &&& C.SS4S_VIDEO_H265 ≠ 0) ∨
       (av1 = true ∧ video_cap.codecs &&& C.SS4S_VIDEO_AV1 ≠ 0)) := by
  obtain ⟨m1, m2, m3, m4, m5⟩ := hM
  have z : ¬ has_non_h264 C 0 := by unfold has_non_h264; simp
  have n1 := hC.h264_ne
  have n2 := hC.h265_ne
  have n4 := hC.av1_8_ne
  unfold select_video_formats
  by_cases p1 : video_cap.codecs &&& C.SS4S_VIDEO_H264 = 0 <;>
  by_cases p2 : video_cap.codecs &&& C.SS4S_VIDEO_H265 = 0 <;>
  by_cases p3 : video_cap.codecs &&& C.SS4S_VIDEO_AV1 = 0 <;>
  cases hevc <;> cases av1 <;> cases hdr <;> cases video_cap.hdr <;>
  simp [p1, p2, p3, nat_or_eq_zero, has_non_h264_or, n1, n2, n4, m1, m2, m3, m4, m5, z]

/-- C18: colour space and range of `session_config_init`.  For every input the
resulting colour space is BT.2020 if the platform's colour-space bitmask has
BT.2020 and the final codec set has a bit outside the H.264 mask (a non-H.264
format); otherwise BT.709 if the platform has BT.709; otherwise BT.601.  The
resulting colour range is full iff the platform's full-range flag is set.
When nothing is copied from the user configuration the final codec set has a
non-H.264 format exactly when H.265 or AV1 was selected. -/
theorem C18_color_space_and_range (C : StreamConsts)
    (opt : SS4S_VideoCapabilities → Int → Int → Int → Int) (surround : Bool)
    (video_cap : SS4S_VideoCapabilities) (audio_cap : SS4S_AudioCapabilities)
    (app_config : CONFIGURATION) :
    (session_config_init C opt surround video_cap audio_cap app_config).stream.colorSpace =
      (if video_cap.colorSpace &&& C.SS4S_VIDEO_CAP_COLORSPACE_BT2020 ≠ 0 ∧
          has_non_h264 C (session_config_init C opt surround video_cap audio_cap
            app_config).stream.supportedVideoFormats then C.COLORSPACE_REC_2020
       else if video_cap.colorSpace &&& C.SS4S_VIDEO_CAP_COLORSPACE_BT709 ≠ 0 then
         C.COLORSPACE_REC_709
       else C.COLORSPACE_REC_601) ∧
    (session_config_init C opt surround video_cap audio_cap app_config).stream.colorRange =
      (if video_cap.fullColorRange = true then C.COLOR_RANGE_FULL
       else C.COLOR_RANGE_LIMITED) ∧
    (C.formats_distinct → C.mask_separates → app_config.stream.supportedVideoFormats = 0 →
      (has_non_h264 C (session_config_init C opt surround video_cap audio_cap
          app_config).stream.supportedVideoFormats ↔
        ((app_config.hevc = true ∧ video_cap.codecs &&& C.SS4S_VIDEO_H265 ≠ 0) ∨
         (app_config.av1 = true ∧ video_cap.codecs &&& C.SS4S_VIDEO_AV1 ≠ 0)))) := by
  obtain ⟨h1, h2⟩ := session_config_init_color C opt surround video_cap audio_cap app_config
  refine ⟨h1, h2, ?_⟩
  intro hC hM hpre
  rw [session_config_init_formats, hpre]
  exact select_video_formats_non_h264 C hC hM _ _ _ video_cap

/-- C18 witness: with the library constants and nothing pre-set, HEVC requested
on a platform supporting H.264 and H.265 gives a codec set with a non-H.264
format. -/
theorem C18_color_space_and_range_witness :
    has_non_h264 limelightConsts
      (session_config_init limelightConsts sampleOptimalBitrate true
        (sampleVideoCapFull 3 false 6 0) ⟨2⟩
        (sampleConfig 0 true false true)).stream.supportedVideoFormats :=
  ((C18_color_space_and_range limelightConsts sampleOptimalBitrate true
    (sampleVideoCapFull 3 false 6 0) ⟨2⟩ (sampleConfig 0 true false true)).2.2
    limelightConsts_formats_distinct limelightConsts_mask_separates rfl).mpr
    (Or.inl ⟨rfl, by decide⟩)


/-- C19 (as stated, refuted): the user requests H.265 and HDR (AV1 off, nothing
pre-set) and the platform supports H.264 and H.265, is not HDR-capable and
advertises both BT.2020 and BT.709.  The codec set is `0x0101` (H.264 and
H.265, no 10-bit flag) but the colour space is `COLORSPACE_REC_2020`, not
BT.709. -/
theorem C19_bt2020_without_hdr :
    (sampleVideoCapFull 3 false 6 0).hdr = false ∧
    (sampleVideoCapFull 3 false 6 0).colorSpace
      &&& limelightConsts.SS4S_VIDEO_CAP_COLORSPACE_BT709 ≠ 0 ∧
    (session_config_init limelightConsts sampleOptimalBitrate true
      (sampleVideoCapFull 3 false 6 0) ⟨2⟩
      (sampleConfig 0 true false true)).stream.supportedVideoFormats = 0x0101 ∧
    (session_config_init limelightConsts sampleOptimalBitrate true
      (sampleVideoCapFull 3 false 6 0) ⟨2⟩
      (sampleConfig 0 true false true)).stream.colorSpace
      = limelightConsts.COLORSPACE_REC_2020 ∧
    limelightConsts.COLORSPACE_REC_2020 ≠ limelightConsts.COLORSPACE_REC_709 := by
  decide

/-- C19 (amended): the user requests H.265 and HDR (AV1 off, nothing pre-set)
and the platform supports H.264 and H.265 but is not HDR-capable.  Then the
codec set is exactly H.264 and H.265, without the 10-bit flag and without AV1,
and the colour space is BT.2020 if the platform's colour-space mask has
BT.2020, otherwise BT.709 if the platform supports BT.709, and BT.601
otherwise. -/
theorem C19_hevc_without_hdr (C : StreamConsts) (hC : C.formats_distinct)
    (hM : C.mask_separates)
    (opt : SS4S_VideoCapabilities → Int → Int → Int → Int) (surround : Bool)
    (video_cap : SS4S_VideoCapabilities) (audio_cap : SS4S_AudioCapabilities)
    (app_config : CONFIGURATION) (hpre : app_config.stream.supportedVideoFormats = 0)
    (hhevc : app_config.hevc = true) (hhdr : app_config.hdr = true)
    (hav1 : app_config.av1 = false)
    (h264 : video_cap.codecs &&& C.SS4S_VIDEO_H264 ≠ 0)
    (h265 : video_cap.codecs &&& C.SS4S_VIDEO_H265 ≠ 0) (hcap : video_cap.hdr = false) :
    (session_config_init C opt surround video_cap audio_cap
      app_config).stream.supportedVideoFormats
      = C.VIDEO_FORMAT_H264 ||| C.VIDEO_FORMAT_H265 ∧
    ¬ has_format (session_config_init C opt surround video_cap audio_cap
      app_config).stream.supportedVideoFormats C.VIDEO_FORMAT_H265_MAIN10 ∧
    ¬ has_format (session_config_init C opt surround video_cap audio_cap
      app_config).stream.supportedVideoFormats C.VIDEO_FORMAT_AV1_MAIN8 ∧
    ¬ has_format (session_config_init C opt surround video_cap audio_cap
      app_config).stream.supportedVideoFormats C.VIDEO_FORMAT_AV1_MAIN10 ∧
    (session_config_init C opt surround video_cap audio_cap app_config).stream.colorSpace =
      (if video_cap.colorSpace &&& C.SS4S_VIDEO_CAP_COLORSPACE_BT2020 ≠ 0 then
        C.COLORSPACE_REC_2020
       else if video_cap.colorSpace &&& C.SS4S_VIDEO_CAP_COLORSPACE_BT709 ≠ 0 then
         C.COLORSPACE_REC_709
       else C.COLORSPACE_REC_601) := by
  have hfmt : (session_config_init C opt surround video_cap audio_cap
      app_config).stream.supportedVideoFormats
      = C.VIDEO_FORMAT_H264 ||| C.VIDEO_FORMAT_H265 := by
    rw [session_config_init_formats, hpre, hhevc, hhdr, hav1]
    unfold select_video_formats
    have hne : ¬ (C.VIDEO_FORMAT_H264 ||| C.VIDEO_FORMAT_H265 = 0) := by
      rw [nat_or_eq_zero]; exact fun h => hC.h264_ne h.1
    simp [h264, h265, hcap, hne]
  have hnon : has_non_h264 C (C.VIDEO_FORMAT_H264 ||| C.VIDEO_FORMAT_H265) :=
    (has_non_h264_or C _ _).mpr (Or.inr hM.h265_outside)
  obtain ⟨hcs, -⟩ := session_config_init_color C opt surround video_cap audio_cap app_config
  rw [hfmt] at hcs ⊢
  refine ⟨rfl, ?_, ?_, ?_, ?_⟩
  · rw [has_format_or]
    unfold has_format
    simp [hC.h264_h265_10, hC.h265_h265_10]
  · rw [has_format_or]
    unfold has_format
    simp [hC.h264_av1_8, hC.h265_av1_8]
  · rw [has_format_or]
    unfold has_format
    simp [hC.h264_av1_10, hC.h265_av1_10]
  · rw [hcs]
    by_cases hb : video_cap.colorSpace &&& C.SS4S_VIDEO_CAP_COLORSPACE_BT2020 ≠ 0
    · rw [if_pos ⟨hb, hnon⟩, if_pos hb]
    · rw [if_neg (fun h => hb h.1), if_neg hb]

/-- C19 witness: the library constants, the sample configuration with HEVC and
HDR requested, and a platform with H.264 and H.265, no HDR and BT.709 only. -/
theorem C19_hevc_without_hdr_witness :
    (session_config_init limelightConsts sampleOptimalBitrate true
      (sampleVideoCapFull 3 false 2 0) ⟨2⟩
      (sampleConfig 0 true false true)).stream.supportedVideoFormats
      = limelightConsts.VIDEO_FORMAT_H264 ||| limelightConsts.VIDEO_FORMAT_H265 :=
  (C19_hevc_without_hdr limelightConsts limelightConsts_formats_distinct
    limelightConsts_mask_separates sampleOptimalBitrate true (sampleVideoCapFull 3 false 2 0)
    ⟨2⟩ (sampleConfig 0 true false true) rfl rfl rfl rfl (by decide) (by decide) rfl).1


/-- The audio configuration produced by `session_config_init` in a
surround-sound build, as a function of the requested configuration and the
platform's `maxChannels`. -/
theorem session_config_init_audio (C : StreamConsts)
    (opt : SS4S_VideoCapabilities → Int → Int → Int → Int)
    (video_cap : SS4S_VideoCapabilities) (audio_cap : SS4S_AudioCapabilities)
    (app_config : CONFIGURATION) :
    (session_config_init C opt true video_cap audio_cap app_config).stream.audioConfiguration =
      (if (if audio_cap.maxChannels <
              C.CHANNEL_COUNT_FROM_AUDIO_CONFIGURATION app_config.stream.audioConfiguration then
            (if audio_cap.maxChannels = 2 then C.AUDIO_CONFIGURATION_STEREO
             else if audio_cap.maxChannels = 6 then C.AUDIO_CONFIGURATION_51_SURROUND
             else if audio_cap.maxChannels = 8 then C.AUDIO_CONFIGURATION_71_SURROUND
             else app_config.stream.audioConfiguration)
           else app_config.stream.audioConfiguration) = 0 then C.AUDIO_CONFIGURATION_STEREO
       else
        (if audio_cap.maxChannels <
              C.CHANNEL_COUNT_FROM_AUDIO_CONFIGURATION app_config.stream.audioConfiguration then
            (if audio_cap.maxChannels = 2 then C.AUDIO_CONFIGURATION_STEREO
             else if audio_cap.maxChannels = 6 then C.AUDIO_CONFIGURATION_51_SURROUND
             else if audio_cap.maxChannels = 8 then C.AUDIO_CONFIGURATION_71_SURROUND
             else app_config.stream.audioConfiguration)
           else app_config.stream.audioConfiguration)) := by
  rfl

/-- C20 (as stated, refuted): in a surround-sound build a 5.1 request (6
channels) on a platform with `maxChannels = 4` exceeds the capability, yet the
resulting audio configuration is the unchanged 5.1 request, whose channel
count 6 exceeds 4. -/
theorem C20_request_kept_above_capability :
    (4 : Int) < limelightConsts.CHANNEL_COUNT_FROM_AUDIO_CONFIGURATION
      limelightConsts.AUDIO_CONFIGURATION_51_SURROUND ∧
    (session_config_init limelightConsts sampleOptimalBitrate true (sampleVideoCap 1 false) ⟨4⟩
      (sampleAudioConfig limelightConsts.AUDIO_CONFIGURATION_51_SURROUND)).stream.audioConfiguration
      = limelightConsts.AUDIO_CONFIGURATION_51_SURROUND ∧
    ¬ (limelightConsts.CHANNEL_COUNT_FROM_AUDIO_CONFIGURATION
        (session_config_init limelightConsts sampleOptimalBitrate true (sampleVideoCap 1 false)
          ⟨4⟩ (sampleAudioConfig
            limelightConsts.AUDIO_CONFIGURATION_51_SURROUND)).stream.audioConfiguration
      ≤ 4) := by
  decide

/-- The library values of the audio configuration constants have the channel
counts 2, 6 and 8. -/
theorem limelightConsts_channel_counts : limelightConsts.channel_counts := by
  constructor <;> decide

/-- C20 (amended): audio layout downgrade of `session_config_init` in a
surround-sound build.  When the request exceeds the platform's `maxChannels`
and `maxChannels` is 2, 6 or 8, the result is stereo, 5.1 or 7.1 respectively,
with channel count equal to `maxChannels`; when the request exceeds
`maxChannels` and `maxChannels` is none of 2, 6, 8, a set request is left
unchanged; a set request that does not exceed the platform capability is left
unchanged; and an unset (0) audio configuration becomes stereo. -/
theorem C20_audio_layout (C : StreamConsts) (hC : C.channel_counts)
    (opt : SS4S_VideoCapabilities → Int → Int → Int → Int)
    (video_cap : SS4S_VideoCapabilities) (audio_cap : SS4S_AudioCapabilities)
    (app_config : CONFIGURATION) :
    (audio_cap.maxChannels <
        C.CHANNEL_COUNT_FROM_AUDIO_CONFIGURATION app_config.stream.audioConfiguration →
      (audio_cap.maxChannels = 2 ∨ audio_cap.maxChannels = 6 ∨ audio_cap.maxChannels = 8) →
      ((session_config_init C opt true video_cap audio_cap
          app_config).stream.audioConfiguration = C.AUDIO_CONFIGURATION_STEREO ∨
       (session_config_init C opt true video_cap audio_cap
          app_config).stream.audioConfiguration = C.AUDIO_CONFIGURATION_51_SURROUND ∨
       (session_config_init C opt true video_cap audio_cap
          app_config).stream.audioConfiguration = C.AUDIO_CONFIGURATION_71_SURROUND) ∧
      C.CHANNEL_COUNT_FROM_AUDIO_CONFIGURATION
        (session_config_init C opt true video_cap audio_cap
          app_config).stream.audioConfiguration = audio_cap.maxChannels) ∧
    (audio_cap.maxChannels <
        C.CHANNEL_COUNT_FROM_AUDIO_CONFIGURATION app_config.stream.audioConfiguration →
      ¬ (audio_cap.maxChannels = 2 ∨ audio_cap.maxChannels = 6 ∨ audio_cap.maxChannels = 8) →
      app_config.stream.audioConfiguration ≠ 0 →
      (session_config_init C opt true video_cap audio_cap
        app_config).stream.audioConfiguration = app_config.stream.audioConfiguration) ∧
    (¬ (audio_cap.maxChannels <
        C.CHANNEL_COUNT_FROM_AUDIO_CONFIGURATION app_config.stream.audioConfiguration) →
      app_config.stream.audioConfiguration ≠ 0 →
      (session_config_init C opt true video_cap audio_cap
        app_config).stream.audioConfiguration = app_config.stream.audioConfiguration) ∧
    (app_config.stream.audioConfiguration = 0 →
      (session_config_init C opt true video_cap audio_cap
        app_config).stream.audioConfiguration = C.AUDIO_CONFIGURATION_STEREO) := by
  obtain ⟨c0, c2, c6, c8⟩ := hC
  have s2 : C.AUDIO_CONFIGURATION_STEREO ≠ 0 := by
    intro h; rw [h, c0] at c2; cases c2
  have s6 : C.AUDIO_CONFIGURATION_51_SURROUND ≠ 0 := by
    intro h; rw [h, c0] at c6; cases c6
  have s8 : C.AUDIO_CONFIGURATION_71_SURROUND ≠ 0 := by
    intro h; rw [h, c0] at c8; cases c8
  rw [session_config_init_audio]
  refine ⟨?_, ?_, ?_, ?_⟩
  · intro hex hm
    rw [if_pos hex]
    rcases hm with h | h | h
    · rw [if_pos h, if_neg s2, h]
      exact ⟨Or.inl rfl, c2⟩
    · have n2 : ¬ audio_cap.maxChannels = 2 := by omega
      rw [if_neg n2, if_pos h, if_neg s6, h]
      exact ⟨Or.inr (Or.inl rfl), c6⟩
    · have n2 : ¬ audio_cap.maxChannels = 2 := by omega
      have n6 : ¬ audio_cap.maxChannels = 6 := by omega
      rw [if_neg n2, if_neg n6, if_pos h, if_neg s8, h]
      exact ⟨Or.inr (Or.inr rfl), c8⟩
  · intro hex hm hreq
    rw [if_pos hex, if_neg (fun h => hm (Or.inl h)), if_neg (fun h => hm (Or.inr (Or.inl h))),
      if_neg (fun h => hm (Or.inr (Or.inr h))), if_neg hreq]
  · intro hex hreq
    rw [if_neg hex, if_neg hreq]
  · intro hreq
    rw [hreq, c0]
    by_cases hneg : audio_cap.maxChannels < 0
    · have n2 : ¬ audio_cap.maxChannels = 2 := by omega
      have n6 : ¬ audio_cap.maxChannels = 6 := by omega
      have n8 : ¬ audio_cap.maxChannels = 8 := by omega
      rw [if_pos hneg, if_neg n2, if_neg n6, if_neg n8, if_pos rfl]
    · rw [if_neg hneg, if_pos rfl]

/-- C20 witness: a 7.1 request on a platform with 6 channels becomes 5.1. -/
theorem C20_audio_layout_witness :
    limelightConsts.CHANNEL_COUNT_FROM_AUDIO_CONFIGURATION
      (session_config_init limelightConsts sampleOptimalBitrate true (sampleVideoCap 1 false) ⟨6⟩
        (sampleAudioConfig
          limelightConsts.AUDIO_CONFIGURATION_71_SURROUND)).stream.audioConfiguration = 6 :=
  ((C20_audio_layout limelightConsts limelightConsts_channel_counts sampleOptimalBitrate
    (sampleVideoCap 1 false) ⟨6⟩
    (sampleAudioConfig limelightConsts.AUDIO_CONFIGURATION_71_SURROUND)).1
    (by decide) (Or.inr (Or.inl rfl))).2


/-! ## Theorems: error recording and lock balance of the interruption path -/

/-- The first interruption of a live session: the session record, the error
slot and the calls made. -/
theorem session_interrupt_first (R : InterruptReasons) (feat : Bool) (q : Bool) (r : Int)
    (w : SessionWorld) (s : session_t) (hs : w.session = some s) (hi : s.interrupted = false) :
    (session_interrupt R feat q r w).session =
      some { s with quitapp := q, interrupted := true, state_lock := s.state_lock - 1 } ∧
    (session_interrupt R feat q r w).streaming_errno =
      (if R.STREAMING_INTERRUPT_ERROR ≤ r then r else w.streaming_errno) ∧
    (session_interrupt R feat q r w).streaming_errmsg =
      (if R.STREAMING_INTERRUPT_ERROR ≤ r then vsnprintf_errmsg (interrupt_error_message R r)
       else w.streaming_errmsg) ∧
    (session_interrupt R feat q r w).log =
      w.log ++ first_interrupt_calls (feat && s.embed && s.embed_process)
        (decide (R.STREAMING_INTERRUPT_ERROR ≤ r)) := by
  obtain ⟨ses, eno, emsg, lg⟩ := w
  simp only at hs
  subst hs
  obtain ⟨i, qa, em, ep, mx, sl⟩ := s
  simp only at hi
  subst hi
  unfold session_interrupt first_interrupt_calls
  by_cases he : R.STREAMING_INTERRUPT_ERROR ≤ r <;>
    by_cases hf : (feat && em && ep) = true <;>
    simp [he, hf, SDL_LockMutex, SDL_UnlockMutex, SessionWorld.modify, SessionWorld.emit,
      streaming_error]

/-- The four messages of `session_interrupt` fit the buffer of
`streaming_errmsg` and are stored unchanged. -/
theorem vsnprintf_errmsg_messages :
    vsnprintf_errmsg "Stream stalled" = "Stream stalled" ∧
    vsnprintf_errmsg "Network error happened" = "Network error happened" ∧
    vsnprintf_errmsg "Decoder reported error" = "Decoder reported error" ∧
    vsnprintf_errmsg "Error occurred while in streaming" = "Error occurred while in streaming" := by
  decide


/-- C21: error recording on interruption.  For the first `session_interrupt`
of a live session with reason `r`: if `r >= STREAMING_INTERRUPT_ERROR` the
error slot holds `streaming_errno = r` and the message "Stream stalled" for
the watchdog reason, "Network error happened" for the network reason,
"Decoder reported error" for the decoder reason and "Error occurred while in
streaming" for every other error reason (the `case` labels being distinct, as
C requires); the four messages are pairwise distinct; for a reason below
`STREAMING_INTERRUPT_ERROR` the error slot is left unchanged.  In both cases
`interrupted` becomes true, `quitapp` takes the caller's flag, and the calls
made contain exactly one `session_input_interrupt` and exactly one
`SDL_CondSignal`. -/
theorem C21_error_recording (R : InterruptReasons) (feat : Bool) (q : Bool) (r : Int)
    (w : SessionWorld) (s : session_t) (hs : w.session = some s) (hi : s.interrupted = false) :
    (R.STREAMING_INTERRUPT_ERROR ≤ r →
      (session_interrupt R feat q r w).streaming_errno = r ∧
      (r = R.STREAMING_INTERRUPT_WATCHDOG →
        (session_interrupt R feat q r w).streaming_errmsg = "Stream stalled") ∧
      (R.cases_distinct → r = R.STREAMING_INTERRUPT_NETWORK →
        (session_interrupt R feat q r w).streaming_errmsg = "Network error happened") ∧
      (R.cases_distinct → r = R.STREAMING_INTERRUPT_DECODER →
        (session_interrupt R feat q r w).streaming_errmsg = "Decoder reported error") ∧
      (r ≠ R.STREAMING_INTERRUPT_WATCHDOG → r ≠ R.STREAMING_INTERRUPT_NETWORK →
        r ≠ R.STREAMING_INTERRUPT_DECODER →
        (session_interrupt R feat q r w).streaming_errmsg =
          "Error occurred while in streaming")) ∧
    (¬ R.STREAMING_INTERRUPT_ERROR ≤ r →
      (session_interrupt R feat q r w).streaming_errno = w.streaming_errno ∧
      (session_interrupt R feat q r w).streaming_errmsg = w.streaming_errmsg) ∧
    ["Stream stalled", "Network error happened", "Decoder reported error",
      "Error occurred while in streaming"].Nodup ∧
    (∃ s1, (session_interrupt R feat q r w).session = some s1 ∧
      s1.interrupted = true ∧ s1.quitapp = q) ∧
    (∃ calls, (session_interrupt R feat q r w).log = w.log ++ calls ∧
      calls.count .session_input_interrupt = 1 ∧ calls.count .SDL_CondSignal = 1) := by
  obtain ⟨h1, h2, h3, h4⟩ := session_interrupt_first R feat q r w s hs hi
  obtain ⟨m1, m2, m3, m4⟩ := vsnprintf_errmsg_messages
  refine ⟨?_, ?_, by decide, ⟨_, h1, rfl, rfl⟩, ⟨_, h4, ?_, ?_⟩⟩
  · intro he
    rw [if_pos he] at h2 h3
    refine ⟨h2, ?_, ?_, ?_, ?_⟩
    · intro hr
      rw [h3]
      unfold interrupt_error_message
      rw [if_pos hr, m1]
    · intro hd hr
      have n1 : ¬ r = R.STREAMING_INTERRUPT_WATCHDOG := by
        rw [hr]; exact fun h => hd.watchdog_network h.symm
      rw [h3]
      unfold interrupt_error_message
      rw [if_neg n1, if_pos hr, m2]
    · intro hd hr
      have n1 : ¬ r = R.STREAMING_INTERRUPT_WATCHDOG := by
        rw [hr]; exact fun h => hd.watchdog_decoder h.symm
      have n2 : ¬ r = R.STREAMING_INTERRUPT_NETWORK := by
        rw [hr]; exact fun h => hd.network_decoder h.symm
      rw [h3]
      unfold interrupt_error_message
      rw [if_neg n1, if_neg n2, if_pos hr, m3]
    · intro n1 n2 n3
      rw [h3]
      unfold interrupt_error_message
      rw [if_neg n1, if_neg n2, if_neg n3, m4]
  · intro he
    rw [if_neg he] at h2 h3
    exact ⟨h2, h3⟩
  · unfold first_interrupt_calls
    cases (feat && s.embed && s.embed_process) <;>
      cases (decide (R.STREAMING_INTERRUPT_ERROR ≤ r)) <;> decide
  · unfold first_interrupt_calls
    cases (feat && s.embed && s.embed_process) <;>
      cases (decide (R.STREAMING_INTERRUPT_ERROR ≤ r)) <;> decide

/-- The sample reason values are pairwise distinct. -/
theorem sampleReasons_cases_distinct : sampleReasons.cases_distinct := by
  constructor <;> decide

/-- C21 witness: a fresh session interrupted for a network error records the
network message. -/
theorem C21_error_recording_witness :
    (session_interrupt sampleReasons false true 6 freshSessionWorld).streaming_errmsg
      = "Network error happened" :=
  ((C21_error_recording sampleReasons false true 6 freshSessionWorld _ rfl rfl).1
    (by decide)).2.2.1 sampleReasons_cases_distinct rfl


/-- C24 (the code on each of its paths): lock balance of `session_interrupt`.
With a null session nothing happens, and on an already interrupted session
the call locks and unlocks `session->mutex` only, leaving both hold counts as
they were.  On the first interruption of a live session, with an error reason
or not, `session->mutex` returns to its hold count on entry, but the final
`SDL_UnlockMutex(session->state_lock)` is applied to a mutex the call does not
hold: the hold count of `state_lock` on return is one less than on entry. -/
theorem C24_state_lock_unlocked_without_lock (R : InterruptReasons) (feat : Bool) (q : Bool)
    (r : Int) (w : SessionWorld) :
    (w.session = none → session_interrupt R feat q r w = w) ∧
    (∀ s, w.session = some s → s.interrupted = true →
      (session_interrupt R feat q r w).session = some s ∧
      ∃ calls, (session_interrupt R feat q r w).log = w.log ++ calls ∧
        spec_unlocks_held 0 0 calls = true) ∧
    (∀ s, w.session = some s → s.interrupted = false →
      ∃ s1 calls, (session_interrupt R feat q r w).session = some s1 ∧
        s1.mutex = s.mutex ∧ s1.state_lock = s.state_lock - 1 ∧
        (session_interrupt R feat q r w).log = w.log ++ calls ∧
        spec_unlocks_held 0 0 calls = false) := by
  refine ⟨?_, ?_, ?_⟩
  · intro hn
    unfold session_interrupt
    rw [hn]
  · intro s hs hi
    rw [session_interrupt_interrupted R feat q r w s hs hi]
    exact ⟨hs, _, rfl, by decide⟩
  · intro s hs hi
    obtain ⟨h1, -, -, h4⟩ := session_interrupt_first R feat q r w s hs hi
    refine ⟨_, _, h1, rfl, rfl, h4, ?_⟩
    unfold first_interrupt_calls
    cases (feat && s.embed && s.embed_process) <;>
      cases (decide (R.STREAMING_INTERRUPT_ERROR ≤ r)) <;> decide

/-- C24 witness: a fresh session (both hold counts 0) interrupted with the quit
reason returns with `state_lock` at hold count -1. -/
theorem C24_state_lock_unlocked_without_lock_witness :
    ∃ s1 calls,
      (session_interrupt sampleReasons false false 3 freshSessionWorld).session = some s1 ∧
      s1.mutex = 0 ∧ s1.state_lock = -1 ∧
      (session_interrupt sampleReasons false false 3 freshSessionWorld).log = [] ++ calls ∧
      spec_unlocks_held 0 0 calls = false :=
  (C24_state_lock_unlocked_without_lock sampleReasons false false 3 freshSessionWorld).2.2
    _ rfl rfl


/-! ## Theorems: the virtual-mouse vector outside the deadzone -/

/-- Outside the deadzone the curve is the truncated value of
`±sqrt(|a| - 4096) / 32 - 8`, which lies between -13 and -2. -/
theorem calc_mouse_movement_outside (a : Int) (h1 : 4096 ≤ |a|) (h2 : |a| ≤ 32767) :
    calc_mouse_movement a = sqrt_scaled_trunc (|a| - 4096).toNat (decide (a > 0)) 8 ∧
    -13 ≤ calc_mouse_movement a ∧ calc_mouse_movement a ≤ -2 := by
  by_cases hp : 0 < a
  · have e : |a| = a := abs_of_pos hp
    rw [e] at h1 h2 ⊢
    have hc := calc_mouse_movement_pos a h1 h2
    have hs := sqrt_le_169 (a - 4096).toNat (by omega)
    have hcs : ceilSqrt (a - 4096).toNat ≤ 170 := by
      unfold ceilSqrt; split_ifs <;> omega
    have hn : ¬ (32 * 8 ≤ Nat.sqrt (a - 4096).toNat) := by omega
    have hgt : a > 0 := hp
    refine ⟨?_, ?_, ?_⟩
    · rw [hc]
      unfold sqrt_scaled_trunc
      simp only [hgt, decide_True, if_true]
      rw [if_neg hn]
      rfl
    · rw [hc]; omega
    · rw [hc]; omega
  · have hneg : a < 0 := by
      rcases le_abs.mp h1 with h | h <;> omega
    have e : |a| = -a := abs_of_neg hneg
    rw [e] at h1 h2 ⊢
    have hc := calc_mouse_movement_neg a (by omega) (by omega)
    have hs := sqrt_le_169 (-a - 4096).toNat (by omega)
    have hgt : ¬ (a > 0) := hp
    refine ⟨?_, ?_, ?_⟩
    · rw [hc]
      unfold sqrt_scaled_trunc
      simp only [hgt, decide_False, Bool.false_eq_true, if_false]
    · rw [hc]; omega
    · rw [hc]; omega

/-- The curve is zero exactly in the deadzone. -/
theorem calc_mouse_movement_zero_iff (a : Int) (h : |a| ≤ 32767) :
    calc_mouse_movement a = 0 ↔ |a| < 4096 := by
  constructor
  · intro h0
    by_contra hn
    have := (calc_mouse_movement_outside a (by omega) h).2.2
    omega
  · intro hd
    have habs := abs_lt.mp hd
    unfold calc_mouse_movement toShort
    by_cases hp : a > 0
    · simp only [hp, if_true]
      rw [if_pos (by omega)]
    · simp only [hp, if_false]
      rw [if_pos (by omega)]


/-- C25: the virtual-mouse vector is zero exactly in the deadzone.  For every
axis value `a` with `|a| <= 32767`, `calc_mouse_movement(a) = 0` if and only
if `|a| < 4096`, and a non-zero result is the truncated value of
`±sqrt(|a| - 4096) / 32 - 8` and lies between -13 and -2.  Consequently after
`vmouse_set_vector(x, y)` with stick values in `[-32767, 32767]` the vector is
`(0, 0)` if and only if `|x| < 4096` and `|y| < 4096`, and every non-zero
component lies between -13 and -2. -/
theorem C25_vector_zero_iff_deadzone (a x y : Int) (s : InputState) (ha : |a| ≤ 32767)
    (hx : |x| ≤ 32767) (hy : |y| ≤ 32767) :
    (calc_mouse_movement a = 0 ↔ |a| < 4096) ∧
    (calc_mouse_movement a ≠ 0 →
      calc_mouse_movement a = sqrt_scaled_trunc (|a| - 4096).toNat (decide (a > 0)) 8 ∧
      -13 ≤ calc_mouse_movement a ∧ calc_mouse_movement a ≤ -2) ∧
    (((vmouse_set_vector x y s).vmouse_vector_x = 0 ∧
        (vmouse_set_vector x y s).vmouse_vector_y = 0) ↔ (|x| < 4096 ∧ |y| < 4096)) ∧
    ((vmouse_set_vector x y s).vmouse_vector_x ≠ 0 →
      -13 ≤ (vmouse_set_vector x y s).vmouse_vector_x ∧
      (vmouse_set_vector x y s).vmouse_vector_x ≤ -2) ∧
    ((vmouse_set_vector x y s).vmouse_vector_y ≠ 0 →
      -13 ≤ (vmouse_set_vector x y s).vmouse_vector_y ∧
      (vmouse_set_vector x y s).vmouse_vector_y ≤ -2) := by
  have out : ∀ b : Int, |b| ≤ 32767 → calc_mouse_movement b ≠ 0 →
      calc_mouse_movement b = sqrt_scaled_trunc (|b| - 4096).toNat (decide (b > 0)) 8 ∧
      -13 ≤ calc_mouse_movement b ∧ calc_mouse_movement b ≤ -2 := by
    intro b hb hne
    have hge : 4096 ≤ |b| := by
      by_contra hlt
      exact hne ((calc_mouse_movement_zero_iff b hb).mpr (by omega))
    exact calc_mouse_movement_outside b hge hb
  have hxb := abs_le.mp hx
  have hyb := abs_le.mp hy
  have ex : toShort (-x) = -x := toShort_id (-x) (by omega) (by omega)
  have ey : toShort (-y) = -y := toShort_id (-y) (by omega) (by omega)
  obtain ⟨vx, vy, -, -⟩ := vmouse_set_vector_vector x y s
  rw [vx, vy, ex, ey]
  have hnx : |(-x)| ≤ 32767 := by rw [abs_neg]; exact hx
  have hny : |(-y)| ≤ 32767 := by rw [abs_neg]; exact hy
  refine ⟨calc_mouse_movement_zero_iff a ha, out a ha, ?_, ?_, ?_⟩
  · rw [calc_mouse_movement_zero_iff (-x) hnx, calc_mouse_movement_zero_iff (-y) hny,
      abs_neg, abs_neg]
  · intro hne
    exact (out (-x) hnx hne).2
  · intro hne
    exact (out (-y) hny hne).2

/-- C25 witness: at the edge of the deadzone the curve is not zero. -/
theorem C25_vector_zero_iff_deadzone_witness :
    calc_mouse_movement 4096 = 0 ↔ |(4096 : Int)| < 4096 :=
  (C25_vector_zero_iff_deadzone 4096 0 0 InputState.init (by decide) (by decide)
    (by decide)).1


/-! ## Theorems: the active controller mask -/

/-- With `k` tracked controllers forming the prefix of the slots, the bit mask
of the initialized slot indices is `2 ^ k - 1`. -/
theorem initialized_mask_prefix (s : InputState) (k : Nat) (hinv : registry_inv s k) :
    initialized_mask s = 2 ^ k - 1 := by
  have hk := hinv.bound
  have h0 : (s.gamepads 0).initialized = true ↔ 0 < k := hinv.initial_segment 0
  have h1 : (s.gamepads 1).initialized = true ↔ 1 < k := hinv.initial_segment 1
  have h2 : (s.gamepads 2).initialized = true ↔ 2 < k := hinv.initial_segment 2
  have h3 : (s.gamepads 3).initialized = true ↔ 3 < k := hinv.initial_segment 3
  unfold initialized_mask
  interval_cases k <;> simp at h0 h1 h2 h3 <;> simp [h0, h1, h2, h3]

/-- One `get_gamepad` call on a registry with `k` tracked controllers and mask
`2 ^ k - 1`: a known device, or any device when all four slots are taken,
changes nothing; an unseen device with a free slot claims slot `k` and the
mask becomes `2 ^ (k + 1) - 1`. -/
theorem get_gamepad_mask_step (d : Int) (s : InputState) (k : Nat) (hinv : registry_inv s k)
    (hm : s.activeGamepadMask = 2 ^ k - 1) :
    (((∃ j, slot_holds s j d) ∨ k = 4) → (get_gamepad d s).1 = s) ∧
    ((∀ j, ¬ slot_holds s j d) → k < 4 →
      ∃ j : Fin 4, j.val = k ∧ (s.gamepads j).initialized = false ∧
        get_gamepad d s = (claim_slot d s j, j) ∧
        registry_inv (get_gamepad d s).1 (k + 1) ∧
        (get_gamepad d s).1.activeGamepadMask = 2 ^ (k + 1) - 1 ∧
        (get_gamepad d s).1.activeGamepadMask ≠ s.activeGamepadMask) := by
  have hlowd : ∀ j : Fin 4, (∀ i, i < j → (s.gamepads i).initialized = true ∧
      (s.gamepads i).sdl_id ≠ d) → (s.gamepads j).initialized = false →
      ∀ i, ¬ slot_holds s i d := by
    intro j hlow hu i hi
    have hik : i.val < k := (hinv.initial_segment i).mp hi.1
    have hjk : ¬ j.val < k := by
      intro hlt
      rw [(hinv.initial_segment j).mpr hlt] at hu
      cases hu
    exact (hlow i (by rw [Fin.lt_def]; omega)).2 hi.2
  constructor
  · intro hcase
    rcases get_gamepad_spec d s with ⟨j, h, -, -⟩ | ⟨j, h, hu, hlow⟩ | ⟨h, -⟩
    · rw [h]
    · exfalso
      rcases hcase with ⟨i, hi⟩ | hk4
      · exact hlowd j hlow hu i hi
      · have : j.val < k := by have := j.isLt; omega
        rw [(hinv.initial_segment j).mpr this] at hu
        cases hu
    · rw [h]
  · intro hnone hk
    rcases get_gamepad_spec d s with ⟨j, -, hh, -⟩ | ⟨j, h, hu, hlow⟩ | ⟨-, hall⟩
    · exact absurd hh (hnone j)
    · obtain ⟨hjk, hinv2⟩ := registry_inv_claim d s k j hinv hu hlow
      have hmask : (claim_slot d s j).activeGamepadMask = 2 ^ (k + 1) - 1 := by
        show s.activeGamepadMask ||| (1 <<< j.val) = 2 ^ (k + 1) - 1
        rw [hm, hjk]
        interval_cases k <;> decide
      refine ⟨j, hjk, hu, h, ?_, ?_, ?_⟩
      · rw [h]; exact hinv2
      · rw [h]; exact hmask
      · rw [h]
        show (claim_slot d s j).activeGamepadMask ≠ s.activeGamepadMask
        rw [hmask, hm]
        interval_cases k <;> decide
    · exfalso
      have h3 := (hinv.initial_segment ⟨k, hk⟩).mp (hall ⟨k, hk⟩).1
      simp at h3

/-- Every registry reached by `get_gamepad` calls from an all-uninitialized
registry with mask 0 has `k` tracked controllers and mask `2 ^ k - 1`. -/
theorem registry_mask_run (ds : List Int) :
    ∀ (s : InputState) (k : Nat), registry_inv s k → s.activeGamepadMask = 2 ^ k - 1 →
      ∃ k2, registry_inv (registry_run s ds) k2 ∧
        (registry_run s ds).activeGamepadMask = 2 ^ k2 - 1 := by
  induction ds with
  | nil => intro s k h hm; exact ⟨k, h, hm⟩
  | cons d rest ih =>
    intro s k h hm
    obtain ⟨hsame, hclaim⟩ := get_gamepad_mask_step d s k h hm
    simp only [registry_run]
    by_cases hc : (∃ j, slot_holds s j d) ∨ k = 4
    · rw [hsame hc]
      exact ih s k h hm
    · have hnone : ∀ j, ¬ slot_holds s j d := fun j hj => hc (Or.inl ⟨j, hj⟩)
      have hk : k < 4 := by
        have := h.bound
        have : k ≠ 4 := fun h4 => hc (Or.inr h4)
        omega
      obtain ⟨j, -, -, -, hinv2, hm2, -⟩ := hclaim hnone hk
      exact ih _ (k + 1) hinv2 hm2


/-- C23: active controller mask invariant.  In every registry reached by
`get_gamepad` calls from the all-uninitialized registry with mask 0,
`activeGamepadMask` equals the bit mask of the initialized slot indices, which
is `2 ^ k - 1` for the `k <= 4` initialized slots `0 .. k-1`; a `get_gamepad`
call changes the mask only when it claims a slot for a device that no slot
holds; resolving an already known device, or any device when all four slots
are taken, leaves the mask unchanged. -/
theorem C23_active_mask_invariant (s0 : InputState) (h0 : all_uninitialized s0)
    (hm0 : s0.activeGamepadMask = 0) (ds : List Int) (d : Int) :
    (∃ k, k ≤ 4 ∧
      (∀ j : Fin 4, ((registry_run s0 ds).gamepads j).initialized = true ↔ j.val < k) ∧
      (registry_run s0 ds).activeGamepadMask = 2 ^ k - 1 ∧
      (registry_run s0 ds).activeGamepadMask = initialized_mask (registry_run s0 ds)) ∧
    ((get_gamepad d (registry_run s0 ds)).1.activeGamepadMask
        ≠ (registry_run s0 ds).activeGamepadMask →
      (∀ j, ¬ slot_holds (registry_run s0 ds) j d) ∧
      ∃ j, ((registry_run s0 ds).gamepads j).initialized = false ∧
        get_gamepad d (registry_run s0 ds) = (claim_slot d (registry_run s0 ds) j, j)) ∧
    ((∃ j, slot_holds (registry_run s0 ds) j d) →
      (get_gamepad d (registry_run s0 ds)).1.activeGamepadMask
        = (registry_run s0 ds).activeGamepadMask) ∧
    ((∀ j, ((registry_run s0 ds).gamepads j).initialized = true) →
      (get_gamepad d (registry_run s0 ds)).1.activeGamepadMask
        = (registry_run s0 ds).activeGamepadMask) := by
  obtain ⟨k, hinv, hm⟩ := registry_mask_run ds s0 0 (registry_inv_init s0 h0)
    (by rw [hm0]; rfl)
  generalize registry_run s0 ds = s at hinv hm ⊢
  obtain ⟨hsame, hclaim⟩ := get_gamepad_mask_step d s k hinv hm
  refine ⟨⟨k, hinv.bound, hinv.initial_segment, hm, ?_⟩, ?_, ?_, ?_⟩
  · rw [hm, initialized_mask_prefix s k hinv]
  · intro hne
    by_cases hc : (∃ j, slot_holds s j d) ∨ k = 4
    · exact absurd (by rw [hsame hc]) hne
    · have hnone : ∀ j, ¬ slot_holds s j d := fun j hj => hc (Or.inl ⟨j, hj⟩)
      have hk : k < 4 := by
        have := hinv.bound
        have : k ≠ 4 := fun h4 => hc (Or.inr h4)
        omega
      obtain ⟨j, -, hu, hg, -, -, -⟩ := hclaim hnone hk
      exact ⟨hnone, j, hu, hg⟩
  · intro hknown
    rw [hsame (Or.inl hknown)]
  · intro hall
    have hk4 : k = 4 := by
      have h3 : (3 : Fin 4).val < k := (hinv.initial_segment 3).mp (hall 3)
      have h3v : (3 : Fin 4).val = 3 := rfl
      have := hinv.bound
      omega
    rw [hsame (Or.inr hk4)]

/-- C23 witness: after devices 7 and 9 have been resolved on a fresh registry,
resolving the known device 9 leaves the mask unchanged. -/
theorem C23_active_mask_invariant_witness :
    (get_gamepad 9 (registry_run InputState.init [7, 9])).1.activeGamepadMask
      = (registry_run InputState.init [7, 9]).activeGamepadMask :=
  (C23_active_mask_invariant InputState.init (fun _ => rfl) rfl [7, 9] 9).2.2.1
    ⟨1, by decide, by decide⟩


/-! ## Theorems: at most one virtual-mouse timer -/

/-- The timer invariant depends on the timer variables only. -/
theorem timer_inv_congr (s t : InputState) (h1 : t.timers = s.timers)
    (h2 : t.vmouse_timer_id = s.vmouse_timer_id) (h3 : t.next_timer_id = s.next_timer_id)
    (h : timer_inv s) : timer_inv t where
  scheduled := by rw [h1, h2]; exact h.scheduled
  fresh := by rw [h3]; exact h.fresh

/-- The function `vmouse_set_vector` keeps the timer invariant. -/
theorem timer_inv_set_vector (x y : Int) (s : InputState) (h : timer_inv s) :
    timer_inv (vmouse_set_vector x y s) := by
  by_cases hv : calc_mouse_movement (toShort (-x)) ≠ 0 ∨ calc_mouse_movement (toShort (-y)) ≠ 0
  · obtain ⟨hadd, hkeep⟩ := vmouse_set_vector_nonzero x y s hv
    by_cases h0 : s.vmouse_timer_id = 0
    · obtain ⟨e1, e2, e3⟩ := hadd h0
      have hempty : s.timers = [] := by
        rcases h.scheduled with he | ⟨-, hne⟩
        · exact he
        · exact absurd h0 hne
      have hf := h.fresh
      constructor
      · right
        rw [e1, e2, hempty]
        exact ⟨rfl, by omega⟩
      · rw [e3]; omega
    · obtain ⟨e1, e2, e3⟩ := hkeep h0
      exact timer_inv_congr s _ e1 e2 e3 h
  · have hx : calc_mouse_movement (toShort (-x)) = 0 := by
      by_contra hne; exact hv (Or.inl hne)
    have hy : calc_mouse_movement (toShort (-y)) = 0 := by
      by_contra hne; exact hv (Or.inr hne)
    obtain ⟨hrem, hsame, e2, e3⟩ := vmouse_set_vector_zero x y s hx hy
    constructor
    · left
      by_cases h0 : s.vmouse_timer_id = 0
      · rw [hsame h0]
        rcases h.scheduled with he | ⟨-, hne⟩
        · exact he
        · exact absurd h0 hne
      · rw [hrem h0]
        rcases h.scheduled with he | ⟨he, -⟩
        · rw [he]; rfl
        · rw [he]; simp
    · rw [e3]; exact h.fresh

/-- A firing of a timer keeps the timer invariant. -/
theorem timer_inv_tick (s : InputState) (id : Nat) (h : timer_inv s) :
    timer_inv (timer_tick s id).1 := by
  have hrem : timer_inv (SDL_RemoveTimer s id) := by
    constructor
    · show (s.timers.filter fun t => t != id) = [] ∨
        ((s.timers.filter fun t => t != id) = [s.vmouse_timer_id] ∧ s.vmouse_timer_id ≠ 0)
      rcases h.scheduled with he | ⟨he, hne⟩
      · left; rw [he]; rfl
      · rw [he]
        by_cases hid : s.vmouse_timer_id = id
        · left; simp [hid]
        · right; exact ⟨by simp [hid], hne⟩
    · exact h.fresh
  unfold timer_tick
  by_cases hmem : id ∈ s.timers
  · rw [if_pos hmem]
    by_cases hz : (vmouse_timer_callback s).1 = 0
    · simp only [hz, if_true]
      exact hrem
    · simp only [hz, if_false]
      exact h
  · rw [if_neg hmem]
    exact h


/-- An axis event keeps the timer invariant. -/
theorem timer_inv_caxis (ub : Nat) (s : InputState) (e : SDL_ControllerAxisEvent)
    (h : timer_inv s) : timer_inv (sdlinput_handle_caxis_event ub s e).1 := by
  obtain ⟨-, -, -, e1, e2, e3⟩ := get_gamepad_vmouse e.which s
  have h1 : timer_inv (get_gamepad e.which s).1 := timer_inv_congr s _ e2 e1 e3 h
  unfold sdlinput_handle_caxis_event
  generalize get_gamepad e.which s = p at h1
  obtain ⟨s1, i⟩ := p
  simp only at h1 ⊢
  cases hax : axis_update ub s1.absinput_virtual_mouse (s1.gamepads i) e.value e.axis with
  | none => exact h1
  | some gb =>
    obtain ⟨g, b⟩ := gb
    have h2 : timer_inv (s1.setPad i g) := timer_inv_congr s1 _ rfl rfl rfl h1
    simp only
    split_ifs
    · exact h2
    · exact timer_inv_set_vector _ _ _ h2
    · exact timer_inv_set_vector _ _ _ h2
    · exact h2
    · exact h2

/-- Every transition of the virtual-mouse emulator keeps the timer invariant. -/
theorem timer_inv_step (ub : Nat) (s : InputState) (t : VMouseStep) (h : timer_inv s) :
    timer_inv (vmouse_step ub s t).1 := by
  cases t with
  | axis e => exact timer_inv_caxis ub s e h
  | mode m => exact timer_inv_congr s _ rfl rfl rfl h
  | tick id => exact timer_inv_tick s id h

/-- Every run of the virtual-mouse emulator keeps the timer invariant. -/
theorem timer_inv_run (ub : Nat) (steps : List VMouseStep) :
    ∀ s : InputState, timer_inv s → timer_inv (vmouse_run ub s steps).1 := by
  induction steps with
  | nil => intro s h; exact h
  | cons t rest ih =>
    intro s h
    simp only [vmouse_run]
    exact ih _ (timer_inv_step ub s t h)

/-- C22: at most one virtual-mouse timer instance.  In every state reached
from a state without scheduled timers by any sequence of axis events,
virtual-mouse mode changes and timer ticks (`SDL_AddTimer` handing out fresh
non-zero ids, a tick that returns 0 unscheduling its timer), at most one timer
is scheduled, and whenever one is scheduled `vmouse_timer_id` is its id, which
is not 0. -/
theorem C22_at_most_one_timer (ub : Nat) (s0 : InputState) (h0 : s0.timers = [])
    (hn : 0 < s0.next_timer_id) (steps : List VMouseStep) :
    (vmouse_run ub s0 steps).1.timers.length ≤ 1 ∧
    (vmouse_run ub s0 steps).1.timers.Nodup ∧
    (∀ t ∈ (vmouse_run ub s0 steps).1.timers,
      t = (vmouse_run ub s0 steps).1.vmouse_timer_id ∧ t ≠ 0) := by
  have h := timer_inv_run ub steps s0 ⟨Or.inl h0, hn⟩
  generalize (vmouse_run ub s0 steps).1 = s at h
  rcases h.scheduled with he | ⟨he, hne⟩
  · rw [he]
    exact ⟨by simp, List.nodup_nil, fun t ht => absurd ht (List.not_mem_nil t)⟩
  · refine ⟨by rw [he]; simp, by rw [he]; exact List.nodup_singleton _, ?_⟩
    intro t ht
    rw [he] at ht
    have : t = s.vmouse_timer_id := List.mem_singleton.mp ht
    exact ⟨this, by rw [this]; exact hne⟩

/-- C22 witness: from program start, after right-stick mode is selected and
the right stick is deflected, at most one timer is scheduled. -/
theorem C22_at_most_one_timer_witness :
    (vmouse_run 64 InputState.init staleTimerRun2).1.timers.length ≤ 1 :=
  (C22_at_most_one_timer 64 InputState.init rfl (by decide) staleTimerRun2).1


end Moonlight
